import Mathlib

/-!
Triton: the ADD instruction builder and the Python binding of the instruction record.

A shallow embedding of `src/ir/builders/AddIRBuilder.cpp`; the embedding of the Python
binding has a section of its own further down.

The builder is a straight-line program over two collaborators: the read-only
`ContextHandler` (concrete machine state) and the mutable `AnalysisProcessor`
(symbolic state manager and taint engine).  Both are defined
elsewhere in the repository, as are `smt2lib::bv`, `UNSET` and the flag builder
`zf`; the handlers are therefore written once, over a record of these operations
(`Externals`), with the analysis state threaded explicitly.  Two
implementations of that record are used below:

* `Externals.recording` wraps any implementation and keeps the list of calls
  made, with their arguments, so that what a handler passes to the analysis
  processor can be stated for every implementation;
* `Session.externals` is the session state described by the specification
  (versioned tables, fresh identifiers, taint sets).

In `Externals` the literal printer `smt2lib::bv` is the text it returns and only `zf`
may raise; `AddIRBuilder.regRegLib` is the register-register handler with the literal
printer as a call that may raise, as the specification asks of the expression library.

Integers of the C++ code (`uint64_t` ids, values and addresses, `uint32_t`
sizes) are natural numbers, taken within the range of their type; the builder
performs no arithmetic on them, it only compares a symbolic id with `UNSET`,
prints it in decimal and hands values on.
-/

namespace Triton

/-! ## Data model -/

/-- Modelled from the spec: the destination of a symbolic element, a canonical register id
or a memory address. -/
inductive Destination where
  | reg (regID : Nat)
  | mem (addr : Nat)
deriving DecidableEq, Repr

/-- Modelled from the spec: the `SymbolicElement` record declared in
`SymbolicElement.h`: id, expression text, destination, taint flag. -/
structure SymbolicElement where
  id : Nat
  expression : String
  destination : Destination
  isTainted : Bool
deriving DecidableEq, Repr

/-- Modelled from the spec: the `Inst` record, declared in a header of its own: the
address, the disassembly text and the ordered list of produced symbolic elements. -/
structure Inst where
  address : Nat
  disassembly : String
  elements : List SymbolicElement
deriving DecidableEq, Repr

/-- Modelled from the spec: `Inst::addElement`, defined with `Inst`; the produced
elements form an ordered list and a new element is appended at its end. -/
def Inst.addElement (inst : Inst) (se : SymbolicElement) : Inst :=
  { inst with elements := inst.elements ++ [se] }

/-- A C++ exception as its catcher sees it: the dynamic type and the text of `what()`; for
a thrown object that is not a class with `what()`, such as an `int`, the text of its
value. -/
structure Exception where
  dynamicType : String
  what : String
deriving DecidableEq, Repr

/-- One entry of `_operands`: the tuple (operand type, value, size);
`std::get<1>` is `.2.1` and `std::get<2>` is `.2.2`. -/
abbrev Operand := Nat × Nat × Nat

/-- The read-only `ContextHandler` interface used by the builder (all four are `const`
methods of an abstract class). -/
structure ContextHandler where
  translateRegID : Nat → Nat
  getRegisterSize : Nat → Nat
  getRegisterValue : Nat → Nat
  getMemoryValue : Nat → Nat → Nat

/-- What `AddIRBuilder.cpp` uses and does not define: the sentinel `UNSET`, the literal
printer `smt2lib::bv`, the methods of `AnalysisProcessor` it calls (each may change the
analysis state `σ`, which is passed by non-const reference) and the zero-flag builder
`zf` inherited from the base class.  `zf` may raise, after the primary element has been
registered; the lookups, registrations and taint rules are taken to return.  The literal
printer is the text it returns; `AddIRBuilder.regRegLib` takes it as a call that may
raise. -/
structure Externals (σ : Type) where
  UNSET : Nat
  bv : Nat → Nat → String
  getRegSymbolicID : Nat → σ → Nat × σ
  getMemorySymbolicID : Nat → σ → Nat × σ
  createRegSE : String → Nat → σ → SymbolicElement × σ
  createMemSE : String → Nat → σ → SymbolicElement × σ
  aluSpreadTaintRegImm : SymbolicElement → Nat → σ → SymbolicElement × σ
  aluSpreadTaintRegReg : SymbolicElement → Nat → Nat → σ → SymbolicElement × σ
  aluSpreadTaintRegMem : SymbolicElement → Nat → Nat → Nat → σ → SymbolicElement × σ
  aluSpreadTaintMemImm : SymbolicElement → Nat → Nat → σ → SymbolicElement × σ
  aluSpreadTaintMemReg : SymbolicElement → Nat → Nat → Nat → σ → SymbolicElement × σ
  zf : SymbolicElement → σ → Except Exception SymbolicElement × σ

/-- The state of an `AddIRBuilder` object: `_address`, `_disas`, `_operands`. -/
structure AddIRBuilder where
  address : Nat
  disas : String
  operands : List Operand

/-- The expression `_operands[i]`; the vector is only indexed at 0 and 1, by handlers that
the dispatcher reaches with both operands bound. -/
def AddIRBuilder.operand (this : AddIRBuilder) (i : Nat) : Operand :=
  this.operands.getD i (0, 0, 0)

/-- What a handler leaves behind: the exception it raised, if any, the instruction it was
filling in and the analysis state (both are passed by reference). -/
structure HandlerResult (σ : Type) where
  raised : Option Exception
  inst : Inst
  ap : σ

/-- The last two statements of every handler: `inst.addElement(se)` followed by
`inst.addElement(this->zf(se, ap))`; when `zf` raises, the second append does not happen. -/
def AddIRBuilder.addElements {σ : Type} (E : Externals σ) (se : SymbolicElement) (ap : σ)
    (inst : Inst) : HandlerResult σ :=
  let inst1 := inst.addElement se
  let z := E.zf se ap
  match z.1 with
  | .ok flag => ⟨none, inst1.addElement flag, z.2⟩
  | .error e => ⟨some e, inst1, z.2⟩

/-! ## The five handlers -/

/-- `AddIRBuilder::regImm` -/
def AddIRBuilder.regImm {σ : Type} (E : Externals σ) (this : AddIRBuilder)
    (ctxH : ContextHandler) (ap : σ) (inst : Inst) : HandlerResult σ :=
  let reg := (this.operand 0).2.1
  let imm := (this.operand 1).2.1
  let r1 := E.getRegSymbolicID (ctxH.translateRegID reg) ap
  let symReg := r1.1
  let regSize := ctxH.getRegisterSize reg
  let expr :=
    if symReg != E.UNSET then
      "(bvadd #" ++ toString symReg ++ " " ++ E.bv imm regSize ++ ")"
    else
      "(bvadd " ++ E.bv (ctxH.getRegisterValue reg) regSize ++ " " ++ E.bv imm regSize ++ ")"
  let r2 := E.createRegSE expr (ctxH.translateRegID reg) r1.2
  let r3 := E.aluSpreadTaintRegImm r2.1 (ctxH.translateRegID reg) r2.2
  AddIRBuilder.addElements E r3.1 r3.2 inst

/-- `AddIRBuilder::regReg` -/
def AddIRBuilder.regReg {σ : Type} (E : Externals σ) (this : AddIRBuilder)
    (ctxH : ContextHandler) (ap : σ) (inst : Inst) : HandlerResult σ :=
  let reg1 := (this.operand 0).2.1
  let reg2 := (this.operand 1).2.1
  let r1 := E.getRegSymbolicID (ctxH.translateRegID reg1) ap
  let symReg1 := r1.1
  let r2 := E.getRegSymbolicID (ctxH.translateRegID reg2) r1.2
  let symReg2 := r2.1
  let regSize := ctxH.getRegisterSize reg1
  let op1 :=
    if symReg1 != E.UNSET then "#" ++ toString symReg1
    else E.bv (ctxH.getRegisterValue reg1) regSize
  let op2 :=
    if symReg2 != E.UNSET then "#" ++ toString symReg2
    else E.bv (ctxH.getRegisterValue reg2) regSize
  let expr := "(bvadd " ++ op1 ++ " " ++ op2 ++ ")"
  let r3 := E.createRegSE expr (ctxH.translateRegID reg1) r2.2
  let r4 := E.aluSpreadTaintRegReg r3.1 (ctxH.translateRegID reg1) (ctxH.translateRegID reg2) r3.2
  AddIRBuilder.addElements E r4.1 r4.2 inst

/-- `AddIRBuilder::regMem` -/
def AddIRBuilder.regMem {σ : Type} (E : Externals σ) (this : AddIRBuilder)
    (ctxH : ContextHandler) (ap : σ) (inst : Inst) : HandlerResult σ :=
  let readSize := (this.operand 1).2.2
  let mem := (this.operand 1).2.1
  let reg := (this.operand 0).2.1
  let r1 := E.getRegSymbolicID (ctxH.translateRegID reg) ap
  let symReg := r1.1
  let r2 := E.getMemorySymbolicID mem r1.2
  let symMem := r2.1
  let op1 :=
    if symReg != E.UNSET then "#" ++ toString symReg
    else E.bv (ctxH.getRegisterValue reg) readSize
  let op2 :=
    if symMem != E.UNSET then "#" ++ toString symMem
    else E.bv (ctxH.getMemoryValue mem readSize) readSize
  let expr := "(bvadd " ++ op1 ++ " " ++ op2 ++ ")"
  let r3 := E.createRegSE expr (ctxH.translateRegID reg) r2.2
  let r4 := E.aluSpreadTaintRegMem r3.1 (ctxH.translateRegID reg) mem readSize r3.2
  AddIRBuilder.addElements E r4.1 r4.2 inst

/-- `AddIRBuilder::memImm` -/
def AddIRBuilder.memImm {σ : Type} (E : Externals σ) (this : AddIRBuilder)
    (ctxH : ContextHandler) (ap : σ) (inst : Inst) : HandlerResult σ :=
  let writeSize := (this.operand 0).2.2
  let mem := (this.operand 0).2.1
  let imm := (this.operand 1).2.1
  let r1 := E.getMemorySymbolicID mem ap
  let symMem := r1.1
  let expr :=
    if symMem != E.UNSET then
      "(bvadd #" ++ toString symMem ++ " " ++ E.bv imm writeSize ++ ")"
    else
      "(bvadd " ++ E.bv (ctxH.getMemoryValue mem writeSize) writeSize ++ " "
        ++ E.bv imm writeSize ++ ")"
  let r2 := E.createMemSE expr mem r1.2
  let r3 := E.aluSpreadTaintMemImm r2.1 mem writeSize r2.2
  AddIRBuilder.addElements E r3.1 r3.2 inst

/-- `AddIRBuilder::memReg` -/
def AddIRBuilder.memReg {σ : Type} (E : Externals σ) (this : AddIRBuilder)
    (ctxH : ContextHandler) (ap : σ) (inst : Inst) : HandlerResult σ :=
  let writeSize := (this.operand 0).2.2
  let mem := (this.operand 0).2.1
  let reg := (this.operand 1).2.1
  let r1 := E.getRegSymbolicID (ctxH.translateRegID reg) ap
  let symReg := r1.1
  let r2 := E.getMemorySymbolicID mem r1.2
  let symMem := r2.1
  let op1 :=
    if symMem != E.UNSET then "#" ++ toString symMem
    else E.bv (ctxH.getMemoryValue mem writeSize) writeSize
  let op2 :=
    if symReg != E.UNSET then "#" ++ toString symReg
    else E.bv (ctxH.getRegisterValue reg) writeSize
  let expr := "(bvadd " ++ op1 ++ " " ++ op2 ++ ")"
  let r3 := E.createMemSE expr mem r2.2
  let r4 := E.aluSpreadTaintMemReg r3.1 mem (ctxH.translateRegID reg) writeSize r3.2
  AddIRBuilder.addElements E r4.1 r4.2 inst

/-! ## Recording the calls a handler makes -/

deriving instance DecidableEq for Except

/-- One call into the analysis processor or the flag builder: the arguments passed and,
last, what the call returned. -/
inductive Call where
  | getRegSymbolicID (regID : Nat) (result : Nat)
  | getMemorySymbolicID (addr : Nat) (result : Nat)
  | createRegSE (expr : String) (regID : Nat) (result : SymbolicElement)
  | createMemSE (expr : String) (addr : Nat) (result : SymbolicElement)
  | aluSpreadTaintRegImm (se : SymbolicElement) (regDst : Nat) (result : SymbolicElement)
  | aluSpreadTaintRegReg (se : SymbolicElement) (regDst regSrc : Nat) (result : SymbolicElement)
  | aluSpreadTaintRegMem (se : SymbolicElement) (regDst memSrc readSize : Nat)
      (result : SymbolicElement)
  | aluSpreadTaintMemImm (se : SymbolicElement) (memDst writeSize : Nat)
      (result : SymbolicElement)
  | aluSpreadTaintMemReg (se : SymbolicElement) (memDst regSrc writeSize : Nat)
      (result : SymbolicElement)
  | zf (se : SymbolicElement) (result : Except Exception SymbolicElement)
deriving DecidableEq

/-- An implementation that answers like `E` and appends every call it receives, with the
answer of `E`, to a log kept next to the state of `E`. -/
def Externals.recording {σ : Type} (E : Externals σ) : Externals (σ × List Call) where
  UNSET := E.UNSET
  bv := E.bv
  getRegSymbolicID regID s :=
    let r := E.getRegSymbolicID regID s.1
    (r.1, (r.2, s.2 ++ [Call.getRegSymbolicID regID r.1]))
  getMemorySymbolicID addr s :=
    let r := E.getMemorySymbolicID addr s.1
    (r.1, (r.2, s.2 ++ [Call.getMemorySymbolicID addr r.1]))
  createRegSE expr regID s :=
    let r := E.createRegSE expr regID s.1
    (r.1, (r.2, s.2 ++ [Call.createRegSE expr regID r.1]))
  createMemSE expr addr s :=
    let r := E.createMemSE expr addr s.1
    (r.1, (r.2, s.2 ++ [Call.createMemSE expr addr r.1]))
  aluSpreadTaintRegImm se regDst s :=
    let r := E.aluSpreadTaintRegImm se regDst s.1
    (r.1, (r.2, s.2 ++ [Call.aluSpreadTaintRegImm se regDst r.1]))
  aluSpreadTaintRegReg se regDst regSrc s :=
    let r := E.aluSpreadTaintRegReg se regDst regSrc s.1
    (r.1, (r.2, s.2 ++ [Call.aluSpreadTaintRegReg se regDst regSrc r.1]))
  aluSpreadTaintRegMem se regDst memSrc readSize s :=
    let r := E.aluSpreadTaintRegMem se regDst memSrc readSize s.1
    (r.1, (r.2, s.2 ++ [Call.aluSpreadTaintRegMem se regDst memSrc readSize r.1]))
  aluSpreadTaintMemImm se memDst writeSize s :=
    let r := E.aluSpreadTaintMemImm se memDst writeSize s.1
    (r.1, (r.2, s.2 ++ [Call.aluSpreadTaintMemImm se memDst writeSize r.1]))
  aluSpreadTaintMemReg se memDst regSrc writeSize s :=
    let r := E.aluSpreadTaintMemReg se memDst regSrc writeSize s.1
    (r.1, (r.2, s.2 ++ [Call.aluSpreadTaintMemReg se memDst regSrc writeSize r.1]))
  zf se s :=
    let r := E.zf se s.1
    (r.1, (r.2, s.2 ++ [Call.zf se r.1]))

/-- The calls a handler made, in order, when run on `E.recording` from an empty log. -/
def calls {σ : Type} (r : HandlerResult (σ × List Call)) : List Call := r.ap.2

/-- The expression and destination of a call that creates a symbolic element. -/
def Call.created : Call → Option (String × Destination)
  | Call.createRegSE expr regID _ => some (expr, Destination.reg regID)
  | Call.createMemSE expr addr _ => some (expr, Destination.mem addr)
  | _ => none

/-! ## The session state of the specification -/

/-- Modelled from the spec: the reserved sentinel `UNSET` ("no symbolic predecessor, use
the concrete value"), defined in a header of the analysis core; the largest 64-bit
value is taken for it. -/
def UNSET : Nat := 18446744073709551615

/-- Modelled from the spec: the digits of a literal, `value` in upper-case hexadecimal,
zero-extended on the left to `digits` digits. -/
def hexDigits (value digits : Nat) : List Char :=
  List.replicate (digits - (Nat.toDigits 16 value).length) (Char.ofNat 48)
    ++ (Nat.toDigits 16 value).map Char.toUpper

/-- Modelled from the spec: the text of a literal of `smt2lib::bv`, defined in the
expression library; a width-tagged literal is written as the value in hexadecimal,
zero-extended to the width, followed by a colon and the width in bits, as in
`0x0000000A:32`.  This is the text the library returns for a value that fits the width;
the construction itself, which fails for a value that does not fit, is
`smt2lib.bvChecked`. -/
def smt2lib.bv (value size : Nat) : String :=
  "0x" ++ String.mk (hexDigits value ((size + 3) / 4)) ++ ":" ++ toString size

/-- Modelled from the spec: the `WidthMismatch` condition of the expression library. -/
def WidthMismatch (value size : Nat) : Exception :=
  ⟨"WidthMismatch",
    "bv: the value " ++ toString value ++ " does not fit the width " ++ toString size⟩

/-- Modelled from the spec: `smt2lib::bv` as a call that may fail (4.1, 7): a literal is
constructed when the value fits the width in bits; a value that does not fit is neither
truncated nor printed whole, the construction fails with `WidthMismatch`. -/
def smt2lib.bvChecked (value size : Nat) : Except Exception String :=
  if value < 2 ^ size then Except.ok (smt2lib.bv value size)
  else Except.error (WidthMismatch value size)

/-- Modelled from the spec: the Symbolic State Table (canonical register id and memory
address to latest symbolic id, `UNSET` when never written), the counter of issued ids and
the Taint State (tainted canonical registers, tainted addresses); these live in the state
manager and the taint engine behind `AnalysisProcessor`. -/
structure Session where
  regTable : Nat → Nat
  memTable : Nat → Nat
  nextID : Nat
  taintedRegs : Nat → Bool
  taintedMem : Nat → Bool

/-- Modelled from the spec: the session at analysis start, nothing written, nothing tainted. -/
def Session.empty : Session :=
  ⟨fun _ => UNSET, fun _ => UNSET, 0, fun _ => false, fun _ => false⟩

/-- Modelled from the spec: `resolveRegister`, the latest version or `UNSET`; a pure lookup. -/
def Session.resolveRegister (s : Session) (canonicalId : Nat) : Nat := s.regTable canonicalId

/-- Modelled from the spec: `resolveMemory`, the latest version or `UNSET`; a pure lookup. -/
def Session.resolveMemory (s : Session) (address : Nat) : Nat := s.memTable address

/-- Modelled from the spec: `createRegisterElement` allocates a fresh id, builds the
element and points the register table at it. -/
def Session.createRegisterElement (expression : String) (destinationRegister : Nat)
    (s : Session) : SymbolicElement × Session :=
  (⟨s.nextID, expression, Destination.reg destinationRegister, false⟩,
    { s with
      regTable := fun k => if k = destinationRegister then s.nextID else s.regTable k
      nextID := s.nextID + 1 })

/-- Modelled from the spec: `createMemoryElement`, symmetric for memory. -/
def Session.createMemoryElement (expression : String) (destinationAddress : Nat)
    (s : Session) : SymbolicElement × Session :=
  (⟨s.nextID, expression, Destination.mem destinationAddress, false⟩,
    { s with
      memTable := fun k => if k = destinationAddress then s.nextID else s.memTable k
      nextID := s.nextID + 1 })

/-- Modelled from the spec: `isTainted` of a canonical register. -/
def Session.isRegTainted (s : Session) (regID : Nat) : Bool := s.taintedRegs regID

/-- Modelled from the spec: `isTainted` of a memory range, true when one of its
addresses is tainted.  The size is the number the builder hands to the taint rule, which
is the number it hands to `smt2lib::bv` as the width of the literal: a width in bits, so
the range is the `size / 8` bytes from `addr`. -/
def Session.isMemTainted (s : Session) (addr size : Nat) : Bool :=
  (List.range (size / 8)).any fun i => s.taintedMem (addr + i)

/-- Modelled from the spec: rule "reg ⊕= imm", destination taint is unchanged; the
element carries the taint of its destination. -/
def Session.aluSpreadTaintRegImm (se : SymbolicElement) (regDst : Nat) (s : Session) :
    SymbolicElement × Session :=
  ({ se with isTainted := s.isRegTainted regDst }, s)

/-- Modelled from the spec: rule "reg ⊕= reg", destination taint becomes
`taint(dest) OR taint(source)`. -/
def Session.aluSpreadTaintRegReg (se : SymbolicElement) (regDst regSrc : Nat) (s : Session) :
    SymbolicElement × Session :=
  let t := s.isRegTainted regDst || s.isRegTainted regSrc
  ({ se with isTainted := t },
    { s with taintedRegs := fun k => if k = regDst then t else s.taintedRegs k })

/-- Modelled from the spec: rule "reg ⊕= mem", destination taint becomes
`taint(dest) OR taint(memory-range)`. -/
def Session.aluSpreadTaintRegMem (se : SymbolicElement) (regDst memSrc readSize : Nat)
    (s : Session) : SymbolicElement × Session :=
  let t := s.isRegTainted regDst || s.isMemTainted memSrc readSize
  ({ se with isTainted := t },
    { s with taintedRegs := fun k => if k = regDst then t else s.taintedRegs k })

/-- Modelled from the spec: rule "mem ⊕= imm", destination memory taint unchanged. -/
def Session.aluSpreadTaintMemImm (se : SymbolicElement) (memDst writeSize : Nat)
    (s : Session) : SymbolicElement × Session :=
  ({ se with isTainted := s.isMemTainted memDst writeSize }, s)

/-- Modelled from the spec: rule "mem ⊕= reg", destination memory taint becomes
`taint(mem) OR taint(reg)`, for every address of the written range, the `writeSize / 8`
bytes from `memDst`. -/
def Session.aluSpreadTaintMemReg (se : SymbolicElement) (memDst regSrc writeSize : Nat)
    (s : Session) : SymbolicElement × Session :=
  let t := s.isMemTainted memDst writeSize || s.isRegTainted regSrc
  ({ se with isTainted := t },
    { s with
      taintedMem := fun a =>
        if memDst ≤ a ∧ a < memDst + writeSize / 8 then t else s.taintedMem a })

/-- Modelled from the spec: the zero-flag builder `zf` of the base class; the secondary
expression `(result == 0)` is built over the primary expression and registered the same
way, as a register element whose destination is the zero flag `zfReg`. -/
def Session.zf (zfReg : Nat) (se : SymbolicElement) (s : Session) :
    Except Exception SymbolicElement × Session :=
  let r := Session.createRegisterElement (se.expression ++ " == 0") zfReg s
  (Except.ok r.1, r.2)

/-- Modelled from the spec: the analysis processor over a `Session`, with the literal
notation and the sentinel above; `zfReg` is the canonical id of the zero flag. -/
def Session.externals (zfReg : Nat) : Externals Session where
  UNSET := UNSET
  bv := smt2lib.bv
  getRegSymbolicID regID s := (s.resolveRegister regID, s)
  getMemorySymbolicID addr s := (s.resolveMemory addr, s)
  createRegSE := Session.createRegisterElement
  createMemSE := Session.createMemoryElement
  aluSpreadTaintRegImm := Session.aluSpreadTaintRegImm
  aluSpreadTaintRegReg := Session.aluSpreadTaintRegReg
  aluSpreadTaintRegMem := Session.aluSpreadTaintRegMem
  aluSpreadTaintMemImm := Session.aluSpreadTaintMemImm
  aluSpreadTaintMemReg := Session.aluSpreadTaintMemReg
  zf := Session.zf zfReg

/-- The register ids a call passes: lookup key, registration key, taint-rule registers. -/
def Call.registerArgs : Call → List Nat
  | Call.getRegSymbolicID regID _ => [regID]
  | Call.createRegSE _ regID _ => [regID]
  | Call.aluSpreadTaintRegImm _ regDst _ => [regDst]
  | Call.aluSpreadTaintRegReg _ regDst regSrc _ => [regDst, regSrc]
  | Call.aluSpreadTaintRegMem _ regDst _ _ _ => [regDst]
  | Call.aluSpreadTaintMemReg _ _ regSrc _ _ => [regSrc]
  | _ => []

/-- The element returned by a call of one of the five taint rules. -/
def Call.taintResult : Call → Option SymbolicElement
  | Call.aluSpreadTaintRegImm _ _ result => some result
  | Call.aluSpreadTaintRegReg _ _ _ result => some result
  | Call.aluSpreadTaintRegMem _ _ _ _ result => some result
  | Call.aluSpreadTaintMemImm _ _ _ result => some result
  | Call.aluSpreadTaintMemReg _ _ _ _ result => some result
  | _ => none

/-- Whether a call is a call of one of the five taint rules. -/
def Call.isTaintRule : Call → Bool
  | Call.aluSpreadTaintRegImm _ _ _ => true
  | Call.aluSpreadTaintRegReg _ _ _ _ => true
  | Call.aluSpreadTaintRegMem _ _ _ _ _ => true
  | Call.aluSpreadTaintMemImm _ _ _ _ => true
  | Call.aluSpreadTaintMemReg _ _ _ _ _ => true
  | _ => false

/-- The argument and the outcome of a call of the flag builder. -/
def Call.flagBuilt : Call → Option (SymbolicElement × Except Exception SymbolicElement)
  | Call.zf se result => some (se, result)
  | _ => none

/-- What a handler run on a recording implementation did to the instruction `inst`: one
taint rule returned the primary element `se`; the flag builder was called once, last, on
`se`; the handler completes exactly when that call does not raise, and then the
instruction is `inst` with `se` and the flag element appended, in this order. -/
def AppendsPrimaryThenZF {σ : Type} (inst : Inst) (r : HandlerResult (σ × List Call)) : Prop :=
  ∃ se zres, (calls r).filterMap Call.taintResult = [se]
    ∧ (calls r).filterMap Call.flagBuilt = [(se, zres)]
    ∧ (calls r).getLast? = some (Call.zf se zres)
    ∧ (r.raised = none ↔ ∃ flag, zres = Except.ok flag)
    ∧ ∀ flag, zres = Except.ok flag →
        r.inst = { inst with elements := inst.elements ++ [se, flag] }

/-- The text of an operand in an expression: the literal of the concrete value at the given
width when the operand has no symbolic id, the reference `#id` in decimal otherwise. -/
def operandText {σ : Type} (E : Externals σ) (id value width : Nat) : String :=
  if id = E.UNSET then E.bv value width else "#" ++ toString id

/-- The primary element of a handler run on the session of the specification: the run
appended an element with the next fresh id and the register destination `c`, followed by
one more element, and the register table resolves `c` to that element. -/
def RegistersPrimary (s : Session) (inst : Inst) (c : Nat) (r : HandlerResult Session) : Prop :=
  ∃ se flag, r.inst.elements = inst.elements ++ [se, flag] ∧ se.id = s.nextID
    ∧ se.destination = Destination.reg c ∧ r.ap.resolveRegister c = se.id

/-! ## Scenario data -/

/-- The canonical register `RAX`; the register ids of the scenarios are arbitrary distinct
numbers. -/
def RAX : Nat := 1

/-- The canonical register `RBX`. -/
def RBX : Nat := 2

/-- The 32-bit view of `RAX`. -/
def EAX : Nat := 11

/-- The 32-bit view of `RBX`. -/
def EBX : Nat := 12

/-- The low 8-bit view of `RBX`. -/
def BL : Nat := 22

/-- The zero flag. -/
def ZF : Nat := 30

/-- A context for the scenarios: `EAX` and `EBX` are 32 bits wide and hold 10 and 7, the
8-bit register `BL` holds 7, memory at address 4096 holds 66. -/
def scenarioCtx : ContextHandler where
  translateRegID r := if r = EAX then RAX else if r = EBX ∨ r = BL then RBX else r
  getRegisterSize r := if r = EAX ∨ r = EBX then 32 else if r = BL then 8 else 64
  getRegisterValue r := if r = EAX then 10 else if r = EBX ∨ r = BL then 7 else 0
  getMemoryValue addr _ := if addr = 4096 then 66 else 0

/-- The builder of `ADD EAX, 5`; the first component of an operand is its type tag, which
the handlers do not read. -/
def addEaxImm : AddIRBuilder := ⟨4194304, "add eax, 5", [(1, EAX, 32), (0, 5, 32)]⟩

/-- The builder of `ADD EAX, EBX`. -/
def addEaxEbx : AddIRBuilder := ⟨4194304, "add eax, ebx", [(1, EAX, 32), (1, EBX, 32)]⟩

/-- The builder of an addition of the 8-bit `BL` to the 32-bit `EAX`. -/
def addEaxBl : AddIRBuilder := ⟨4194304, "add eax, bl", [(1, EAX, 32), (1, BL, 8)]⟩

/-- The builder of `ADD [4096], 1`, a 32-bit access. -/
def addMemImm : AddIRBuilder := ⟨4194304, "add dword ptr [0x1000], 1", [(2, 4096, 32), (0, 1, 32)]⟩

/-- The session of Scenario B: `EAX` was last written by element 3, the next id is 4, and
the canonical registers of `EAX` and `EBX` are tainted. -/
def scenarioB : Session :=
  ⟨fun k => if k = RAX then 3 else UNSET, fun _ => UNSET, 4,
    fun k => decide (k = RAX ∨ k = RBX), fun _ => false⟩

/-- A session in which the canonical register of `EAX` is tainted when `a` holds and the
one of `EBX` when `b` holds, and nothing else is. -/
def taintedSession (a b : Bool) : Session :=
  ⟨fun _ => UNSET, fun _ => UNSET, 0,
    fun k => (decide (k = RAX) && a) || (decide (k = RBX) && b), fun _ => false⟩

/-- A fresh instruction record for a builder, as `process` allocates it. -/
def AddIRBuilder.newInst (this : AddIRBuilder) : Inst := ⟨this.address, this.disas, []⟩

/-! ## Dispatch and `process` -/

/-- Modelled from the spec: the tag of an immediate in an `_operands` entry; the enumeration
is declared with the builder's operand type. -/
def IRBuilderOperand.IMM : Nat := 0

/-- Modelled from the spec: the tag of a register in an `_operands` entry. -/
def IRBuilderOperand.REG : Nat := 1

/-- Modelled from the spec: the tag of a memory access in an `_operands` entry. -/
def IRBuilderOperand.MEM : Nat := 2

/-- Modelled from the spec: the `UnconfiguredOperands` condition, raised when a builder is
run before its operands are bound; like every surfaced error it identifies the address
and the instruction. -/
def UnconfiguredOperands (address : Nat) (insName : String) : Exception :=
  ⟨"UnconfiguredOperands", insName ++ " at " ++ toString address ++ ": operands are not bound"⟩

/-- Modelled from the spec: the `UnsupportedAddressingMode` condition, raised when the
operand types of the instruction have no handler. -/
def UnsupportedAddressingMode (address : Nat) (insName : String) : Exception :=
  ⟨"UnsupportedAddressingMode",
    insName ++ " at " ++ toString address ++ ": no handler for these operand types"⟩

/-- Modelled from the spec: `checkSetup` of the base class; it raises
`UnconfiguredOperands` when no operand is bound and reads nothing but the builder. -/
def AddIRBuilder.checkSetup (this : AddIRBuilder) : Option Exception :=
  if this.operands.isEmpty then some (UnconfiguredOperands this.address this.disas) else none

/-- Modelled from the spec: `templateMethod` of the base class; it selects the handler of
the addressing mode (reg-imm, reg-reg, reg-mem, mem-imm, mem-reg) from the types of the
two operands and raises `UnsupportedAddressingMode` for every other combination. -/
def AddIRBuilder.templateMethod {σ : Type} (E : Externals σ) (this : AddIRBuilder)
    (ctxH : ContextHandler) (ap : σ) (inst : Inst) (operands : List Operand)
    (insName : String) : HandlerResult σ :=
  match operands with
  | [op0, op1] =>
    if op0.1 = IRBuilderOperand.REG ∧ op1.1 = IRBuilderOperand.IMM then
      AddIRBuilder.regImm E this ctxH ap inst
    else if op0.1 = IRBuilderOperand.REG ∧ op1.1 = IRBuilderOperand.REG then
      AddIRBuilder.regReg E this ctxH ap inst
    else if op0.1 = IRBuilderOperand.REG ∧ op1.1 = IRBuilderOperand.MEM then
      AddIRBuilder.regMem E this ctxH ap inst
    else if op0.1 = IRBuilderOperand.MEM ∧ op1.1 = IRBuilderOperand.IMM then
      AddIRBuilder.memImm E this ctxH ap inst
    else if op0.1 = IRBuilderOperand.MEM ∧ op1.1 = IRBuilderOperand.REG then
      AddIRBuilder.memReg E this ctxH ap inst
    else ⟨some (UnsupportedAddressingMode this.address insName), inst, ap⟩
  | _ => ⟨some (UnsupportedAddressingMode this.address insName), inst, ap⟩

/-- The exception object made by `throw e` when `e` is a `std::exception &`: the thrown
object is copy-initialised from the static type of `e`, so it is a plain
`std::exception`, whatever was caught; its `what()` is the text of the base class. -/
def Exception.rethrownByValue (_e : Exception) : Exception :=
  ⟨"std::exception", "std::exception"⟩

/-- Modelled from the spec: the classes derived from `std::exception`, by name.  They are
the exception classes of the standard library and the four conditions of the taxonomy of
the specification, whose classes are declared outside `src/`; the `catch` clause of
`process` is written for them.  A dynamic type that is not listed, such as `int` or
`const char*`, is not derived from `std::exception`. -/
def stdExceptionClasses : List String :=
  ["std::exception", "std::logic_error", "std::invalid_argument", "std::domain_error",
   "std::length_error", "std::out_of_range", "std::runtime_error", "std::range_error",
   "std::overflow_error", "std::underflow_error", "std::bad_alloc",
   "UnconfiguredOperands", "UnsupportedAddressingMode", "WidthMismatch",
   "InvalidContextTarget"]

/-- Whether the handler `catch (std::exception &e)` matches the exception: its dynamic type
is `std::exception` or a class derived from it. -/
def Exception.isStdException (e : Exception) : Bool :=
  stdExceptionClasses.contains e.dynamicType

/-- `AddIRBuilder::process`: `checkSetup`, a fresh `Inst`, the dispatch under `try`.  The
clause `catch (std::exception &e)` matches an exception derived from `std::exception`: it
deletes the instruction and executes `throw e`.  An exception of any other type is not
caught: it leaves `process` as it was raised, and the instruction is not deleted.  The
result is the instruction returned or the exception that leaves `process`, with the
analysis state. -/
def AddIRBuilder.process {σ : Type} (E : Externals σ) (this : AddIRBuilder)
    (ctxH : ContextHandler) (ap : σ) : Except Exception Inst × σ :=
  match this.checkSetup with
  | some e => (Except.error e, ap)
  | none =>
    let inst : Inst := ⟨this.address, this.disas, []⟩
    let r := AddIRBuilder.templateMethod E this ctxH ap inst this.operands "ADD"
    match r.raised with
    | some e =>
      if e.isStdException then (Except.error e.rethrownByValue, r.ap)
      else (Except.error e, r.ap)
    | none => (Except.ok r.inst, r.ap)

/-- Whether a call is one of the two lookups of the symbolic state. -/
def Call.isLookup : Call → Bool
  | Call.getRegSymbolicID _ _ => true
  | Call.getMemorySymbolicID _ _ => true
  | _ => false

/-- The exception carried by the outcome of a call, if it raised. -/
def raisedBy {α : Type} : Except Exception α → Option Exception
  | Except.ok _ => none
  | Except.error e => some e

/-- The session of the specification with a flag builder that raises `e` and leaves the
session as it finds it. -/
def Session.externalsRaising (e : Exception) : Externals Session :=
  { Session.externals 0 with zf := fun _ s => (Except.error e, s) }

/-- The builder of an addition with two immediates, for which there is no handler. -/
def addImmImm : AddIRBuilder := ⟨4194304, "add 1, 2", [(0, 1, 32), (0, 2, 32)]⟩

/-- The builder of an addition whose operands were not bound. -/
def addUnbound : AddIRBuilder := ⟨4194304, "add", []⟩

/-- An exception for the scenarios in which the flag builder raises. -/
def zfFailure : Exception := ⟨"std::runtime_error", "zf: cannot build the flag"⟩

/-- A session in which every operand of the scenarios has a symbolic id: 3 for `RAX`, 5 for
`RBX`, 6 for the memory at 4096. -/
def shadowSession : Session :=
  ⟨fun k => if k = RAX then 3 else if k = RBX then 5 else UNSET,
    fun a => if a = 4096 then 6 else UNSET, 7, fun _ => false, fun _ => false⟩

/-- A context with the register mapping and sizes of `scenarioCtx` and other concrete
values: 99 in every register, 77 at every address. -/
def otherValuesCtx : ContextHandler :=
  { scenarioCtx with getRegisterValue := fun _ => 99, getMemoryValue := fun _ _ => 77 }

/-! ## The Python binding of the instruction record

An embedding of `src/libtriton/bindings/python/objects/pyInstruction.cpp`.  A binding
function receives `self`, whose instruction it may change, and returns a Python object or
`NULL`; it is a function from the instruction and the argument to the value returned and
the instruction afterwards.  Sizes stored in `triton::uint32` are reduced modulo `2 ^ 32`.
-/

/-- Modelled from the spec: the immediate operand class of the architecture layer, an
immediate value with its declared width. -/
structure ImmediateOperand where
  value : Nat
  size : Nat
deriving DecidableEq

/-- Modelled from the spec: the memory operand class, an address with its access size and
the concrete value supplied for a load. -/
structure MemoryOperand where
  address : Nat
  size : Nat
  concreteValue : Nat
deriving DecidableEq

/-- Modelled from the spec: the register operand class, a register reference with a
concrete value; `flag` tells whether it is a sub-field flag register. -/
structure RegisterOperand where
  id : Nat
  concreteValue : Nat
  flag : Bool
deriving DecidableEq

/-- Modelled from the spec: `RegisterOperand::isFlag`. -/
def RegisterOperand.isFlag (reg : RegisterOperand) : Bool := reg.flag

/-- Modelled from the spec: the operand type `OP_INVALID`, neither immediate, memory nor
register. -/
def OP_INVALID : Nat := 0

/-- Modelled from the spec: the operand type `OP_IMM`. -/
def OP_IMM : Nat := 1

/-- Modelled from the spec: the operand type `OP_MEM`. -/
def OP_MEM : Nat := 2

/-- Modelled from the spec: the operand type `OP_REG`. -/
def OP_REG : Nat := 3

/-- Modelled from the spec: the operand wrapper class, an entry of the ordered operand
list: a type tag and one member for each kind of operand. -/
structure OperandWrapper where
  type : Nat
  imm : ImmediateOperand
  mem : MemoryOperand
  reg : RegisterOperand
deriving DecidableEq

/-- Modelled from the spec: `OperandWrapper::getType`. -/
def OperandWrapper.getType (op : OperandWrapper) : Nat := op.type

/-- Modelled from the spec: `OperandWrapper::getImmediate`. -/
def OperandWrapper.getImmediate (op : OperandWrapper) : ImmediateOperand := op.imm

/-- Modelled from the spec: `OperandWrapper::getMemory`. -/
def OperandWrapper.getMemory (op : OperandWrapper) : MemoryOperand := op.mem

/-- Modelled from the spec: `OperandWrapper::getRegister`. -/
def OperandWrapper.getRegister (op : OperandWrapper) : RegisterOperand := op.reg

/-- Modelled from the spec: the instruction class of the architecture layer, as far as the
binding uses it: ordered operands, ordered symbolic expressions, the opcode bytes with
their size, and the concrete context supplied by the caller. -/
structure Instruction where
  operands : List OperandWrapper
  symbolicExpressions : List SymbolicElement
  opcodes : List (Fin 256)
  opcodesSize : Nat
  memoryContext : List MemoryOperand
  registerContext : List RegisterOperand
deriving DecidableEq

/-- Modelled from the spec: `Instruction::setOpcodes(opcodes, size)`, which stores the
first `size` bytes and the size. -/
def Instruction.setOpcodes (inst : Instruction) (opcodes : List (Fin 256)) (size : Nat) :
    Instruction :=
  { inst with opcodes := opcodes.take size, opcodesSize := size }

/-- Modelled from the spec: `Instruction::updateContext` for a memory operand, which adds
the concrete value of a load access to the context. -/
def Instruction.updateContextMem (inst : Instruction) (mem : MemoryOperand) : Instruction :=
  { inst with memoryContext := inst.memoryContext ++ [mem] }

/-- Modelled from the spec: `Instruction::updateContext` for a register operand, which adds
the concrete value of a register to the context. -/
def Instruction.updateContextReg (inst : Instruction) (reg : RegisterOperand) : Instruction :=
  { inst with registerContext := inst.registerContext ++ [reg] }

/-- The Python objects the binding meets: `None`, a bytes string, an integer, the wrapper
objects of the three operand classes and of a symbolic expression, and any other object. -/
inductive PyObject where
  | none
  | bytes (data : List (Fin 256))
  | long (value : Nat)
  | immediateOperand (imm : ImmediateOperand)
  | memoryOperand (mem : MemoryOperand)
  | registerOperand (reg : RegisterOperand)
  | symbolicExpression (expr : SymbolicElement)
  | other (typeName : String)
deriving DecidableEq

/-- What a binding function returns: an object, a list object given by its slots (an
empty slot is a `NULL` item), `NULL` with no error set, or `NULL` after `PyErr_Format`. -/
inductive PyReturn where
  | object (obj : PyObject)
  | list (items : List (Option PyObject))
  | null
  | error (excType : String) (message : String)
deriving DecidableEq

/-- The macro `PyBytes_Check`. -/
def PyBytes_Check : PyObject → Bool
  | PyObject.bytes _ => true
  | _ => false

/-- The function `PyBytes_Size` on a bytes object. -/
def PyBytes_Size : PyObject → Nat
  | PyObject.bytes data => data.length
  | _ => 0

/-- The function `PyBytes_AsString` on a bytes object: its buffer. -/
def PyBytes_AsString : PyObject → List (Fin 256)
  | PyObject.bytes data => data
  | _ => []

/-- Modelled from the spec: the macro `PyMemoryOperand_Check`, true of the wrapper objects
of memory operands. -/
def PyMemoryOperand_Check : PyObject → Bool
  | PyObject.memoryOperand _ => true
  | _ => false

/-- Modelled from the spec: the macro `PyRegisterOperand_Check`, true of the wrapper objects
of register operands. -/
def PyRegisterOperand_Check : PyObject → Bool
  | PyObject.registerOperand _ => true
  | _ => false

/-- Modelled from the spec: `PyImmediateOperand`, which creates the wrapper object of an
immediate operand. -/
def PyImmediateOperand (imm : ImmediateOperand) : PyObject := PyObject.immediateOperand imm

/-- Modelled from the spec: `PyMemoryOperand`, which creates the wrapper object of a memory
operand. -/
def PyMemoryOperand (mem : MemoryOperand) : PyObject := PyObject.memoryOperand mem

/-- Modelled from the spec: `PyRegisterOperand`, which creates the wrapper object of a
register operand. -/
def PyRegisterOperand (reg : RegisterOperand) : PyObject := PyObject.registerOperand reg

/-- Modelled from the spec: `PySymbolicExpression`, declared in `pythonObjects.hpp` and
defined with the wrapper class; it creates the wrapper object of a symbolic expression. -/
def PySymbolicExpression (expr : SymbolicElement) : PyObject := PyObject.symbolicExpression expr

/-- Modelled from the spec: `xPyList_New`, a new list object of the given size, every slot
still empty. -/
def xPyList_New (size : Nat) : List (Option PyObject) := List.replicate size Option.none

/-- The function `PyList_SetItem`: the slot at `index` receives the object. -/
def PyList_SetItem (list : List (Option PyObject)) (index : Nat) (obj : PyObject) :
    List (Option PyObject) :=
  list.set index (some obj)

/-- The operand `inst->operands[i]`; the binding reads it only at indices below the size. -/
def Instruction.operandAt (inst : Instruction) (i : Nat) : OperandWrapper :=
  inst.operands.getD i ⟨OP_INVALID, ⟨0, 0⟩, ⟨0, 0, 0⟩, ⟨0, 0, false⟩⟩

/-- The body shared by `getFirstOperand`, `getSecondOperand` and `getThirdOperand` after
the size test: the object for the operand at `i`, `nullptr` when its type is none of the
three. -/
def operandObject (inst : Instruction) (i : Nat) : PyReturn :=
  if (inst.operandAt i).getType = OP_IMM then
    PyReturn.object (PyImmediateOperand (inst.operandAt i).getImmediate)
  else if (inst.operandAt i).getType = OP_MEM then
    PyReturn.object (PyMemoryOperand (inst.operandAt i).getMemory)
  else if (inst.operandAt i).getType = OP_REG then
    PyReturn.object (PyRegisterOperand (inst.operandAt i).getRegister)
  else PyReturn.null

/-- `Instruction_getFirstOperand` -/
def Instruction_getFirstOperand (self : Instruction) : PyReturn × Instruction :=
  let inst := self
  let opSize := inst.operands.length % 4294967296
  if opSize < 1 then
    (PyReturn.error "TypeError"
      "Instruction::getFirstOperand(): The instruction hasn't operands.", inst)
  else (operandObject inst 0, inst)

/-- `Instruction_getSecondOperand` -/
def Instruction_getSecondOperand (self : Instruction) : PyReturn × Instruction :=
  let inst := self
  let opSize := inst.operands.length % 4294967296
  if opSize < 2 then
    (PyReturn.error "TypeError"
      "Instruction::getSecondOperand(): The instruction hasn't second operand.", inst)
  else (operandObject inst 1, inst)

/-- `Instruction_getThirdOperand` -/
def Instruction_getThirdOperand (self : Instruction) : PyReturn × Instruction :=
  let inst := self
  let opSize := inst.operands.length % 4294967296
  if opSize < 3 then
    (PyReturn.error "TypeError"
      "Instruction::getThirdOperand(): The instruction hasn't third operand.", inst)
  else (operandObject inst 2, inst)

/-- One turn of the loop of `Instruction_getOperands`, at `index`: the slot receives the
wrapper of the operand, and `continue` leaves it empty for an operand of another type. -/
def getOperandsStep (inst : Instruction) (operands : List (Option PyObject)) (index : Nat) :
    List (Option PyObject) :=
  if (inst.operandAt index).getType = OP_IMM then
    PyList_SetItem operands index (PyImmediateOperand (inst.operandAt index).getImmediate)
  else if (inst.operandAt index).getType = OP_MEM then
    PyList_SetItem operands index (PyMemoryOperand (inst.operandAt index).getMemory)
  else if (inst.operandAt index).getType = OP_REG then
    PyList_SetItem operands index (PyRegisterOperand (inst.operandAt index).getRegister)
  else operands

/-- `Instruction_getOperands` -/
def Instruction_getOperands (self : Instruction) : PyReturn × Instruction :=
  let inst := self
  let opSize := inst.operands.length % 4294967296
  let operands := xPyList_New opSize
  (PyReturn.list ((List.range opSize).foldl (getOperandsStep inst) operands), inst)

/-- One turn of the loop of `Instruction_getSymbolicExpressions`, at `index`. -/
def getSymbolicExpressionsStep (inst : Instruction) (symExprs : List (Option PyObject))
    (index : Nat) : List (Option PyObject) :=
  match inst.symbolicExpressions[index]? with
  | some expr => PyList_SetItem symExprs index (PySymbolicExpression expr)
  | Option.none => symExprs

/-- `Instruction_getSymbolicExpressions`; the loop reads `symbolicExpressions[index]` at
indices below the size only. -/
def Instruction_getSymbolicExpressions (self : Instruction) : PyReturn × Instruction :=
  let inst := self
  let exprSize := inst.symbolicExpressions.length % 4294967296
  let symExprs := xPyList_New exprSize
  (PyReturn.list ((List.range exprSize).foldl (getSymbolicExpressionsStep inst) symExprs), inst)

/-- `Instruction_setOpcodes` -/
def Instruction_setOpcodes (self : Instruction) (opc : PyObject) : PyReturn × Instruction :=
  if !PyBytes_Check opc then
    (PyReturn.error "TypeError"
      "Instruction::setOpcodes(): Expected a bytes array as argument.", self)
  else if PyBytes_Size opc ≥ 32 then
    (PyReturn.error "TypeError" "Instruction::setOpcodes(): Invalid size (too big).", self)
  else
    (PyReturn.object PyObject.none,
      self.setOpcodes (PyBytes_AsString opc) (PyBytes_Size opc))

/-- Modelled from the spec: the macro `PyMemoryOperand_AsMemoryOperand`, the memory operand
held by a wrapper object; it is applied after the type check only. -/
def PyMemoryOperand_AsMemoryOperand : PyObject → MemoryOperand
  | PyObject.memoryOperand mem => mem
  | _ => ⟨0, 0, 0⟩

/-- Modelled from the spec: the macro `PyRegisterOperand_AsRegisterOperand`, the register
operand held by a wrapper object; it is applied after the type check only. -/
def PyRegisterOperand_AsRegisterOperand : PyObject → RegisterOperand
  | PyObject.registerOperand reg => reg
  | _ => ⟨0, 0, false⟩

/-- `Instruction_updateContext` -/
def Instruction_updateContext (self : Instruction) (ctx : PyObject) : PyReturn × Instruction :=
  if !PyMemoryOperand_Check ctx && !PyRegisterOperand_Check ctx then
    (PyReturn.error "TypeError"
      "Instruction::updateContext(): Expected a Memory or Register as argument.", self)
  else
    let inst := self
    if PyMemoryOperand_Check ctx then
      let memCtx := PyMemoryOperand_AsMemoryOperand ctx
      (PyReturn.object PyObject.none, inst.updateContextMem memCtx)
    else if PyRegisterOperand_Check ctx then
      let regCtx := PyRegisterOperand_AsRegisterOperand ctx
      if regCtx.isFlag then
        (PyReturn.error "TypeError"
          "Instruction::updateContext(): You cannot update the context on an isolated flag.",
          inst)
      else (PyReturn.object PyObject.none, inst.updateContextReg regCtx)
    else (PyReturn.object PyObject.none, inst)

/-- The slot `Instruction_getOperands` fills for an operand: its wrapper, of the kind of
its type, and nothing for an operand of another type. -/
def OperandWrapper.slot (op : OperandWrapper) : Option PyObject :=
  if op.getType = OP_IMM then some (PyObject.immediateOperand op.imm)
  else if op.getType = OP_MEM then some (PyObject.memoryOperand op.mem)
  else if op.getType = OP_REG then some (PyObject.registerOperand op.reg)
  else Option.none

/-- An immediate operand entry. -/
def immOp (value : Nat) : OperandWrapper := ⟨OP_IMM, ⟨value, 32⟩, ⟨0, 0, 0⟩, ⟨0, 0, false⟩⟩

/-- A memory operand entry. -/
def memOp (address : Nat) : OperandWrapper := ⟨OP_MEM, ⟨0, 0⟩, ⟨address, 4, 0⟩, ⟨0, 0, false⟩⟩

/-- A register operand entry. -/
def regOp (id : Nat) : OperandWrapper := ⟨OP_REG, ⟨0, 0⟩, ⟨0, 0, 0⟩, ⟨id, 0, false⟩⟩

/-- An instruction with the given operands and nothing else. -/
def instWith (operands : List OperandWrapper) : Instruction := ⟨operands, [], [], 0, [], []⟩

/-- Filling slot `i` of a list of slots with `g i`, when there is one. -/
def fillSlot {β : Type} (g : Nat → Option β) (acc : List (Option β)) (i : Nat) :
    List (Option β) :=
  match g i with
  | some b => acc.set i (some b)
  | Option.none => acc

/-- What the accessor `f` of the operand number `k` does on `inst`: it fails with a
`TypeError` exactly when there are fewer than `k` operands; for an operand `k - 1` that
has a wrapper it returns that wrapper; and it leaves the instruction as it was. -/
def OperandAccessor (k : Nat) (f : Instruction → PyReturn × Instruction) (inst : Instruction) :
    Prop :=
  ((∃ message, (f inst).1 = PyReturn.error "TypeError" message) ↔ inst.operands.length < k)
  ∧ (∀ op w, inst.operands[k - 1]? = some op → op.slot = some w →
      (f inst).1 = PyReturn.object w)
  ∧ (f inst).2 = inst

/-- A register operand that is a flag. -/
def flagReg : RegisterOperand := ⟨30, 1, true⟩

/-- A register operand that is no flag. -/
def plainReg : RegisterOperand := ⟨1, 10, false⟩

/-- An instruction with the two symbolic expressions of Scenario A, the sum and then its
zero flag. -/
def instWithExpressions : Instruction :=
  ⟨[], [⟨0, "(bvadd 0x0000000A:32 0x00000005:32)", Destination.reg RAX, false⟩,
        ⟨1, "(bvadd 0x0000000A:32 0x00000005:32) == 0", Destination.reg ZF, false⟩],
    [], 0, [], []⟩

/-- An operand entry whose type is none of immediate, memory and register. -/
def invalidOp : OperandWrapper := ⟨OP_INVALID, ⟨0, 0⟩, ⟨0, 0, 0⟩, ⟨0, 0, false⟩⟩

/-- The ids a session holds were issued before: every id in the register table and in the
memory table is smaller than the next id to be issued. -/
def Session.IssuedBefore (s : Session) : Prop :=
  (∀ k, s.regTable k ≠ UNSET → s.regTable k < s.nextID)
  ∧ (∀ a, s.memTable a ≠ UNSET → s.memTable a < s.nextID)

/-- The primary element of a handler run from the session `s`: the run appended an element
with the expression `expr`, followed by one more element; each of the ids `ids` that is
a symbolic id is smaller than the id of that element; and the ids of the session left by
the run were again issued before. -/
def PrimaryRefersTo (s : Session) (inst : Inst) (expr : String) (ids : List Nat)
    (r : HandlerResult Session) : Prop :=
  ∃ se flag, r.inst.elements = inst.elements ++ [se, flag] ∧ se.id = s.nextID
    ∧ se.expression = expr ∧ (∀ id ∈ ids, id ≠ UNSET → id < se.id) ∧ r.ap.IssuedBefore

/-- The builder of `ADD EAX, EAX`. -/
def addEaxEax : AddIRBuilder := ⟨4194304, "add eax, eax", [(1, EAX, 32), (1, EAX, 32)]⟩

/-! ## The register-register handler over a literal constructor that may fail -/

/-- The text of an operand when `smt2lib::bv` is a call that may raise: the reference
`#id` in decimal when the operand has a symbolic id, and otherwise what the library
returns, or raises, for the concrete value at the given width. -/
def operandTextLib {σ : Type} (E : Externals σ) (lib : Nat → Nat → Except Exception String)
    (id value width : Nat) : Except Exception String :=
  if id != E.UNSET then Except.ok ("#" ++ toString id) else lib value width

/-- `AddIRBuilder::regReg` with `smt2lib::bv` as a call that may raise: `lib` gives, for a
value and a width, the text of the literal or the exception raised in its place.  The
calls of `smt2lib::bv` stand after the two lookups and before `createRegSE`, the one for
`reg1` first; an exception raised there leaves the function at once, with nothing created
and the instruction as it was.  With a library that always returns, this is
`AddIRBuilder.regReg`. -/
def AddIRBuilder.regRegLib {σ : Type} (E : Externals σ)
    (lib : Nat → Nat → Except Exception String) (this : AddIRBuilder)
    (ctxH : ContextHandler) (ap : σ) (inst : Inst) : HandlerResult σ :=
  let reg1 := (this.operand 0).2.1
  let reg2 := (this.operand 1).2.1
  let r1 := E.getRegSymbolicID (ctxH.translateRegID reg1) ap
  let symReg1 := r1.1
  let r2 := E.getRegSymbolicID (ctxH.translateRegID reg2) r1.2
  let symReg2 := r2.1
  let regSize := ctxH.getRegisterSize reg1
  match (if symReg1 != E.UNSET then Except.ok ("#" ++ toString symReg1)
      else lib (ctxH.getRegisterValue reg1) regSize) with
  | Except.error e => ⟨some e, inst, r2.2⟩
  | Except.ok op1 =>
    match (if symReg2 != E.UNSET then Except.ok ("#" ++ toString symReg2)
        else lib (ctxH.getRegisterValue reg2) regSize) with
    | Except.error e => ⟨some e, inst, r2.2⟩
    | Except.ok op2 =>
      let expr := "(bvadd " ++ op1 ++ " " ++ op2 ++ ")"
      let r3 := E.createRegSE expr (ctxH.translateRegID reg1) r2.2
      let r4 := E.aluSpreadTaintRegReg r3.1 (ctxH.translateRegID reg1)
        (ctxH.translateRegID reg2) r3.2
      AddIRBuilder.addElements E r4.1 r4.2 inst

/-- The builder of `ADD EAX, [4096]`, a 32-bit access. -/
def addEaxMem : AddIRBuilder :=
  ⟨4194304, "add eax, dword ptr [0x1000]", [(1, EAX, 32), (2, 4096, 32)]⟩

/-- The builder of `ADD [4096], EAX`, a 32-bit access. -/
def addMemEax : AddIRBuilder :=
  ⟨4194304, "add dword ptr [0x1000], eax", [(2, 4096, 32), (1, EAX, 32)]⟩

/-- A session in which nothing was written and only the byte at 4096 is tainted. -/
def taintedMemSession : Session :=
  ⟨fun _ => UNSET, fun _ => UNSET, 0, fun _ => false, fun a => decide (a = 4096)⟩

/-- The context of the scenarios with the value `2 ^ 32` in every register, which does not
fit the 32 bits of `EAX`. -/
def overflowCtx : ContextHandler :=
  { scenarioCtx with getRegisterValue := fun _ => 4294967296 }

/-- The builder of an addition of the 32-bit `EAX` to the 8-bit `BL`. -/
def addBlEax : AddIRBuilder := ⟨4194304, "add bl, eax", [(1, BL, 8), (1, EAX, 32)]⟩

/-- The context of the scenarios with the value 305419896, which is `0x12345678`, in `EAX`
and 7 in the other registers. -/
def wideValueCtx : ContextHandler :=
  { scenarioCtx with getRegisterValue := fun r => if r = EAX then 305419896 else 7 }

/-- The context of the scenarios with every register 32 bits wide. -/
def equalSizesCtx : ContextHandler :=
  { scenarioCtx with getRegisterSize := fun _ => 32 }

/-! ## Lemmas on the common tail of the handlers -/

theorem addElements_ap {σ : Type} (E : Externals σ) (se : SymbolicElement) (ap : σ)
    (inst : Inst) : (AddIRBuilder.addElements E se ap inst).ap = (E.zf se ap).2 := by
  unfold AddIRBuilder.addElements
  dsimp only
  split <;> rfl

theorem recording_zf_log {σ : Type} (E : Externals σ) (se : SymbolicElement)
    (s : σ × List Call) :
    (E.recording.zf se s).2.2 = s.2 ++ [Call.zf se (E.zf se s.1).1] := rfl

theorem recording_zf_state {σ : Type} (E : Externals σ) (se : SymbolicElement)
    (s : σ × List Call) : (E.recording.zf se s).2.1 = (E.zf se s.1).2 := rfl

theorem recording_zf_result {σ : Type} (E : Externals σ) (se : SymbolicElement)
    (s : σ × List Call) : (E.recording.zf se s).1 = (E.zf se s.1).1 := rfl

/-- On the session of the specification `zf` does not raise: the tail of a handler appends
the primary element and the zero-flag element, which takes the next fresh id. -/
theorem addElements_session (zfReg : Nat) (se : SymbolicElement) (s : Session) (inst : Inst) :
    AddIRBuilder.addElements (Session.externals zfReg) se s inst
      = ⟨none,
          ⟨inst.address, inst.disassembly,
            inst.elements ++ [se, ⟨s.nextID, se.expression ++ " == 0", Destination.reg zfReg,
              false⟩]⟩,
          (Session.createRegisterElement (se.expression ++ " == 0") zfReg s).2⟩ := by
  simp [AddIRBuilder.addElements, Session.externals, Session.zf, Inst.addElement,
    Session.createRegisterElement]

theorem addElements_raised {σ : Type} (E : Externals σ) (se : SymbolicElement) (ap : σ)
    (inst : Inst) :
    (AddIRBuilder.addElements E se ap inst).raised = none ↔ ∃ flag, (E.zf se ap).1 = Except.ok flag := by
  unfold AddIRBuilder.addElements
  dsimp only
  cases (E.zf se ap).1 <;> simp

theorem addElements_inst {σ : Type} (E : Externals σ) (se : SymbolicElement) (ap : σ)
    (inst : Inst) (flag : SymbolicElement) (h : (E.zf se ap).1 = Except.ok flag) :
    (AddIRBuilder.addElements E se ap inst).inst
      = { inst with elements := inst.elements ++ [se, flag] } := by
  unfold AddIRBuilder.addElements
  dsimp only
  rw [h]
  simp [Inst.addElement]

/-- The tail of a handler, run on a recording implementation after a log in which one taint
rule returned `se` and no flag was built yet, appends the primary and the flag element. -/
theorem appends_of_tail {σ : Type} (E : Externals σ) (se : SymbolicElement)
    (s : σ × List Call) (inst : Inst) (h1 : s.2.filterMap Call.taintResult = [se])
    (h2 : s.2.filterMap Call.flagBuilt = []) :
    AppendsPrimaryThenZF inst (AddIRBuilder.addElements E.recording se s inst) := by
  refine ⟨se, (E.zf se s.1).1, ?_, ?_, ?_, ?_, ?_⟩
  · simp only [calls, addElements_ap, recording_zf_log, List.filterMap_append, h1]
    rfl
  · simp only [calls, addElements_ap, recording_zf_log, List.filterMap_append, h2]
    rfl
  · simp only [calls, addElements_ap, recording_zf_log]
    simp
  · exact addElements_raised E.recording se s inst
  · exact addElements_inst E.recording se s inst

/-- Running the tail of a handler on the recording implementation gives what running it on
`E` gives; the log is the only addition. -/
theorem addElements_recording {σ : Type} (E : Externals σ) (se : SymbolicElement)
    (s : σ × List Call) (inst : Inst) :
    (AddIRBuilder.addElements E.recording se s inst).raised
        = (AddIRBuilder.addElements E se s.1 inst).raised
    ∧ (AddIRBuilder.addElements E.recording se s inst).inst
        = (AddIRBuilder.addElements E se s.1 inst).inst
    ∧ (AddIRBuilder.addElements E.recording se s inst).ap.1
        = (AddIRBuilder.addElements E se s.1 inst).ap := by
  unfold AddIRBuilder.addElements
  dsimp only
  simp only [recording_zf_result]
  cases (E.zf se s.1).1 <;> exact ⟨rfl, rfl, rfl⟩

/-- The recording implementation is faithful: each handler raises, fills the instruction
and changes the analysis state on `E.recording` exactly as it does on `E`. -/
theorem recording_faithful {σ : Type} (E : Externals σ) (this : AddIRBuilder)
    (ctxH : ContextHandler) (ap : σ) (log : List Call) (inst : Inst) :
    ((AddIRBuilder.regImm E.recording this ctxH (ap, log) inst).raised
        = (AddIRBuilder.regImm E this ctxH ap inst).raised
      ∧ (AddIRBuilder.regImm E.recording this ctxH (ap, log) inst).inst
        = (AddIRBuilder.regImm E this ctxH ap inst).inst
      ∧ (AddIRBuilder.regImm E.recording this ctxH (ap, log) inst).ap.1
        = (AddIRBuilder.regImm E this ctxH ap inst).ap)
    ∧ ((AddIRBuilder.regReg E.recording this ctxH (ap, log) inst).raised
        = (AddIRBuilder.regReg E this ctxH ap inst).raised
      ∧ (AddIRBuilder.regReg E.recording this ctxH (ap, log) inst).inst
        = (AddIRBuilder.regReg E this ctxH ap inst).inst
      ∧ (AddIRBuilder.regReg E.recording this ctxH (ap, log) inst).ap.1
        = (AddIRBuilder.regReg E this ctxH ap inst).ap)
    ∧ ((AddIRBuilder.regMem E.recording this ctxH (ap, log) inst).raised
        = (AddIRBuilder.regMem E this ctxH ap inst).raised
      ∧ (AddIRBuilder.regMem E.recording this ctxH (ap, log) inst).inst
        = (AddIRBuilder.regMem E this ctxH ap inst).inst
      ∧ (AddIRBuilder.regMem E.recording this ctxH (ap, log) inst).ap.1
        = (AddIRBuilder.regMem E this ctxH ap inst).ap)
    ∧ ((AddIRBuilder.memImm E.recording this ctxH (ap, log) inst).raised
        = (AddIRBuilder.memImm E this ctxH ap inst).raised
      ∧ (AddIRBuilder.memImm E.recording this ctxH (ap, log) inst).inst
        = (AddIRBuilder.memImm E this ctxH ap inst).inst
      ∧ (AddIRBuilder.memImm E.recording this ctxH (ap, log) inst).ap.1
        = (AddIRBuilder.memImm E this ctxH ap inst).ap)
    ∧ ((AddIRBuilder.memReg E.recording this ctxH (ap, log) inst).raised
        = (AddIRBuilder.memReg E this ctxH ap inst).raised
      ∧ (AddIRBuilder.memReg E.recording this ctxH (ap, log) inst).inst
        = (AddIRBuilder.memReg E this ctxH ap inst).inst
      ∧ (AddIRBuilder.memReg E.recording this ctxH (ap, log) inst).ap.1
        = (AddIRBuilder.memReg E this ctxH ap inst).ap) :=
  ⟨addElements_recording E _ _ inst, addElements_recording E _ _ inst,
    addElements_recording E _ _ inst, addElements_recording E _ _ inst,
    addElements_recording E _ _ inst⟩

/-! ## The calls of each handler -/

theorem regImm_calls {σ : Type} (E : Externals σ) (this : AddIRBuilder)
    (ctxH : ContextHandler) (ap : σ) (inst : Inst) :
    calls (AddIRBuilder.regImm E.recording this ctxH (ap, []) inst) =
      (let reg := (this.operand 0).2.1
       let imm := (this.operand 1).2.1
       let c := ctxH.translateRegID reg
       let r1 := E.getRegSymbolicID c ap
       let w := ctxH.getRegisterSize reg
       let expr :=
         if r1.1 != E.UNSET then "(bvadd #" ++ toString r1.1 ++ " " ++ E.bv imm w ++ ")"
         else "(bvadd " ++ E.bv (ctxH.getRegisterValue reg) w ++ " " ++ E.bv imm w ++ ")"
       let r2 := E.createRegSE expr c r1.2
       let r3 := E.aluSpreadTaintRegImm r2.1 c r2.2
       [Call.getRegSymbolicID c r1.1, Call.createRegSE expr c r2.1,
        Call.aluSpreadTaintRegImm r2.1 c r3.1, Call.zf r3.1 (E.zf r3.1 r3.2).1]) := by
  unfold AddIRBuilder.regImm calls
  simp only [addElements_ap]
  rfl

theorem regReg_calls {σ : Type} (E : Externals σ) (this : AddIRBuilder)
    (ctxH : ContextHandler) (ap : σ) (inst : Inst) :
    calls (AddIRBuilder.regReg E.recording this ctxH (ap, []) inst) =
      (let reg1 := (this.operand 0).2.1
       let reg2 := (this.operand 1).2.1
       let c1 := ctxH.translateRegID reg1
       let c2 := ctxH.translateRegID reg2
       let r1 := E.getRegSymbolicID c1 ap
       let r2 := E.getRegSymbolicID c2 r1.2
       let w := ctxH.getRegisterSize reg1
       let op1 := if r1.1 != E.UNSET then "#" ++ toString r1.1
         else E.bv (ctxH.getRegisterValue reg1) w
       let op2 := if r2.1 != E.UNSET then "#" ++ toString r2.1
         else E.bv (ctxH.getRegisterValue reg2) w
       let expr := "(bvadd " ++ op1 ++ " " ++ op2 ++ ")"
       let r3 := E.createRegSE expr c1 r2.2
       let r4 := E.aluSpreadTaintRegReg r3.1 c1 c2 r3.2
       [Call.getRegSymbolicID c1 r1.1, Call.getRegSymbolicID c2 r2.1,
        Call.createRegSE expr c1 r3.1, Call.aluSpreadTaintRegReg r3.1 c1 c2 r4.1,
        Call.zf r4.1 (E.zf r4.1 r4.2).1]) := by
  unfold AddIRBuilder.regReg calls
  simp only [addElements_ap]
  rfl

theorem regMem_calls {σ : Type} (E : Externals σ) (this : AddIRBuilder)
    (ctxH : ContextHandler) (ap : σ) (inst : Inst) :
    calls (AddIRBuilder.regMem E.recording this ctxH (ap, []) inst) =
      (let readSize := (this.operand 1).2.2
       let mem := (this.operand 1).2.1
       let reg := (this.operand 0).2.1
       let c := ctxH.translateRegID reg
       let r1 := E.getRegSymbolicID c ap
       let r2 := E.getMemorySymbolicID mem r1.2
       let op1 := if r1.1 != E.UNSET then "#" ++ toString r1.1
         else E.bv (ctxH.getRegisterValue reg) readSize
       let op2 := if r2.1 != E.UNSET then "#" ++ toString r2.1
         else E.bv (ctxH.getMemoryValue mem readSize) readSize
       let expr := "(bvadd " ++ op1 ++ " " ++ op2 ++ ")"
       let r3 := E.createRegSE expr c r2.2
       let r4 := E.aluSpreadTaintRegMem r3.1 c mem readSize r3.2
       [Call.getRegSymbolicID c r1.1, Call.getMemorySymbolicID mem r2.1,
        Call.createRegSE expr c r3.1, Call.aluSpreadTaintRegMem r3.1 c mem readSize r4.1,
        Call.zf r4.1 (E.zf r4.1 r4.2).1]) := by
  unfold AddIRBuilder.regMem calls
  simp only [addElements_ap]
  rfl

theorem memImm_calls {σ : Type} (E : Externals σ) (this : AddIRBuilder)
    (ctxH : ContextHandler) (ap : σ) (inst : Inst) :
    calls (AddIRBuilder.memImm E.recording this ctxH (ap, []) inst) =
      (let writeSize := (this.operand 0).2.2
       let mem := (this.operand 0).2.1
       let imm := (this.operand 1).2.1
       let r1 := E.getMemorySymbolicID mem ap
       let expr :=
         if r1.1 != E.UNSET then
           "(bvadd #" ++ toString r1.1 ++ " " ++ E.bv imm writeSize ++ ")"
         else
           "(bvadd " ++ E.bv (ctxH.getMemoryValue mem writeSize) writeSize ++ " "
             ++ E.bv imm writeSize ++ ")"
       let r2 := E.createMemSE expr mem r1.2
       let r3 := E.aluSpreadTaintMemImm r2.1 mem writeSize r2.2
       [Call.getMemorySymbolicID mem r1.1, Call.createMemSE expr mem r2.1,
        Call.aluSpreadTaintMemImm r2.1 mem writeSize r3.1,
        Call.zf r3.1 (E.zf r3.1 r3.2).1]) := by
  unfold AddIRBuilder.memImm calls
  simp only [addElements_ap]
  rfl

theorem memReg_calls {σ : Type} (E : Externals σ) (this : AddIRBuilder)
    (ctxH : ContextHandler) (ap : σ) (inst : Inst) :
    calls (AddIRBuilder.memReg E.recording this ctxH (ap, []) inst) =
      (let writeSize := (this.operand 0).2.2
       let mem := (this.operand 0).2.1
       let reg := (this.operand 1).2.1
       let c := ctxH.translateRegID reg
       let r1 := E.getRegSymbolicID c ap
       let r2 := E.getMemorySymbolicID mem r1.2
       let op1 := if r2.1 != E.UNSET then "#" ++ toString r2.1
         else E.bv (ctxH.getMemoryValue mem writeSize) writeSize
       let op2 := if r1.1 != E.UNSET then "#" ++ toString r1.1
         else E.bv (ctxH.getRegisterValue reg) writeSize
       let expr := "(bvadd " ++ op1 ++ " " ++ op2 ++ ")"
       let r3 := E.createMemSE expr mem r2.2
       let r4 := E.aluSpreadTaintMemReg r3.1 mem c writeSize r3.2
       [Call.getRegSymbolicID c r1.1, Call.getMemorySymbolicID mem r2.1,
        Call.createMemSE expr mem r3.1, Call.aluSpreadTaintMemReg r3.1 mem c writeSize r4.1,
        Call.zf r4.1 (E.zf r4.1 r4.2).1]) := by
  unfold AddIRBuilder.memReg calls
  simp only [addElements_ap]
  rfl

/-- The operand text chosen by a handler, with the test written as an equation. -/
theorem operand_text (id unset : Nat) (lit : String) :
    (if id != unset then "#" ++ toString id else lit)
      = (if id = unset then lit else "#" ++ toString id) := by
  by_cases h : id = unset <;> simp [h]

/-- Joining the pieces of an expression: `"(bvadd #" ++ n` is `"(bvadd " ++ ("#" ++ n)`. -/
theorem bvadd_ref (n rest : String) :
    "(bvadd #" ++ n ++ rest = "(bvadd " ++ ("#" ++ n) ++ rest := by
  have h : "(bvadd #" = "(bvadd " ++ "#" := by decide
  rw [h, String.append_assoc "(bvadd " "#" n]

/-- The expression of the two handlers with an immediate, with the test written as an
equation on the first operand. -/
theorem immediate_text (id unset : Nat) (lit imm : String) :
    (if id != unset then "(bvadd #" ++ toString id ++ " " ++ imm ++ ")"
      else "(bvadd " ++ lit ++ " " ++ imm ++ ")")
      = "(bvadd " ++ (if id = unset then lit else "#" ++ toString id) ++ " " ++ imm ++ ")" := by
  by_cases h : id = unset <;> simp [h, bvadd_ref]

/-! ## Theorems -/

/-- C1: for every register, immediate, context and analysis state, `regImm` creates exactly
one element, a register element for the canonical register, whose expression is
`(bvadd X L)`: `L` is the literal of the immediate at the register's width and `X` is the
literal of the register's concrete value at that width when the symbolic id of the
canonical register is `UNSET`, and `#id` in decimal otherwise. -/
theorem regImm_expression {σ : Type} (E : Externals σ) (ctxH : ContextHandler)
    (address : Nat) (disas : String) (t0 reg s0 t1 imm s1 : Nat) (rest : List Operand)
    (ap : σ) (inst : Inst) :
    let w := ctxH.getRegisterSize reg
    let id := (E.getRegSymbolicID (ctxH.translateRegID reg) ap).1
    let X := if id = E.UNSET then E.bv (ctxH.getRegisterValue reg) w else "#" ++ toString id
    (calls (AddIRBuilder.regImm E.recording
        ⟨address, disas, (t0, reg, s0) :: (t1, imm, s1) :: rest⟩ ctxH (ap, []) inst)).filterMap
        Call.created
      = [("(bvadd " ++ X ++ " " ++ E.bv imm w ++ ")",
          Destination.reg (ctxH.translateRegID reg))] := by
  intro w id X
  rw [regImm_calls]
  simp only [AddIRBuilder.operand, List.getD_cons_zero, List.getD_cons_succ, List.filterMap_cons,
    List.filterMap_nil, Call.created]
  by_cases h : id = E.UNSET
  · have h1 : (E.getRegSymbolicID (ctxH.translateRegID reg) ap).1 = E.UNSET := h
    simp [X, id, w, h1]
  · have h1 : ¬ (E.getRegSymbolicID (ctxH.translateRegID reg) ap).1 = E.UNSET := h
    simp [X, id, w, h1, bvadd_ref]

/-- C1, Scenario A: in the empty session, `ADD EAX, 5` with `EAX` = 10 creates one element,
for the canonical register of `EAX`, with expression `(bvadd 0x0000000A:32 0x00000005:32)`,
and that element is the first one of the instruction. -/
theorem regImm_scenarioA :
    (calls (AddIRBuilder.regImm (Session.externals ZF).recording addEaxImm scenarioCtx
        (Session.empty, []) addEaxImm.newInst)).filterMap Call.created
      = [("(bvadd 0x0000000A:32 0x00000005:32)", Destination.reg RAX)]
    ∧ ((AddIRBuilder.regImm (Session.externals ZF) addEaxImm scenarioCtx Session.empty
        addEaxImm.newInst).inst.elements.map SymbolicElement.expression).head?
      = some "(bvadd 0x0000000A:32 0x00000005:32)" :=
  ⟨(regImm_expression (Session.externals ZF) scenarioCtx 4194304 "add eax, 5" 1 EAX 32 0 5 32 []
      Session.empty addEaxImm.newInst).trans (by decide), by decide⟩

/-- C2: for every pair of registers, `regReg` creates exactly one element, for the
canonical register of the first operand, with expression `(bvadd A B)`; `A` is `#id` in
decimal when the canonical register of `reg1` has a symbolic id and the literal of the
concrete value of `reg1` otherwise, and `B` is chosen the same way from `reg2` alone. -/
theorem regReg_expression {σ : Type} (E : Externals σ) (ctxH : ContextHandler)
    (address : Nat) (disas : String) (t0 reg1 s0 t1 reg2 s1 : Nat) (rest : List Operand)
    (ap : σ) (inst : Inst) :
    let w := ctxH.getRegisterSize reg1
    let look1 := E.getRegSymbolicID (ctxH.translateRegID reg1) ap
    let look2 := E.getRegSymbolicID (ctxH.translateRegID reg2) look1.2
    let A := if look1.1 = E.UNSET then E.bv (ctxH.getRegisterValue reg1) w
      else "#" ++ toString look1.1
    let B := if look2.1 = E.UNSET then E.bv (ctxH.getRegisterValue reg2) w
      else "#" ++ toString look2.1
    (calls (AddIRBuilder.regReg E.recording
        ⟨address, disas, (t0, reg1, s0) :: (t1, reg2, s1) :: rest⟩ ctxH (ap, []) inst)).filterMap
        Call.created
      = [("(bvadd " ++ A ++ " " ++ B ++ ")", Destination.reg (ctxH.translateRegID reg1))] := by
  intro w look1 look2 A B
  rw [regReg_calls]
  simp only [AddIRBuilder.operand, List.getD_cons_zero, List.getD_cons_succ, List.filterMap_cons,
    List.filterMap_nil, Call.created, operand_text]

/-- C2, Scenario B: `EAX` has the prior id 3 and `EBX` has none; `ADD EAX, EBX` creates
`(bvadd #3 L)` with `L` the literal of the concrete value 7 of `EBX`. -/
theorem regReg_scenarioB :
    (calls (AddIRBuilder.regReg (Session.externals ZF).recording addEaxEbx scenarioCtx
        (scenarioB, []) addEaxEbx.newInst)).filterMap Call.created
      = [("(bvadd #3 0x00000007:32)", Destination.reg RAX)]
    ∧ ((AddIRBuilder.regReg (Session.externals ZF) addEaxEbx scenarioCtx scenarioB
        addEaxEbx.newInst).inst.elements.map SymbolicElement.expression).head?
      = some "(bvadd #3 0x00000007:32)" :=
  ⟨(regReg_expression (Session.externals ZF) scenarioCtx 4194304 "add eax, ebx" 1 EAX 32 1 EBX
      32 [] scenarioB addEaxEbx.newInst).trans (by decide), by decide⟩

/-- C3: for every address, access size and immediate, when the address has no prior
symbolic id `memImm` creates exactly one element, a memory element keyed by the address,
with expression `(bvadd M L)`: `M` is the literal of the memory value read at that size
and `L` the literal of the immediate, both at the access size. -/
theorem memImm_expression {σ : Type} (E : Externals σ) (ctxH : ContextHandler)
    (address : Nat) (disas : String) (t0 mem s t1 imm s1 : Nat) (rest : List Operand)
    (ap : σ) (inst : Inst) (h : (E.getMemorySymbolicID mem ap).1 = E.UNSET) :
    (calls (AddIRBuilder.memImm E.recording
        ⟨address, disas, (t0, mem, s) :: (t1, imm, s1) :: rest⟩ ctxH (ap, []) inst)).filterMap
        Call.created
      = [("(bvadd " ++ E.bv (ctxH.getMemoryValue mem s) s ++ " " ++ E.bv imm s ++ ")",
          Destination.mem mem)] := by
  rw [memImm_calls]
  simp [AddIRBuilder.operand, Call.created, h]

/-- C3, Scenario C: in the empty session `ADD [4096], 1` creates a memory element at 4096
with expression `(bvadd 0x00000042:32 0x00000001:32)`, the first element of the instruction. -/
theorem memImm_scenarioC :
    (calls (AddIRBuilder.memImm (Session.externals ZF).recording addMemImm scenarioCtx
        (Session.empty, []) addMemImm.newInst)).filterMap Call.created
      = [("(bvadd 0x00000042:32 0x00000001:32)", Destination.mem 4096)]
    ∧ ((AddIRBuilder.memImm (Session.externals ZF) addMemImm scenarioCtx Session.empty
        addMemImm.newInst).inst.elements.map
          fun se => (se.expression, se.destination)).head?
      = some ("(bvadd 0x00000042:32 0x00000001:32)", Destination.mem 4096) :=
  ⟨(memImm_expression (Session.externals ZF) scenarioCtx 4194304 "add dword ptr [0x1000], 1"
      2 4096 32 0 1 32 [] Session.empty addMemImm.newInst (by decide)).trans (by decide),
    by decide⟩

/-- C4: `regMem` creates one register element, under the canonical id of the register,
with expression `(bvadd R M)`, and `memReg` creates one memory element, at the address,
with expression `(bvadd M R)`; in both `R` and `M` are `#id` when the register, the
address, has a symbolic id and a literal of the concrete value otherwise. -/
theorem mixed_handlers_expression {σ : Type} (E : Externals σ) (ctxH : ContextHandler)
    (address : Nat) (disas : String) (t0 reg s0 t1 mem size : Nat) (rest : List Operand)
    (ap : σ) (inst : Inst) :
    let lookReg := E.getRegSymbolicID (ctxH.translateRegID reg) ap
    let lookMem := E.getMemorySymbolicID mem lookReg.2
    let R := if lookReg.1 = E.UNSET then E.bv (ctxH.getRegisterValue reg) size
      else "#" ++ toString lookReg.1
    let M := if lookMem.1 = E.UNSET then E.bv (ctxH.getMemoryValue mem size) size
      else "#" ++ toString lookMem.1
    (calls (AddIRBuilder.regMem E.recording
        ⟨address, disas, (t0, reg, s0) :: (t1, mem, size) :: rest⟩ ctxH (ap, []) inst)).filterMap
        Call.created
      = [("(bvadd " ++ R ++ " " ++ M ++ ")", Destination.reg (ctxH.translateRegID reg))]
    ∧ (calls (AddIRBuilder.memReg E.recording
        ⟨address, disas, (t1, mem, size) :: (t0, reg, s0) :: rest⟩ ctxH (ap, []) inst)).filterMap
        Call.created
      = [("(bvadd " ++ M ++ " " ++ R ++ ")", Destination.mem mem)] := by
  intro lookReg lookMem R M
  constructor
  · rw [regMem_calls]
    simp only [AddIRBuilder.operand, List.getD_cons_zero, List.getD_cons_succ,
      List.filterMap_cons, List.filterMap_nil, Call.created, operand_text]
  · rw [memReg_calls]
    simp only [AddIRBuilder.operand, List.getD_cons_zero, List.getD_cons_succ,
      List.filterMap_cons, List.filterMap_nil, Call.created, operand_text]

/-- C5, as stated, fails: with `EAX` 32 bits wide and `BL` 8 bits wide, neither with a
symbolic id, `regReg` renders the value 7 of `BL` at the 32 bits of `EAX`, not at the 8
bits of `BL`. -/
theorem literal_width_counterexample :
    scenarioCtx.getRegisterSize BL = 8
    ∧ (calls (AddIRBuilder.regReg (Session.externals ZF).recording addEaxBl scenarioCtx
        (Session.empty, []) addEaxBl.newInst)).filterMap Call.created
      = [("(bvadd 0x0000000A:32 0x00000007:32)", Destination.reg RAX)]
    ∧ (calls (AddIRBuilder.regReg (Session.externals ZF).recording addEaxBl scenarioCtx
        (Session.empty, []) addEaxBl.newInst)).filterMap Call.created
      ≠ [("(bvadd " ++ smt2lib.bv (scenarioCtx.getRegisterValue EAX)
            (scenarioCtx.getRegisterSize EAX) ++ " "
          ++ smt2lib.bv (scenarioCtx.getRegisterValue BL) (scenarioCtx.getRegisterSize BL)
          ++ ")", Destination.reg RAX)] := by
  decide

/-- C5, amended: every handler renders all its operands at one width, the width of the
operation: the size of the first register in `regImm` and `regReg`, the access size of the
memory operand in `regMem`, `memImm` and `memReg`.  An operand without symbolic id is the
literal of its concrete value at that width; so the second register of `regReg` is
rendered at the first register's size and the register of `regMem` and `memReg` at the
memory access size. -/
theorem literal_width {σ : Type} (E : Externals σ) (ctxH : ContextHandler)
    (address : Nat) (disas : String) (t0 t1 reg reg2 sr sr2 mem size imm si : Nat)
    (rest : List Operand) (ap : σ) (inst : Inst) :
    let c := ctxH.translateRegID reg
    let lookReg := E.getRegSymbolicID c ap
    let lookReg2 := E.getRegSymbolicID (ctxH.translateRegID reg2) lookReg.2
    let lookMem := E.getMemorySymbolicID mem lookReg.2
    let lookMem0 := E.getMemorySymbolicID mem ap
    let w := ctxH.getRegisterSize reg
    (calls (AddIRBuilder.regImm E.recording
        ⟨address, disas, (t0, reg, sr) :: (t1, imm, si) :: rest⟩ ctxH (ap, []) inst)).filterMap
        Call.created
      = [("(bvadd " ++ operandText E lookReg.1 (ctxH.getRegisterValue reg) w ++ " "
            ++ E.bv imm w ++ ")", Destination.reg c)]
    ∧ (calls (AddIRBuilder.regReg E.recording
        ⟨address, disas, (t0, reg, sr) :: (t1, reg2, sr2) :: rest⟩ ctxH (ap, []) inst)).filterMap
        Call.created
      = [("(bvadd " ++ operandText E lookReg.1 (ctxH.getRegisterValue reg) w ++ " "
            ++ operandText E lookReg2.1 (ctxH.getRegisterValue reg2) w ++ ")",
          Destination.reg c)]
    ∧ (calls (AddIRBuilder.regMem E.recording
        ⟨address, disas, (t0, reg, sr) :: (t1, mem, size) :: rest⟩ ctxH (ap, []) inst)).filterMap
        Call.created
      = [("(bvadd " ++ operandText E lookReg.1 (ctxH.getRegisterValue reg) size ++ " "
            ++ operandText E lookMem.1 (ctxH.getMemoryValue mem size) size ++ ")",
          Destination.reg c)]
    ∧ (calls (AddIRBuilder.memImm E.recording
        ⟨address, disas, (t0, mem, size) :: (t1, imm, si) :: rest⟩ ctxH (ap, []) inst)).filterMap
        Call.created
      = [("(bvadd " ++ operandText E lookMem0.1 (ctxH.getMemoryValue mem size) size ++ " "
            ++ E.bv imm size ++ ")", Destination.mem mem)]
    ∧ (calls (AddIRBuilder.memReg E.recording
        ⟨address, disas, (t0, mem, size) :: (t1, reg, sr) :: rest⟩ ctxH (ap, []) inst)).filterMap
        Call.created
      = [("(bvadd " ++ operandText E lookMem.1 (ctxH.getMemoryValue mem size) size ++ " "
            ++ operandText E lookReg.1 (ctxH.getRegisterValue reg) size ++ ")",
          Destination.mem mem)] := by
  intro c lookReg lookReg2 lookMem lookMem0 w
  refine ⟨?_, ?_, ?_, ?_, ?_⟩
  · rw [regImm_calls]
    simp only [AddIRBuilder.operand, List.getD_cons_zero, List.getD_cons_succ,
      List.filterMap_cons, List.filterMap_nil, Call.created, operandText, immediate_text]
  · rw [regReg_calls]
    simp only [AddIRBuilder.operand, List.getD_cons_zero, List.getD_cons_succ,
      List.filterMap_cons, List.filterMap_nil, Call.created, operandText, operand_text]
  · rw [regMem_calls]
    simp only [AddIRBuilder.operand, List.getD_cons_zero, List.getD_cons_succ,
      List.filterMap_cons, List.filterMap_nil, Call.created, operandText, operand_text]
  · rw [memImm_calls]
    simp only [AddIRBuilder.operand, List.getD_cons_zero, List.getD_cons_succ,
      List.filterMap_cons, List.filterMap_nil, Call.created, operandText, immediate_text]
  · rw [memReg_calls]
    simp only [AddIRBuilder.operand, List.getD_cons_zero, List.getD_cons_succ,
      List.filterMap_cons, List.filterMap_nil, Call.created, operandText, operand_text]

/-- C6: in `regImm`, `regReg`, `regMem` and `memReg` every register id handed to the
analysis processor (lookup, registration, taint rule) is the canonical id given by
`translateRegID`, for every implementation of the processor; and on the session of the
specification the primary element of `ADD R, x` is the one the register table resolves
for the canonical register of `R` afterwards (the zero flag being another register). -/
theorem canonical_keys {σ : Type} (E : Externals σ) (ctxH : ContextHandler)
    (address : Nat) (disas : String) (t0 t1 reg reg2 sr sr2 mem size imm si : Nat)
    (rest : List Operand) (ap : σ) (inst : Inst) (zfReg : Nat) (s : Session)
    (hz : zfReg ≠ ctxH.translateRegID reg) :
    let c := ctxH.translateRegID reg
    let c2 := ctxH.translateRegID reg2
    let bReg : AddIRBuilder := ⟨address, disas, (t0, reg, sr) :: (t1, imm, si) :: rest⟩
    let bRegReg : AddIRBuilder := ⟨address, disas, (t0, reg, sr) :: (t1, reg2, sr2) :: rest⟩
    let bRegMem : AddIRBuilder := ⟨address, disas, (t0, reg, sr) :: (t1, mem, size) :: rest⟩
    let bMemReg : AddIRBuilder := ⟨address, disas, (t0, mem, size) :: (t1, reg, sr) :: rest⟩
    (calls (AddIRBuilder.regImm E.recording bReg ctxH (ap, []) inst)).flatMap Call.registerArgs
      = [c, c, c]
    ∧ (calls (AddIRBuilder.regReg E.recording bRegReg ctxH (ap, []) inst)).flatMap
        Call.registerArgs
      = [c, c2, c, c, c2]
    ∧ (calls (AddIRBuilder.regMem E.recording bRegMem ctxH (ap, []) inst)).flatMap
        Call.registerArgs
      = [c, c, c]
    ∧ (calls (AddIRBuilder.memReg E.recording bMemReg ctxH (ap, []) inst)).flatMap
        Call.registerArgs
      = [c, c]
    ∧ RegistersPrimary s inst c (AddIRBuilder.regImm (Session.externals zfReg) bReg ctxH s inst)
    ∧ RegistersPrimary s inst c
        (AddIRBuilder.regReg (Session.externals zfReg) bRegReg ctxH s inst)
    ∧ RegistersPrimary s inst c
        (AddIRBuilder.regMem (Session.externals zfReg) bRegMem ctxH s inst) := by
  intro c c2 bReg bRegReg bRegMem bMemReg
  have hc : ¬ ctxH.translateRegID reg = zfReg := fun h => hz h.symm
  refine ⟨?_, ?_, ?_, ?_, ?_, ?_, ?_⟩
  · rw [regImm_calls]; rfl
  · rw [regReg_calls]; rfl
  · rw [regMem_calls]; rfl
  · rw [memReg_calls]; rfl
  · simp only [RegistersPrimary, AddIRBuilder.regImm, addElements_session]
    refine ⟨_, _, rfl, rfl, rfl, ?_⟩
    simp [Session.resolveRegister, Session.externals, Session.createRegisterElement,
      Session.aluSpreadTaintRegImm, AddIRBuilder.operand, bReg, c, hc]
  · simp only [RegistersPrimary, AddIRBuilder.regReg, addElements_session]
    refine ⟨_, _, rfl, rfl, rfl, ?_⟩
    simp [Session.resolveRegister, Session.externals, Session.createRegisterElement,
      Session.aluSpreadTaintRegReg, AddIRBuilder.operand, bRegReg, c, hc]
  · simp only [RegistersPrimary, AddIRBuilder.regMem, addElements_session]
    refine ⟨_, _, rfl, rfl, rfl, ?_⟩
    simp [Session.resolveRegister, Session.externals, Session.createRegisterElement,
      Session.aluSpreadTaintRegMem, AddIRBuilder.operand, bRegMem, c, hc]

/-- C6, Scenario A: the zero flag is not the canonical register of `EAX`; `ADD EAX, 5`
passes only `RAX` to the analysis processor, and afterwards the register table resolves
`RAX` to the new id 0 of the primary element while the raw id `EAX` stays `UNSET`. -/
theorem canonical_keys_scenarioA :
    ZF ≠ scenarioCtx.translateRegID EAX
    ∧ (calls (AddIRBuilder.regImm (Session.externals ZF).recording addEaxImm scenarioCtx
        (Session.empty, []) addEaxImm.newInst)).flatMap Call.registerArgs = [RAX, RAX, RAX]
    ∧ RegistersPrimary Session.empty addEaxImm.newInst RAX
        (AddIRBuilder.regImm (Session.externals ZF) addEaxImm scenarioCtx Session.empty
          addEaxImm.newInst)
    ∧ (AddIRBuilder.regImm (Session.externals ZF) addEaxImm scenarioCtx Session.empty
          addEaxImm.newInst).ap.resolveRegister RAX = 0
    ∧ (AddIRBuilder.regImm (Session.externals ZF) addEaxImm scenarioCtx Session.empty
          addEaxImm.newInst).ap.resolveRegister EAX = UNSET :=
  have h := canonical_keys (Session.externals ZF) scenarioCtx 4194304 "add eax, 5" 1 0 EAX EBX
    32 32 4096 32 5 32 [] Session.empty addEaxImm.newInst ZF Session.empty (by decide)
  ⟨by decide, h.1, h.2.2.2.2.1, by decide, by decide⟩

/-- C7: every handler calls one taint rule and then the flag builder `zf`, once and last,
on the element the rule returned; it completes exactly when `zf` does not raise, and then
the instruction is the one received with exactly two elements appended: the primary
element first, the zero-flag element second. -/
theorem appends_primary_then_zf {σ : Type} (E : Externals σ) (this : AddIRBuilder)
    (ctxH : ContextHandler) (ap : σ) (inst : Inst) :
    AppendsPrimaryThenZF inst (AddIRBuilder.regImm E.recording this ctxH (ap, []) inst)
    ∧ AppendsPrimaryThenZF inst (AddIRBuilder.regReg E.recording this ctxH (ap, []) inst)
    ∧ AppendsPrimaryThenZF inst (AddIRBuilder.regMem E.recording this ctxH (ap, []) inst)
    ∧ AppendsPrimaryThenZF inst (AddIRBuilder.memImm E.recording this ctxH (ap, []) inst)
    ∧ AppendsPrimaryThenZF inst (AddIRBuilder.memReg E.recording this ctxH (ap, []) inst) := by
  refine ⟨?_, ?_, ?_, ?_, ?_⟩
  · exact appends_of_tail E _ _ inst rfl rfl
  · exact appends_of_tail E _ _ inst rfl rfl
  · exact appends_of_tail E _ _ inst rfl rfl
  · exact appends_of_tail E _ _ inst rfl rfl
  · exact appends_of_tail E _ _ inst rfl rfl

/-- C7, Scenario A: `ADD EAX, 5` in the empty session completes and leaves exactly two
elements on the fresh instruction, the sum and then the zero-flag expression over it. -/
theorem appends_scenarioA :
    AppendsPrimaryThenZF addEaxImm.newInst
      (AddIRBuilder.regImm (Session.externals ZF).recording addEaxImm scenarioCtx
        (Session.empty, []) addEaxImm.newInst)
    ∧ (AddIRBuilder.regImm (Session.externals ZF) addEaxImm scenarioCtx Session.empty
        addEaxImm.newInst).raised = none
    ∧ (AddIRBuilder.regImm (Session.externals ZF) addEaxImm scenarioCtx Session.empty
        addEaxImm.newInst).inst.elements.map SymbolicElement.expression
      = ["(bvadd 0x0000000A:32 0x00000005:32)", "(bvadd 0x0000000A:32 0x00000005:32) == 0"] :=
  ⟨(appends_primary_then_zf (Session.externals ZF) addEaxImm scenarioCtx Session.empty
      addEaxImm.newInst).1, by decide, by decide⟩

/-- C8: the calls of each handler, in order: the lookups, the creation of the primary
element `se0`, one taint rule, the one of the handler's addressing mode, applied to `se0`
and to the destination `se0` was created for (canonical register ids, destination before
source, the memory address with its access size), and last the flag builder on the
element the rule returned. -/
theorem taint_rule_calls {σ : Type} (E : Externals σ) (ctxH : ContextHandler)
    (address : Nat) (disas : String) (t0 t1 reg reg2 sr sr2 mem size imm si : Nat)
    (rest : List Operand) (ap : σ) (inst : Inst) :
    let c := ctxH.translateRegID reg
    let c2 := ctxH.translateRegID reg2
    (∃ id expr se0 se zres,
      calls (AddIRBuilder.regImm E.recording
          ⟨address, disas, (t0, reg, sr) :: (t1, imm, si) :: rest⟩ ctxH (ap, []) inst)
        = [Call.getRegSymbolicID c id, Call.createRegSE expr c se0,
           Call.aluSpreadTaintRegImm se0 c se, Call.zf se zres])
    ∧ (∃ id1 id2 expr se0 se zres,
      calls (AddIRBuilder.regReg E.recording
          ⟨address, disas, (t0, reg, sr) :: (t1, reg2, sr2) :: rest⟩ ctxH (ap, []) inst)
        = [Call.getRegSymbolicID c id1, Call.getRegSymbolicID c2 id2,
           Call.createRegSE expr c se0, Call.aluSpreadTaintRegReg se0 c c2 se,
           Call.zf se zres])
    ∧ (∃ id1 id2 expr se0 se zres,
      calls (AddIRBuilder.regMem E.recording
          ⟨address, disas, (t0, reg, sr) :: (t1, mem, size) :: rest⟩ ctxH (ap, []) inst)
        = [Call.getRegSymbolicID c id1, Call.getMemorySymbolicID mem id2,
           Call.createRegSE expr c se0, Call.aluSpreadTaintRegMem se0 c mem size se,
           Call.zf se zres])
    ∧ (∃ id expr se0 se zres,
      calls (AddIRBuilder.memImm E.recording
          ⟨address, disas, (t0, mem, size) :: (t1, imm, si) :: rest⟩ ctxH (ap, []) inst)
        = [Call.getMemorySymbolicID mem id, Call.createMemSE expr mem se0,
           Call.aluSpreadTaintMemImm se0 mem size se, Call.zf se zres])
    ∧ (∃ id1 id2 expr se0 se zres,
      calls (AddIRBuilder.memReg E.recording
          ⟨address, disas, (t0, mem, size) :: (t1, reg, sr) :: rest⟩ ctxH (ap, []) inst)
        = [Call.getRegSymbolicID c id1, Call.getMemorySymbolicID mem id2,
           Call.createMemSE expr mem se0, Call.aluSpreadTaintMemReg se0 mem c size se,
           Call.zf se zres]) := by
  intro c c2
  refine ⟨?_, ?_, ?_, ?_, ?_⟩
  · rw [regImm_calls]; exact ⟨_, _, _, _, _, rfl⟩
  · rw [regReg_calls]; exact ⟨_, _, _, _, _, _, rfl⟩
  · rw [regMem_calls]; exact ⟨_, _, _, _, _, _, rfl⟩
  · rw [memImm_calls]; exact ⟨_, _, _, _, _, rfl⟩
  · rw [memReg_calls]; exact ⟨_, _, _, _, _, _, rfl⟩

/-- C9: on the session of the specification, after `regReg` has processed `ADD dest, src`
the canonical destination register is tainted exactly when it was tainted before or the
canonical source register was, and the primary element, appended first, carries that
same taint flag. -/
theorem regReg_taint_or (ctxH : ContextHandler) (address : Nat) (disas : String)
    (t0 dest s0 t1 src s1 : Nat) (rest : List Operand) (zfReg : Nat) (s : Session)
    (inst : Inst) :
    let c1 := ctxH.translateRegID dest
    let c2 := ctxH.translateRegID src
    let r := AddIRBuilder.regReg (Session.externals zfReg)
      ⟨address, disas, (t0, dest, s0) :: (t1, src, s1) :: rest⟩ ctxH s inst
    r.ap.isRegTainted c1 = (s.isRegTainted c1 || s.isRegTainted c2)
    ∧ ∃ se flag, r.inst.elements = inst.elements ++ [se, flag]
        ∧ se.destination = Destination.reg c1
        ∧ se.isTainted = (s.isRegTainted c1 || s.isRegTainted c2) := by
  intro c1 c2 r
  simp only [r, AddIRBuilder.regReg, addElements_session]
  refine ⟨?_, _, _, rfl, rfl, rfl⟩
  simp [Session.isRegTainted, Session.externals, Session.createRegisterElement,
    Session.aluSpreadTaintRegReg, AddIRBuilder.operand, c1, c2]

/-- C9, Scenario B and the table of the rule: with `EAX` and `EBX` tainted the destination
and the primary element end tainted; over the four initial taints of destination and
source the destination ends tainted in all cases but the one where neither was. -/
theorem regReg_taint_scenarioB :
    (AddIRBuilder.regReg (Session.externals ZF) addEaxEbx scenarioCtx scenarioB
        addEaxEbx.newInst).ap.isRegTainted RAX = true
    ∧ ((AddIRBuilder.regReg (Session.externals ZF) addEaxEbx scenarioCtx scenarioB
        addEaxEbx.newInst).inst.elements.map SymbolicElement.isTainted).head? = some true
    ∧ (AddIRBuilder.regReg (Session.externals ZF) addEaxEbx scenarioCtx
        (taintedSession true true) addEaxEbx.newInst).ap.isRegTainted RAX = true
    ∧ (AddIRBuilder.regReg (Session.externals ZF) addEaxEbx scenarioCtx
        (taintedSession true false) addEaxEbx.newInst).ap.isRegTainted RAX = true
    ∧ (AddIRBuilder.regReg (Session.externals ZF) addEaxEbx scenarioCtx
        (taintedSession false true) addEaxEbx.newInst).ap.isRegTainted RAX = true
    ∧ (AddIRBuilder.regReg (Session.externals ZF) addEaxEbx scenarioCtx
        (taintedSession false false) addEaxEbx.newInst).ap.isRegTainted RAX = false :=
  ⟨(regReg_taint_or scenarioCtx 4194304 "add eax, ebx" 1 EAX 32 1 EBX 32 [] ZF scenarioB
      addEaxEbx.newInst).1.trans (by decide),
    by decide,
    (regReg_taint_or scenarioCtx 4194304 "add eax, ebx" 1 EAX 32 1 EBX 32 [] ZF
      (taintedSession true true) addEaxEbx.newInst).1.trans (by decide),
    (regReg_taint_or scenarioCtx 4194304 "add eax, ebx" 1 EAX 32 1 EBX 32 [] ZF
      (taintedSession true false) addEaxEbx.newInst).1.trans (by decide),
    (regReg_taint_or scenarioCtx 4194304 "add eax, ebx" 1 EAX 32 1 EBX 32 [] ZF
      (taintedSession false true) addEaxEbx.newInst).1.trans (by decide),
    (regReg_taint_or scenarioCtx 4194304 "add eax, ebx" 1 EAX 32 1 EBX 32 [] ZF
      (taintedSession false false) addEaxEbx.newInst).1.trans (by decide)⟩

/-- C10: on the session of the specification `regImm` leaves the taint of the destination
register, and `memImm` the taint of the destination memory range, as it was before; the
whole taint state after either handler is the same for any two immediates; and for every
implementation the one taint rule called receives the created element and the destination
only, not the immediate. -/
theorem immediate_never_taints {σ : Type} (E : Externals σ) (ctxH : ContextHandler)
    (address : Nat) (disas : String) (t0 t1 reg sr mem size imm imm2 si : Nat)
    (rest : List Operand) (ap : σ) (inst : Inst) (zfReg : Nat) (s : Session) :
    let c := ctxH.translateRegID reg
    let bReg (i : Nat) : AddIRBuilder := ⟨address, disas, (t0, reg, sr) :: (t1, i, si) :: rest⟩
    let bMem (i : Nat) : AddIRBuilder := ⟨address, disas, (t0, mem, size) :: (t1, i, si) :: rest⟩
    let r (i : Nat) := AddIRBuilder.regImm (Session.externals zfReg) (bReg i) ctxH s inst
    let m (i : Nat) := AddIRBuilder.memImm (Session.externals zfReg) (bMem i) ctxH s inst
    (r imm).ap.isRegTainted c = s.isRegTainted c
    ∧ (m imm).ap.isMemTainted mem size = s.isMemTainted mem size
    ∧ (r imm).ap.taintedRegs = (r imm2).ap.taintedRegs
    ∧ (r imm).ap.taintedMem = (r imm2).ap.taintedMem
    ∧ (m imm).ap.taintedRegs = (m imm2).ap.taintedRegs
    ∧ (m imm).ap.taintedMem = (m imm2).ap.taintedMem
    ∧ (∃ expr se0 se,
        (calls (AddIRBuilder.regImm E.recording (bReg imm) ctxH (ap, []) inst)).filter
            (fun call => call.isTaintRule || (call.created).isSome)
          = [Call.createRegSE expr c se0, Call.aluSpreadTaintRegImm se0 c se])
    ∧ (∃ expr se0 se,
        (calls (AddIRBuilder.memImm E.recording (bMem imm) ctxH (ap, []) inst)).filter
            (fun call => call.isTaintRule || (call.created).isSome)
          = [Call.createMemSE expr mem se0, Call.aluSpreadTaintMemImm se0 mem size se]) := by
  intro c bReg bMem r m
  refine ⟨?_, ?_, ?_, ?_, ?_, ?_, ?_, ?_⟩
  · simp only [r, AddIRBuilder.regImm, addElements_session]
    rfl
  · simp only [m, AddIRBuilder.memImm, addElements_session]
    rfl
  · simp only [r, AddIRBuilder.regImm, addElements_session]
    rfl
  · simp only [r, AddIRBuilder.regImm, addElements_session]
    rfl
  · simp only [m, AddIRBuilder.memImm, addElements_session]
    rfl
  · simp only [m, AddIRBuilder.memImm, addElements_session]
    rfl
  · rw [regImm_calls]; exact ⟨_, _, _, rfl⟩
  · rw [memImm_calls]; exact ⟨_, _, _, rfl⟩

/-! ## Dispatch, failures and `process` -/

/-- Every handler, run on a recording implementation, makes a call that creates an element. -/
theorem handlers_create {σ : Type} (E : Externals σ) (this : AddIRBuilder)
    (ctxH : ContextHandler) (ap : σ) (inst : Inst) :
    (calls (AddIRBuilder.regImm E.recording this ctxH (ap, []) inst)).filterMap Call.created ≠ []
    ∧ (calls (AddIRBuilder.regReg E.recording this ctxH (ap, []) inst)).filterMap Call.created
        ≠ []
    ∧ (calls (AddIRBuilder.regMem E.recording this ctxH (ap, []) inst)).filterMap Call.created
        ≠ []
    ∧ (calls (AddIRBuilder.memImm E.recording this ctxH (ap, []) inst)).filterMap Call.created
        ≠ []
    ∧ (calls (AddIRBuilder.memReg E.recording this ctxH (ap, []) inst)).filterMap Call.created
        ≠ [] := by
  refine ⟨?_, ?_, ?_, ?_, ?_⟩
  · rw [regImm_calls]; simp [Call.created]
  · rw [regReg_calls]; simp [Call.created]
  · rw [regMem_calls]; simp [Call.created]
  · rw [memImm_calls]; simp [Call.created]
  · rw [memReg_calls]; simp [Call.created]

/-- The dispatch either runs a handler, which creates an element, or raises
`UnsupportedAddressingMode` having called nothing and changed nothing. -/
theorem templateMethod_cases {σ : Type} (E : Externals σ) (this : AddIRBuilder)
    (ctxH : ContextHandler) (ap : σ) (inst : Inst) (operands : List Operand)
    (insName : String) :
    (calls (AddIRBuilder.templateMethod E.recording this ctxH (ap, []) inst operands
        insName)).filterMap Call.created ≠ []
    ∨ AddIRBuilder.templateMethod E.recording this ctxH (ap, []) inst operands insName
        = ⟨some (UnsupportedAddressingMode this.address insName), inst, (ap, [])⟩ := by
  have h := handlers_create E this ctxH ap inst
  unfold AddIRBuilder.templateMethod
  split
  · split
    · exact Or.inl h.1
    · split
      · exact Or.inl h.2.1
      · split
        · exact Or.inl h.2.2.1
        · split
          · exact Or.inl h.2.2.2.1
          · split
            · exact Or.inl h.2.2.2.2
            · exact Or.inr rfl
  · exact Or.inr rfl

/-- The analysis state `process` hands back, once `checkSetup` has passed, is the state
the dispatch left, whether the dispatch raised or not. -/
theorem process_state {σ : Type} (E : Externals σ) (this : AddIRBuilder)
    (ctxH : ContextHandler) (ap : σ) (h : this.checkSetup = none) :
    (AddIRBuilder.process E this ctxH ap).2
      = (AddIRBuilder.templateMethod E this ctxH ap ⟨this.address, this.disas, []⟩
          this.operands "ADD").ap := by
  unfold AddIRBuilder.process
  rw [h]
  dsimp only
  cases (AddIRBuilder.templateMethod E this ctxH ap ⟨this.address, this.disas, []⟩
    this.operands "ADD").raised with
  | none => rfl
  | some e => dsimp only; split <;> rfl

/-- C11: `process` on a builder without bound operands raises the `UnconfiguredOperands`
condition of `checkSetup` before anything is called, the analysis state being as it was;
whenever `process` raises and no create call was made, nothing at all was called and the
analysis state is as it was; in every handler the calls before the create call are only
lookups; and on the session of the specification a lookup leaves the session as it is. -/
theorem process_fails_before_create {σ : Type} (E : Externals σ) (this : AddIRBuilder)
    (ctxH : ContextHandler) (ap : σ) (inst : Inst) (zfReg key : Nat) (s : Session) :
    (this.operands = [] →
      AddIRBuilder.process E.recording this ctxH (ap, [])
        = (Except.error (UnconfiguredOperands this.address this.disas), (ap, [])))
    ∧ (∀ e, (AddIRBuilder.process E.recording this ctxH (ap, [])).1 = Except.error e →
        (AddIRBuilder.process E.recording this ctxH (ap, [])).2.2.filterMap Call.created = [] →
        (AddIRBuilder.process E.recording this ctxH (ap, [])).2 = (ap, []))
    ∧ ((calls (AddIRBuilder.regImm E.recording this ctxH (ap, []) inst)).takeWhile
        (fun call => (call.created).isNone)).all Call.isLookup = true
    ∧ ((calls (AddIRBuilder.regReg E.recording this ctxH (ap, []) inst)).takeWhile
        (fun call => (call.created).isNone)).all Call.isLookup = true
    ∧ ((calls (AddIRBuilder.regMem E.recording this ctxH (ap, []) inst)).takeWhile
        (fun call => (call.created).isNone)).all Call.isLookup = true
    ∧ ((calls (AddIRBuilder.memImm E.recording this ctxH (ap, []) inst)).takeWhile
        (fun call => (call.created).isNone)).all Call.isLookup = true
    ∧ ((calls (AddIRBuilder.memReg E.recording this ctxH (ap, []) inst)).takeWhile
        (fun call => (call.created).isNone)).all Call.isLookup = true
    ∧ ((Session.externals zfReg).getRegSymbolicID key s).2 = s
    ∧ ((Session.externals zfReg).getMemorySymbolicID key s).2 = s := by
  refine ⟨?_, ?_, ?_, ?_, ?_, ?_, ?_, rfl, rfl⟩
  · intro h
    simp [AddIRBuilder.process, AddIRBuilder.checkSetup, h]
  · intro e _ hc
    cases hs : this.checkSetup with
    | some e0 =>
      unfold AddIRBuilder.process
      rw [hs]
    | none =>
      rw [process_state E.recording this ctxH (ap, []) hs] at hc ⊢
      rcases templateMethod_cases E this ctxH ap ⟨this.address, this.disas, []⟩ this.operands
        "ADD" with h | h
      · exact absurd hc h
      · rw [h]
  · rw [regImm_calls]; rfl
  · rw [regReg_calls]; rfl
  · rw [regMem_calls]; rfl
  · rw [memImm_calls]; rfl
  · rw [memReg_calls]; rfl

/-- C11, instances: the builder without operands raises `UnconfiguredOperands` with the
empty session untouched and nothing called; the builder of an addition of two immediates
raises, having created nothing, and the empty session is untouched as well. -/
theorem process_fails_before_create_instances :
    (addUnbound.operands = []
      ∧ AddIRBuilder.process (Session.externals ZF).recording addUnbound scenarioCtx
          (Session.empty, [])
        = (Except.error (UnconfiguredOperands 4194304 "add"), (Session.empty, [])))
    ∧ (AddIRBuilder.process (Session.externals ZF).recording addImmImm scenarioCtx
          (Session.empty, [])).1 = Except.error ⟨"std::exception", "std::exception"⟩
    ∧ (AddIRBuilder.process (Session.externals ZF).recording addImmImm scenarioCtx
          (Session.empty, [])).2.2.filterMap Call.created = []
    ∧ (AddIRBuilder.process (Session.externals ZF).recording addImmImm scenarioCtx
          (Session.empty, [])).2 = (Session.empty, []) :=
  ⟨⟨rfl, (process_fails_before_create (Session.externals ZF) addUnbound scenarioCtx
      Session.empty addUnbound.newInst ZF RAX Session.empty).1 rfl⟩,
    by decide, by decide,
    (process_fails_before_create (Session.externals ZF) addImmImm scenarioCtx
      Session.empty addImmImm.newInst ZF RAX Session.empty).2.1
        ⟨"std::exception", "std::exception"⟩ (by decide) (by decide)⟩

/-- C12, the code at an addition of two immediates: the dispatch raises
`UnsupportedAddressingMode` with a text naming `ADD` and the address, and no instruction
is returned; but the exception that leaves `process` is the copy made by `throw e`, a
plain `std::exception`, which has neither the kind nor the text of the one raised. -/
theorem process_rethrow_slices :
    (AddIRBuilder.templateMethod (Session.externals ZF) addImmImm scenarioCtx Session.empty
        addImmImm.newInst addImmImm.operands "ADD").raised
      = some ⟨"UnsupportedAddressingMode", "ADD at 4194304: no handler for these operand types"⟩
    ∧ (AddIRBuilder.process (Session.externals ZF) addImmImm scenarioCtx Session.empty).1
      = Except.error ⟨"std::exception", "std::exception"⟩
    ∧ (AddIRBuilder.process (Session.externals ZF) addImmImm scenarioCtx Session.empty).1
      ≠ Except.error (UnsupportedAddressingMode 4194304 "ADD") := by
  decide

/-- The exception a handler tail raises is the one its call of `zf` raised. -/
theorem addElements_raisedBy {σ : Type} (E : Externals σ) (se : SymbolicElement) (ap : σ)
    (inst : Inst) : (AddIRBuilder.addElements E se ap inst).raised = raisedBy (E.zf se ap).1 := by
  unfold AddIRBuilder.addElements
  dsimp only
  cases (E.zf se ap).1 <;> rfl

/-- On a recording implementation the last call of a handler tail is the call of `zf`, and
the tail raises what that call raised, if it did. -/
theorem tail_raised {σ : Type} (E : Externals σ) (se : SymbolicElement) (s : σ × List Call)
    (inst : Inst) :
    ∃ se1 zres, (calls (AddIRBuilder.addElements E.recording se s inst)).getLast?
        = some (Call.zf se1 zres)
      ∧ (AddIRBuilder.addElements E.recording se s inst).raised = raisedBy zres := by
  refine ⟨se, (E.zf se s.1).1, ?_, ?_⟩
  · simp only [calls, addElements_ap, recording_zf_log]
    simp
  · exact addElements_raisedBy E.recording se s inst

/-- C13, as stated, fails: `EAX` is 32 bits wide and `BL` 8 bits wide, yet `regReg` does
not raise, an element is created, and `process` returns the instruction with the sum, both
operands rendered at 32 bits, and its zero-flag element. -/
theorem regReg_width_counterexample :
    scenarioCtx.getRegisterSize EAX ≠ scenarioCtx.getRegisterSize BL
    ∧ (AddIRBuilder.regReg (Session.externals ZF) addEaxBl scenarioCtx Session.empty
        addEaxBl.newInst).raised = none
    ∧ (calls (AddIRBuilder.regReg (Session.externals ZF).recording addEaxBl scenarioCtx
        (Session.empty, []) addEaxBl.newInst)).filterMap Call.created ≠ []
    ∧ (AddIRBuilder.process (Session.externals ZF) addEaxBl scenarioCtx Session.empty).1
      = Except.ok ⟨4194304, "add eax, bl",
          [⟨0, "(bvadd 0x0000000A:32 0x00000007:32)", Destination.reg RAX, false⟩,
           ⟨1, "(bvadd 0x0000000A:32 0x00000007:32) == 0", Destination.reg ZF, false⟩]⟩ := by
  decide

/-- What `regRegLib` reads of the context: the canonical ids and the values of its two
registers and the size of the first one. -/
theorem regRegLib_reads {σ : Type} (E : Externals σ)
    (lib : Nat → Nat → Except Exception String) (this : AddIRBuilder)
    (ctx1 ctx2 : ContextHandler) (ap : σ) (inst : Inst)
    (hT : ctx2.translateRegID = ctx1.translateRegID)
    (hV : ctx2.getRegisterValue = ctx1.getRegisterValue)
    (hS : ctx2.getRegisterSize (this.operand 0).2.1 = ctx1.getRegisterSize (this.operand 0).2.1) :
    AddIRBuilder.regRegLib E lib this ctx2 ap inst
      = AddIRBuilder.regRegLib E lib this ctx1 ap inst := by
  unfold AddIRBuilder.regRegLib
  simp only [hT, hV, hS]

/-- When the library returns both operand texts, `regRegLib` goes on to the registration,
the taint rule and the common tail. -/
theorem regRegLib_ok {σ : Type} (E : Externals σ)
    (lib : Nat → Nat → Except Exception String) (this : AddIRBuilder)
    (ctxH : ContextHandler) (ap : σ) (inst : Inst) (a b : String)
    (h1 : operandTextLib E lib
      (E.getRegSymbolicID (ctxH.translateRegID (this.operand 0).2.1) ap).1
      (ctxH.getRegisterValue (this.operand 0).2.1)
      (ctxH.getRegisterSize (this.operand 0).2.1) = Except.ok a)
    (h2 : operandTextLib E lib
      (E.getRegSymbolicID (ctxH.translateRegID (this.operand 1).2.1)
        (E.getRegSymbolicID (ctxH.translateRegID (this.operand 0).2.1) ap).2).1
      (ctxH.getRegisterValue (this.operand 1).2.1)
      (ctxH.getRegisterSize (this.operand 0).2.1) = Except.ok b) :
    AddIRBuilder.regRegLib E lib this ctxH ap inst
      = (let c1 := ctxH.translateRegID (this.operand 0).2.1
         let c2 := ctxH.translateRegID (this.operand 1).2.1
         let r1 := E.getRegSymbolicID c1 ap
         let r2 := E.getRegSymbolicID c2 r1.2
         let r3 := E.createRegSE ("(bvadd " ++ a ++ " " ++ b ++ ")") c1 r2.2
         let r4 := E.aluSpreadTaintRegReg r3.1 c1 c2 r3.2
         AddIRBuilder.addElements E r4.1 r4.2 inst) := by
  unfold operandTextLib at h1 h2
  unfold AddIRBuilder.regRegLib
  simp only [h1, h2]

/-- When the library raises for the first operand, `regRegLib` raises with it, after the
two lookups. -/
theorem regRegLib_error1 {σ : Type} (E : Externals σ)
    (lib : Nat → Nat → Except Exception String) (this : AddIRBuilder)
    (ctxH : ContextHandler) (ap : σ) (inst : Inst) (e : Exception)
    (h1 : operandTextLib E lib
      (E.getRegSymbolicID (ctxH.translateRegID (this.operand 0).2.1) ap).1
      (ctxH.getRegisterValue (this.operand 0).2.1)
      (ctxH.getRegisterSize (this.operand 0).2.1) = Except.error e) :
    AddIRBuilder.regRegLib E lib this ctxH ap inst
      = ⟨some e, inst,
          (E.getRegSymbolicID (ctxH.translateRegID (this.operand 1).2.1)
            (E.getRegSymbolicID (ctxH.translateRegID (this.operand 0).2.1) ap).2).2⟩ := by
  unfold operandTextLib at h1
  unfold AddIRBuilder.regRegLib
  simp only [h1]

/-- When the library returns for the first operand and raises for the second, `regRegLib`
raises with it, after the two lookups. -/
theorem regRegLib_error2 {σ : Type} (E : Externals σ)
    (lib : Nat → Nat → Except Exception String) (this : AddIRBuilder)
    (ctxH : ContextHandler) (ap : σ) (inst : Inst) (a : String) (e : Exception)
    (h1 : operandTextLib E lib
      (E.getRegSymbolicID (ctxH.translateRegID (this.operand 0).2.1) ap).1
      (ctxH.getRegisterValue (this.operand 0).2.1)
      (ctxH.getRegisterSize (this.operand 0).2.1) = Except.ok a)
    (h2 : operandTextLib E lib
      (E.getRegSymbolicID (ctxH.translateRegID (this.operand 1).2.1)
        (E.getRegSymbolicID (ctxH.translateRegID (this.operand 0).2.1) ap).2).1
      (ctxH.getRegisterValue (this.operand 1).2.1)
      (ctxH.getRegisterSize (this.operand 0).2.1) = Except.error e) :
    AddIRBuilder.regRegLib E lib this ctxH ap inst
      = ⟨some e, inst,
          (E.getRegSymbolicID (ctxH.translateRegID (this.operand 1).2.1)
            (E.getRegSymbolicID (ctxH.translateRegID (this.operand 0).2.1) ap).2).2⟩ := by
  unfold operandTextLib at h1 h2
  unfold AddIRBuilder.regRegLib
  simp only [h1, h2]

/-- With a library that always returns, `regRegLib` is `regReg` over that printer. -/
theorem regRegLib_total {σ : Type} (E : Externals σ) (this : AddIRBuilder)
    (ctxH : ContextHandler) (ap : σ) (inst : Inst) :
    AddIRBuilder.regRegLib E (fun value size => Except.ok (E.bv value size)) this ctxH ap inst
      = AddIRBuilder.regReg E this ctxH ap inst := by
  unfold AddIRBuilder.regRegLib AddIRBuilder.regReg
  dsimp only
  split_ifs <;> rfl

/-- C13, amended: `regReg` compares no widths and never reads the size of `reg2`; the run
is the same under another context with the same canonical ids, the same values and the
same size of `reg1`, whatever the size of `reg2` there.  Each operand without a symbolic
id is handed to the library at the size of `reg1`.  When the library returns the two
texts, one element is created, for the canonical register of `reg1`, with these texts,
and the only exception raised is one raised by the call of `zf`.  When the library raises,
for the first operand or for the second, `regReg` raises that exception, creates nothing
and leaves the instruction as it was.  With a library that always returns this is the
handler `regReg`.  On the session of the specification with the library that raises
`WidthMismatch` for a value that does not fit, the handler does not raise when both values
fit the size of `reg1`, and two ids are consumed, for the sum and for the flag. -/
theorem regReg_no_width_check {σ : Type} (E : Externals σ)
    (lib : Nat → Nat → Except Exception String) (ctxH ctx2 : ContextHandler)
    (address : Nat) (disas : String) (t0 reg1 s0 t1 reg2 s1 : Nat) (rest : List Operand)
    (ap : σ) (inst : Inst) (zfReg : Nat) (s : Session) :
    let w := ctxH.getRegisterSize reg1
    let c1 := ctxH.translateRegID reg1
    let look1 := E.getRegSymbolicID c1 ap
    let look2 := E.getRegSymbolicID (ctxH.translateRegID reg2) look1.2
    let text1 := operandTextLib E lib look1.1 (ctxH.getRegisterValue reg1) w
    let text2 := operandTextLib E lib look2.1 (ctxH.getRegisterValue reg2) w
    let this : AddIRBuilder := ⟨address, disas, (t0, reg1, s0) :: (t1, reg2, s1) :: rest⟩
    let r := AddIRBuilder.regRegLib E.recording lib this ctxH (ap, []) inst
    let onSession :=
      AddIRBuilder.regRegLib (Session.externals zfReg) smt2lib.bvChecked this ctxH s inst
    (ctx2.translateRegID = ctxH.translateRegID →
      ctx2.getRegisterValue = ctxH.getRegisterValue →
      ctx2.getRegisterSize reg1 = w →
      AddIRBuilder.regRegLib E.recording lib this ctx2 (ap, []) inst = r)
    ∧ (∀ a b, text1 = Except.ok a → text2 = Except.ok b →
        (calls r).filterMap Call.created
          = [("(bvadd " ++ a ++ " " ++ b ++ ")", Destination.reg c1)]
        ∧ ∃ se zres, (calls r).getLast? = some (Call.zf se zres) ∧ r.raised = raisedBy zres)
    ∧ (∀ e, text1 = Except.error e →
        r.raised = some e ∧ (calls r).filterMap Call.created = [] ∧ r.inst = inst)
    ∧ (∀ a e, text1 = Except.ok a → text2 = Except.error e →
        r.raised = some e ∧ (calls r).filterMap Call.created = [] ∧ r.inst = inst)
    ∧ AddIRBuilder.regRegLib E (fun value size => Except.ok (E.bv value size)) this ctxH ap inst
        = AddIRBuilder.regReg E this ctxH ap inst
    ∧ (ctxH.getRegisterValue reg1 < 2 ^ w → ctxH.getRegisterValue reg2 < 2 ^ w →
        onSession.raised = none ∧ onSession.ap.nextID = s.nextID + 2) := by
  intro w c1 look1 look2 text1 text2 this r onSession
  refine ⟨?_, ?_, ?_, ?_, ?_, ?_⟩
  · intro hT hV hS
    exact regRegLib_reads E.recording lib this ctxH ctx2 (ap, []) inst hT hV hS
  · intro a b h1 h2
    have hr : r = _ := regRegLib_ok E.recording lib this ctxH (ap, []) inst a b h1 h2
    rw [hr]
    refine ⟨?_, tail_raised E _ _ inst⟩
    unfold calls
    simp only [addElements_ap, recording_zf_log]
    rfl
  · intro e h1
    have hr : r = _ := regRegLib_error1 E.recording lib this ctxH (ap, []) inst e h1
    rw [hr]
    exact ⟨rfl, rfl, rfl⟩
  · intro a e h1 h2
    have hr : r = _ := regRegLib_error2 E.recording lib this ctxH (ap, []) inst a e h1 h2
    rw [hr]
    exact ⟨rfl, rfl, rfl⟩
  · exact regRegLib_total E this ctxH ap inst
  · intro h1 h2
    have ht : ∀ id value, value < 2 ^ w →
        ∃ a, operandTextLib (Session.externals zfReg) smt2lib.bvChecked id value w
          = Except.ok a := by
      intro id value hv
      unfold operandTextLib smt2lib.bvChecked
      rw [if_pos hv]
      split
      · exact ⟨_, rfl⟩
      · exact ⟨_, rfl⟩
    obtain ⟨a, ha⟩ := ht
      ((Session.externals zfReg).getRegSymbolicID (ctxH.translateRegID reg1) s).1 _ h1
    obtain ⟨b, hb⟩ := ht
      ((Session.externals zfReg).getRegSymbolicID (ctxH.translateRegID reg2)
        ((Session.externals zfReg).getRegSymbolicID (ctxH.translateRegID reg1) s).2).1 _ h2
    have hr : onSession = _ :=
      regRegLib_ok (Session.externals zfReg) smt2lib.bvChecked this ctxH s inst a b ha hb
    rw [hr]
    rw [addElements_session]
    exact ⟨rfl, rfl⟩

/-- C13, instances, with the library that raises `WidthMismatch` for a value that does not
fit.  `ADD EAX, BL`, sizes 32 and 8, values 10 and 7: both texts are returned at 32 bits,
the element is created with them, nothing is raised, and the run is the run under the
context in which `BL` is 32 bits wide as well.  `ADD BL, EAX` with `0x12345678` in `EAX`:
the library raises `WidthMismatch` for that value at the 8 bits of `BL`, and the handler
raises it, creates nothing and leaves the instruction empty; so it does for `ADD EAX, BL`
when the value of `EAX` is `2 ^ 32`, which the library refuses at 32 bits. -/
theorem regReg_no_width_check_instances :
    scenarioCtx.getRegisterSize EAX ≠ scenarioCtx.getRegisterSize BL
    ∧ equalSizesCtx.getRegisterSize EAX = equalSizesCtx.getRegisterSize BL
    ∧ AddIRBuilder.regRegLib (Session.externals ZF).recording smt2lib.bvChecked addEaxBl
          equalSizesCtx (Session.empty, []) addEaxBl.newInst
        = AddIRBuilder.regRegLib (Session.externals ZF).recording smt2lib.bvChecked addEaxBl
          scenarioCtx (Session.empty, []) addEaxBl.newInst
    ∧ (calls (AddIRBuilder.regRegLib (Session.externals ZF).recording smt2lib.bvChecked
          addEaxBl scenarioCtx (Session.empty, []) addEaxBl.newInst)).filterMap Call.created
        = [("(bvadd 0x0000000A:32 0x00000007:32)", Destination.reg RAX)]
    ∧ ((AddIRBuilder.regRegLib (Session.externals ZF) smt2lib.bvChecked addEaxBl scenarioCtx
          Session.empty addEaxBl.newInst).raised = none
      ∧ (AddIRBuilder.regRegLib (Session.externals ZF) smt2lib.bvChecked addEaxBl scenarioCtx
          Session.empty addEaxBl.newInst).ap.nextID = 2)
    ∧ smt2lib.bvChecked 305419896 8 = Except.error (WidthMismatch 305419896 8)
    ∧ ((AddIRBuilder.regRegLib (Session.externals ZF).recording smt2lib.bvChecked addBlEax
          wideValueCtx (Session.empty, []) addBlEax.newInst).raised
        = some (WidthMismatch 305419896 8)
      ∧ (calls (AddIRBuilder.regRegLib (Session.externals ZF).recording smt2lib.bvChecked
          addBlEax wideValueCtx (Session.empty, []) addBlEax.newInst)).filterMap Call.created
        = []
      ∧ (AddIRBuilder.regRegLib (Session.externals ZF).recording smt2lib.bvChecked addBlEax
          wideValueCtx (Session.empty, []) addBlEax.newInst).inst = addBlEax.newInst)
    ∧ ((AddIRBuilder.regRegLib (Session.externals ZF).recording smt2lib.bvChecked addEaxBl
          overflowCtx (Session.empty, []) addEaxBl.newInst).raised
        = some (WidthMismatch 4294967296 32)
      ∧ (calls (AddIRBuilder.regRegLib (Session.externals ZF).recording smt2lib.bvChecked
          addEaxBl overflowCtx (Session.empty, []) addEaxBl.newInst)).filterMap Call.created
        = []
      ∧ (AddIRBuilder.regRegLib (Session.externals ZF).recording smt2lib.bvChecked addEaxBl
          overflowCtx (Session.empty, []) addEaxBl.newInst).inst = addEaxBl.newInst) :=
  ⟨by decide, by decide,
    (regReg_no_width_check (Session.externals ZF) smt2lib.bvChecked scenarioCtx equalSizesCtx
      4194304 "add eax, bl" 1 EAX 32 1 BL 8 [] Session.empty addEaxBl.newInst ZF
      Session.empty).1 rfl rfl rfl,
    ((regReg_no_width_check (Session.externals ZF) smt2lib.bvChecked scenarioCtx equalSizesCtx
      4194304 "add eax, bl" 1 EAX 32 1 BL 8 [] Session.empty addEaxBl.newInst ZF
      Session.empty).2.1 "0x0000000A:32" "0x00000007:32" (by decide) (by decide)).1,
    (regReg_no_width_check (Session.externals ZF) smt2lib.bvChecked scenarioCtx equalSizesCtx
      4194304 "add eax, bl" 1 EAX 32 1 BL 8 [] Session.empty addEaxBl.newInst ZF
      Session.empty).2.2.2.2.2 (by decide) (by decide),
    by decide,
    (regReg_no_width_check (Session.externals ZF) smt2lib.bvChecked wideValueCtx wideValueCtx
      4194304 "add bl, eax" 1 BL 8 1 EAX 32 [] Session.empty addBlEax.newInst ZF
      Session.empty).2.2.2.1 "0x07:8" (WidthMismatch 305419896 8) (by decide) (by decide),
    (regReg_no_width_check (Session.externals ZF) smt2lib.bvChecked overflowCtx overflowCtx
      4194304 "add eax, bl" 1 EAX 32 1 BL 8 [] Session.empty addEaxBl.newInst ZF
      Session.empty).2.2.1 (WidthMismatch 4294967296 32) (by decide)⟩

/-- C19: `process` hands back the analysis state exactly as the dispatch left it, also when
the dispatch raised, and the exception leaves `process` as the copy made by `throw e` when
the `catch` clause matches it and unchanged when it does not.  In each of the five
handlers the state handed back is the state the call of `zf` left, when it raised as when
it returned, and `zf` received the state left by the registration of the primary element
and by the taint rule.  On the session of the specification, when `zf` raises in any of
the five handlers, `process` raises, the table maps the destination to the id of the
primary element, that id is consumed, and the taint rule's effect on the destination
stays. -/
theorem process_not_transactional {σ : Type} (E : Externals σ) (this : AddIRBuilder)
    (ctxH : ContextHandler) (ap : σ) (inst : Inst) (e : Exception) (address : Nat)
    (disas : String) (reg sr reg2 sr2 mem size imm si : Nat) (s : Session) :
    let op0 := (this.operand 0).2.1
    let op1 := (this.operand 1).2.1
    let c := ctxH.translateRegID reg
    let c2 := ctxH.translateRegID reg2
    let X := Session.externalsRaising e
    let leaving : Except Exception Inst :=
      Except.error (if e.isStdException then e.rethrownByValue else e)
    let pRegImm := AddIRBuilder.process X
      ⟨address, disas, [(IRBuilderOperand.REG, reg, sr), (IRBuilderOperand.IMM, imm, si)]⟩
      ctxH s
    let pRegReg := AddIRBuilder.process X
      ⟨address, disas, [(IRBuilderOperand.REG, reg, sr), (IRBuilderOperand.REG, reg2, sr2)]⟩
      ctxH s
    let pRegMem := AddIRBuilder.process X
      ⟨address, disas, [(IRBuilderOperand.REG, reg, sr), (IRBuilderOperand.MEM, mem, size)]⟩
      ctxH s
    let pMemImm := AddIRBuilder.process X
      ⟨address, disas, [(IRBuilderOperand.MEM, mem, size), (IRBuilderOperand.IMM, imm, si)]⟩
      ctxH s
    let pMemReg := AddIRBuilder.process X
      ⟨address, disas, [(IRBuilderOperand.MEM, mem, size), (IRBuilderOperand.REG, reg, sr)]⟩
      ctxH s
    (this.checkSetup = none →
      (AddIRBuilder.process E this ctxH ap).2
        = (AddIRBuilder.templateMethod E this ctxH ap this.newInst this.operands "ADD").ap)
    ∧ (∀ e1, this.checkSetup = none →
        (AddIRBuilder.templateMethod E this ctxH ap this.newInst this.operands "ADD").raised
          = some e1 →
        (AddIRBuilder.process E this ctxH ap).1
          = Except.error (if e1.isStdException then e1.rethrownByValue else e1))
    ∧ (∃ expr,
        let look := E.getRegSymbolicID (ctxH.translateRegID op0) ap
        let made := E.createRegSE expr (ctxH.translateRegID op0) look.2
        let spread := E.aluSpreadTaintRegImm made.1 (ctxH.translateRegID op0) made.2
        (AddIRBuilder.regImm E this ctxH ap inst).ap = (E.zf spread.1 spread.2).2
        ∧ (AddIRBuilder.regImm E this ctxH ap inst).raised = raisedBy (E.zf spread.1 spread.2).1)
    ∧ (∃ expr,
        let look := E.getRegSymbolicID (ctxH.translateRegID op0) ap
        let look2 := E.getRegSymbolicID (ctxH.translateRegID op1) look.2
        let made := E.createRegSE expr (ctxH.translateRegID op0) look2.2
        let spread := E.aluSpreadTaintRegReg made.1 (ctxH.translateRegID op0)
          (ctxH.translateRegID op1) made.2
        (AddIRBuilder.regReg E this ctxH ap inst).ap = (E.zf spread.1 spread.2).2
        ∧ (AddIRBuilder.regReg E this ctxH ap inst).raised = raisedBy (E.zf spread.1 spread.2).1)
    ∧ (∃ expr,
        let look := E.getRegSymbolicID (ctxH.translateRegID op0) ap
        let look2 := E.getMemorySymbolicID op1 look.2
        let made := E.createRegSE expr (ctxH.translateRegID op0) look2.2
        let spread := E.aluSpreadTaintRegMem made.1 (ctxH.translateRegID op0) op1
          (this.operand 1).2.2 made.2
        (AddIRBuilder.regMem E this ctxH ap inst).ap = (E.zf spread.1 spread.2).2
        ∧ (AddIRBuilder.regMem E this ctxH ap inst).raised = raisedBy (E.zf spread.1 spread.2).1)
    ∧ (∃ expr,
        let look := E.getMemorySymbolicID op0 ap
        let made := E.createMemSE expr op0 look.2
        let spread := E.aluSpreadTaintMemImm made.1 op0 (this.operand 0).2.2 made.2
        (AddIRBuilder.memImm E this ctxH ap inst).ap = (E.zf spread.1 spread.2).2
        ∧ (AddIRBuilder.memImm E this ctxH ap inst).raised = raisedBy (E.zf spread.1 spread.2).1)
    ∧ (∃ expr,
        let look := E.getRegSymbolicID (ctxH.translateRegID op1) ap
        let look2 := E.getMemorySymbolicID op0 look.2
        let made := E.createMemSE expr op0 look2.2
        let spread := E.aluSpreadTaintMemReg made.1 op0 (ctxH.translateRegID op1)
          (this.operand 0).2.2 made.2
        (AddIRBuilder.memReg E this ctxH ap inst).ap = (E.zf spread.1 spread.2).2
        ∧ (AddIRBuilder.memReg E this ctxH ap inst).raised = raisedBy (E.zf spread.1 spread.2).1)
    ∧ (pRegImm.1 = leaving
        ∧ pRegImm.2.resolveRegister c = s.nextID
        ∧ pRegImm.2.nextID = s.nextID + 1
        ∧ pRegImm.2.isRegTainted c = s.isRegTainted c)
    ∧ (pRegReg.1 = leaving
        ∧ pRegReg.2.resolveRegister c = s.nextID
        ∧ pRegReg.2.nextID = s.nextID + 1
        ∧ pRegReg.2.isRegTainted c = (s.isRegTainted c || s.isRegTainted c2))
    ∧ (pRegMem.1 = leaving
        ∧ pRegMem.2.resolveRegister c = s.nextID
        ∧ pRegMem.2.nextID = s.nextID + 1
        ∧ pRegMem.2.isRegTainted c = (s.isRegTainted c || s.isMemTainted mem size))
    ∧ (pMemImm.1 = leaving
        ∧ pMemImm.2.resolveMemory mem = s.nextID
        ∧ pMemImm.2.nextID = s.nextID + 1
        ∧ pMemImm.2.isMemTainted mem size = s.isMemTainted mem size)
    ∧ (pMemReg.1 = leaving
        ∧ pMemReg.2.resolveMemory mem = s.nextID
        ∧ pMemReg.2.nextID = s.nextID + 1
        ∧ ∀ a, mem ≤ a → a < mem + size / 8 →
            pMemReg.2.taintedMem a = (s.isMemTainted mem size || s.isRegTainted c)) := by
  intro op0 op1 c c2 X leaving pRegImm pRegReg pRegMem pMemImm pMemReg
  have hri : IRBuilderOperand.REG ≠ IRBuilderOperand.IMM := by decide
  have hrm : IRBuilderOperand.REG ≠ IRBuilderOperand.MEM := by decide
  have hmr : IRBuilderOperand.MEM ≠ IRBuilderOperand.REG := by decide
  have hmi : IRBuilderOperand.MEM ≠ IRBuilderOperand.IMM := by decide
  have him : IRBuilderOperand.IMM ≠ IRBuilderOperand.MEM := by decide
  have hir : IRBuilderOperand.IMM ≠ IRBuilderOperand.REG := by decide
  refine ⟨?_, ?_, ?_, ?_, ?_, ?_, ?_, ⟨?_, ?_, ?_, ?_⟩, ⟨?_, ?_, ?_, ?_⟩, ⟨?_, ?_, ?_, ?_⟩,
    ⟨?_, ?_, ?_, ?_⟩, ⟨?_, ?_, ?_, ?_⟩⟩
  · exact process_state E this ctxH ap
  · intro e1 h hr
    unfold AddIRBuilder.process
    rw [h]
    unfold AddIRBuilder.newInst at hr
    dsimp only
    rw [hr]
    dsimp only
    split <;> rfl
  · exact ⟨_, addElements_ap E _ _ inst, addElements_raisedBy E _ _ inst⟩
  · exact ⟨_, addElements_ap E _ _ inst, addElements_raisedBy E _ _ inst⟩
  · exact ⟨_, addElements_ap E _ _ inst, addElements_raisedBy E _ _ inst⟩
  · exact ⟨_, addElements_ap E _ _ inst, addElements_raisedBy E _ _ inst⟩
  · exact ⟨_, addElements_ap E _ _ inst, addElements_raisedBy E _ _ inst⟩
  · have h : pRegImm.1 = leaving := by
      simp only [pRegImm, leaving, AddIRBuilder.process, AddIRBuilder.checkSetup,
        AddIRBuilder.templateMethod, AddIRBuilder.regImm, AddIRBuilder.addElements, X,
        Session.externalsRaising, List.isEmpty_cons, Bool.false_eq_true, if_false, hri, hrm,
        hmr, hmi, him, hir, and_true, and_false, true_and, false_and, if_true, and_self]
      split <;> rfl
    exact h
  · rw [show pRegImm.2 = _ from process_state X _ ctxH s rfl]
    simp [AddIRBuilder.templateMethod, IRBuilderOperand.REG, IRBuilderOperand.IMM, IRBuilderOperand.MEM, AddIRBuilder.regImm,
      AddIRBuilder.addElements, X, Session.externalsRaising, Session.externals,
      Session.createRegisterElement, Session.aluSpreadTaintRegImm, AddIRBuilder.operand,
      Session.resolveRegister, c]
  · rw [show pRegImm.2 = _ from process_state X _ ctxH s rfl]
    simp [AddIRBuilder.templateMethod, IRBuilderOperand.REG, IRBuilderOperand.IMM, IRBuilderOperand.MEM, AddIRBuilder.regImm,
      AddIRBuilder.addElements, X, Session.externalsRaising, Session.externals,
      Session.createRegisterElement, Session.aluSpreadTaintRegImm, AddIRBuilder.operand]
  · rw [show pRegImm.2 = _ from process_state X _ ctxH s rfl]
    simp [AddIRBuilder.templateMethod, IRBuilderOperand.REG, IRBuilderOperand.IMM, IRBuilderOperand.MEM, AddIRBuilder.regImm,
      AddIRBuilder.addElements, X, Session.externalsRaising, Session.externals,
      Session.createRegisterElement, Session.aluSpreadTaintRegImm, AddIRBuilder.operand,
      Session.isRegTainted, Session.isMemTainted, c, c2]
  · have h : pRegReg.1 = leaving := by
      simp only [pRegReg, leaving, AddIRBuilder.process, AddIRBuilder.checkSetup,
        AddIRBuilder.templateMethod, AddIRBuilder.regReg, AddIRBuilder.addElements, X,
        Session.externalsRaising, List.isEmpty_cons, Bool.false_eq_true, if_false, hri, hrm,
        hmr, hmi, him, hir, and_true, and_false, true_and, false_and, if_true, and_self]
      split <;> rfl
    exact h
  · rw [show pRegReg.2 = _ from process_state X _ ctxH s rfl]
    simp [AddIRBuilder.templateMethod, IRBuilderOperand.REG, IRBuilderOperand.IMM, IRBuilderOperand.MEM, AddIRBuilder.regReg,
      AddIRBuilder.addElements, X, Session.externalsRaising, Session.externals,
      Session.createRegisterElement, Session.aluSpreadTaintRegReg, AddIRBuilder.operand,
      Session.resolveRegister, c]
  · rw [show pRegReg.2 = _ from process_state X _ ctxH s rfl]
    simp [AddIRBuilder.templateMethod, IRBuilderOperand.REG, IRBuilderOperand.IMM, IRBuilderOperand.MEM, AddIRBuilder.regReg,
      AddIRBuilder.addElements, X, Session.externalsRaising, Session.externals,
      Session.createRegisterElement, Session.aluSpreadTaintRegReg, AddIRBuilder.operand]
  · rw [show pRegReg.2 = _ from process_state X _ ctxH s rfl]
    simp [AddIRBuilder.templateMethod, IRBuilderOperand.REG, IRBuilderOperand.IMM, IRBuilderOperand.MEM, AddIRBuilder.regReg,
      AddIRBuilder.addElements, X, Session.externalsRaising, Session.externals,
      Session.createRegisterElement, Session.aluSpreadTaintRegReg, AddIRBuilder.operand,
      Session.isRegTainted, Session.isMemTainted, c, c2]
  · have h : pRegMem.1 = leaving := by
      simp only [pRegMem, leaving, AddIRBuilder.process, AddIRBuilder.checkSetup,
        AddIRBuilder.templateMethod, AddIRBuilder.regMem, AddIRBuilder.addElements, X,
        Session.externalsRaising, List.isEmpty_cons, Bool.false_eq_true, if_false, hri, hrm,
        hmr, hmi, him, hir, and_true, and_false, true_and, false_and, if_true, and_self]
      split <;> rfl
    exact h
  · rw [show pRegMem.2 = _ from process_state X _ ctxH s rfl]
    simp [AddIRBuilder.templateMethod, IRBuilderOperand.REG, IRBuilderOperand.IMM, IRBuilderOperand.MEM, AddIRBuilder.regMem,
      AddIRBuilder.addElements, X, Session.externalsRaising, Session.externals,
      Session.createRegisterElement, Session.aluSpreadTaintRegMem, AddIRBuilder.operand,
      Session.resolveRegister, c]
  · rw [show pRegMem.2 = _ from process_state X _ ctxH s rfl]
    simp [AddIRBuilder.templateMethod, IRBuilderOperand.REG, IRBuilderOperand.IMM, IRBuilderOperand.MEM, AddIRBuilder.regMem,
      AddIRBuilder.addElements, X, Session.externalsRaising, Session.externals,
      Session.createRegisterElement, Session.aluSpreadTaintRegMem, AddIRBuilder.operand]
  · rw [show pRegMem.2 = _ from process_state X _ ctxH s rfl]
    simp [AddIRBuilder.templateMethod, IRBuilderOperand.REG, IRBuilderOperand.IMM, IRBuilderOperand.MEM, AddIRBuilder.regMem,
      AddIRBuilder.addElements, X, Session.externalsRaising, Session.externals,
      Session.createRegisterElement, Session.aluSpreadTaintRegMem, AddIRBuilder.operand,
      Session.isRegTainted, Session.isMemTainted, c, c2]
  · have h : pMemImm.1 = leaving := by
      simp only [pMemImm, leaving, AddIRBuilder.process, AddIRBuilder.checkSetup,
        AddIRBuilder.templateMethod, AddIRBuilder.memImm, AddIRBuilder.addElements, X,
        Session.externalsRaising, List.isEmpty_cons, Bool.false_eq_true, if_false, hri, hrm,
        hmr, hmi, him, hir, and_true, and_false, true_and, false_and, if_true, and_self]
      split <;> rfl
    exact h
  · rw [show pMemImm.2 = _ from process_state X _ ctxH s rfl]
    simp [AddIRBuilder.templateMethod, IRBuilderOperand.REG, IRBuilderOperand.IMM, IRBuilderOperand.MEM, AddIRBuilder.memImm,
      AddIRBuilder.addElements, X, Session.externalsRaising, Session.externals,
      Session.createMemoryElement, Session.aluSpreadTaintMemImm, AddIRBuilder.operand,
      Session.resolveMemory, c]
  · rw [show pMemImm.2 = _ from process_state X _ ctxH s rfl]
    simp [AddIRBuilder.templateMethod, IRBuilderOperand.REG, IRBuilderOperand.IMM, IRBuilderOperand.MEM, AddIRBuilder.memImm,
      AddIRBuilder.addElements, X, Session.externalsRaising, Session.externals,
      Session.createMemoryElement, Session.aluSpreadTaintMemImm, AddIRBuilder.operand]
  · rw [show pMemImm.2 = _ from process_state X _ ctxH s rfl]
    simp [AddIRBuilder.templateMethod, IRBuilderOperand.REG, IRBuilderOperand.IMM, IRBuilderOperand.MEM, AddIRBuilder.memImm,
      AddIRBuilder.addElements, X, Session.externalsRaising, Session.externals,
      Session.createMemoryElement, Session.aluSpreadTaintMemImm, AddIRBuilder.operand,
      Session.isRegTainted, Session.isMemTainted, c, c2]
  · have h : pMemReg.1 = leaving := by
      simp only [pMemReg, leaving, AddIRBuilder.process, AddIRBuilder.checkSetup,
        AddIRBuilder.templateMethod, AddIRBuilder.memReg, AddIRBuilder.addElements, X,
        Session.externalsRaising, List.isEmpty_cons, Bool.false_eq_true, if_false, hri, hrm,
        hmr, hmi, him, hir, and_true, and_false, true_and, false_and, if_true, and_self]
      split <;> rfl
    exact h
  · rw [show pMemReg.2 = _ from process_state X _ ctxH s rfl]
    simp [AddIRBuilder.templateMethod, IRBuilderOperand.REG, IRBuilderOperand.IMM, IRBuilderOperand.MEM, AddIRBuilder.memReg,
      AddIRBuilder.addElements, X, Session.externalsRaising, Session.externals,
      Session.createMemoryElement, Session.aluSpreadTaintMemReg, AddIRBuilder.operand,
      Session.resolveMemory, c]
  · rw [show pMemReg.2 = _ from process_state X _ ctxH s rfl]
    simp [AddIRBuilder.templateMethod, IRBuilderOperand.REG, IRBuilderOperand.IMM, IRBuilderOperand.MEM, AddIRBuilder.memReg,
      AddIRBuilder.addElements, X, Session.externalsRaising, Session.externals,
      Session.createMemoryElement, Session.aluSpreadTaintMemReg, AddIRBuilder.operand]
  · rw [show pMemReg.2 = _ from process_state X _ ctxH s rfl]
    simp [AddIRBuilder.templateMethod, IRBuilderOperand.REG, IRBuilderOperand.IMM, IRBuilderOperand.MEM, AddIRBuilder.memReg,
      AddIRBuilder.addElements, X, Session.externalsRaising, Session.externals,
      Session.createMemoryElement, Session.aluSpreadTaintMemReg, AddIRBuilder.operand,
      Session.isRegTainted, Session.isMemTainted, c, c2]
    intro a h1 h2 h3
    omega

/-- C19, instances.  Scenario B with a flag builder that raises a `std::runtime_error`:
`process` raises the sliced copy, and yet the register table, which resolved `RAX` to 3,
now resolves it to the id 4 of the primary element; with only `EBX` tainted before, `RAX`
is tainted afterwards.  The same with `ADD EAX, 5` through `regImm`; with `ADD EAX, [4096]`
through `regMem`, where the tainted byte at 4096 taints `RAX`; with `ADD [4096], 1` through
`memImm` on the empty session, where the memory table resolves 4096 to the id 0
afterwards; and with `ADD [4096], EAX` through `memReg`, where the tainted `RAX` taints
the byte at 4096.  With a flag builder that raises an `int`, which the `catch` clause does
not match, the exception leaves `process` as it was raised and the register table keeps
the new id as well. -/
theorem process_not_transactional_scenario :
    addEaxEbx.checkSetup = none
    ∧ (AddIRBuilder.process (Session.externalsRaising zfFailure) addEaxEbx scenarioCtx scenarioB).2
      = (AddIRBuilder.templateMethod (Session.externalsRaising zfFailure) addEaxEbx scenarioCtx
          scenarioB addEaxEbx.newInst addEaxEbx.operands "ADD").ap
    ∧ (AddIRBuilder.templateMethod (Session.externalsRaising zfFailure) addEaxEbx scenarioCtx
          scenarioB addEaxEbx.newInst addEaxEbx.operands "ADD").raised = some zfFailure
    ∧ zfFailure.isStdException = true
    ∧ (AddIRBuilder.process (Session.externalsRaising zfFailure) addEaxEbx scenarioCtx scenarioB).1
      = Except.error ⟨"std::exception", "std::exception"⟩
    ∧ scenarioB.resolveRegister RAX = 3
    ∧ (AddIRBuilder.process (Session.externalsRaising zfFailure) addEaxEbx scenarioCtx scenarioB).2.resolveRegister RAX = 4
    ∧ (taintedSession false true).isRegTainted RAX = false
    ∧ (AddIRBuilder.process (Session.externalsRaising zfFailure) addEaxEbx scenarioCtx
        (taintedSession false true)).2.isRegTainted RAX = true
    ∧ (AddIRBuilder.process (Session.externalsRaising zfFailure) addEaxImm scenarioCtx scenarioB).1
      = Except.error ⟨"std::exception", "std::exception"⟩
    ∧ (AddIRBuilder.process (Session.externalsRaising zfFailure) addEaxImm scenarioCtx scenarioB).2.resolveRegister RAX = 4
    ∧ (AddIRBuilder.process (Session.externalsRaising zfFailure) addEaxImm scenarioCtx scenarioB).2.nextID = 5
    ∧ taintedMemSession.isRegTainted RAX = false
    ∧ (AddIRBuilder.process (Session.externalsRaising zfFailure) addEaxMem scenarioCtx taintedMemSession).1
      = Except.error ⟨"std::exception", "std::exception"⟩
    ∧ (AddIRBuilder.process (Session.externalsRaising zfFailure) addEaxMem scenarioCtx taintedMemSession).2.resolveRegister RAX = 0
    ∧ (AddIRBuilder.process (Session.externalsRaising zfFailure) addEaxMem scenarioCtx taintedMemSession).2.isRegTainted RAX = true
    ∧ Session.empty.resolveMemory 4096 = UNSET
    ∧ (AddIRBuilder.process (Session.externalsRaising zfFailure) addMemImm scenarioCtx Session.empty).1
      = Except.error ⟨"std::exception", "std::exception"⟩
    ∧ (AddIRBuilder.process (Session.externalsRaising zfFailure) addMemImm scenarioCtx Session.empty).2.resolveMemory 4096 = 0
    ∧ (taintedSession true false).taintedMem 4096 = false
    ∧ (AddIRBuilder.process (Session.externalsRaising zfFailure) addMemEax scenarioCtx
        (taintedSession true false)).1 = Except.error ⟨"std::exception", "std::exception"⟩
    ∧ (AddIRBuilder.process (Session.externalsRaising zfFailure) addMemEax scenarioCtx
        (taintedSession true false)).2.resolveMemory 4096 = 0
    ∧ (AddIRBuilder.process (Session.externalsRaising zfFailure) addMemEax scenarioCtx
        (taintedSession true false)).2.taintedMem 4096 = true
    ∧ Exception.isStdException ⟨"int", "42"⟩ = false
    ∧ (AddIRBuilder.process (Session.externalsRaising ⟨"int", "42"⟩) addEaxImm scenarioCtx scenarioB).1 = Except.error ⟨"int", "42"⟩
    ∧ (AddIRBuilder.process (Session.externalsRaising ⟨"int", "42"⟩) addEaxImm scenarioCtx scenarioB).2.resolveRegister RAX = 4 :=
  ⟨by decide,
    (process_not_transactional (Session.externalsRaising zfFailure) addEaxEbx scenarioCtx
      scenarioB addEaxEbx.newInst zfFailure 4194304 "add eax, ebx" EAX 32 EBX 32 4096 32 5 32
      scenarioB).1 (by decide),
    by decide,
    by decide,
    (process_not_transactional (Session.externalsRaising zfFailure) addEaxEbx scenarioCtx
      scenarioB addEaxEbx.newInst zfFailure 4194304 "add eax, ebx" EAX 32 EBX 32 4096 32 5 32
      scenarioB).2.1 zfFailure (by decide) (by decide),
    by decide,
    (process_not_transactional (Session.externalsRaising zfFailure) addEaxEbx scenarioCtx
      scenarioB addEaxEbx.newInst zfFailure 4194304 "add eax, ebx" EAX 32 EBX 32 4096 32 5 32
      scenarioB).2.2.2.2.2.2.2.2.1.2.1,
    by decide,
    ((process_not_transactional (Session.externalsRaising zfFailure) addEaxEbx scenarioCtx
      (taintedSession false true) addEaxEbx.newInst zfFailure 4194304 "add eax, ebx" EAX 32 EBX 32 4096 32 5 32
      (taintedSession false true)).2.2.2.2.2.2.2.2.1.2.2.2).trans (by decide),
    (process_not_transactional (Session.externalsRaising zfFailure) addEaxImm scenarioCtx
      scenarioB addEaxImm.newInst zfFailure 4194304 "add eax, 5" EAX 32 EBX 32 4096 32 5 32
      scenarioB).2.2.2.2.2.2.2.1.1,
    (process_not_transactional (Session.externalsRaising zfFailure) addEaxImm scenarioCtx
      scenarioB addEaxImm.newInst zfFailure 4194304 "add eax, 5" EAX 32 EBX 32 4096 32 5 32
      scenarioB).2.2.2.2.2.2.2.1.2.1,
    (process_not_transactional (Session.externalsRaising zfFailure) addEaxImm scenarioCtx
      scenarioB addEaxImm.newInst zfFailure 4194304 "add eax, 5" EAX 32 EBX 32 4096 32 5 32
      scenarioB).2.2.2.2.2.2.2.1.2.2.1,
    by decide,
    (process_not_transactional (Session.externalsRaising zfFailure) addEaxMem scenarioCtx
      taintedMemSession addEaxMem.newInst zfFailure 4194304 "add eax, dword ptr [0x1000]" EAX 32 EBX 32 4096 32 5 32
      taintedMemSession).2.2.2.2.2.2.2.2.2.1.1,
    (process_not_transactional (Session.externalsRaising zfFailure) addEaxMem scenarioCtx
      taintedMemSession addEaxMem.newInst zfFailure 4194304 "add eax, dword ptr [0x1000]" EAX 32 EBX 32 4096 32 5 32
      taintedMemSession).2.2.2.2.2.2.2.2.2.1.2.1,
    ((process_not_transactional (Session.externalsRaising zfFailure) addEaxMem scenarioCtx
      taintedMemSession addEaxMem.newInst zfFailure 4194304 "add eax, dword ptr [0x1000]" EAX 32 EBX 32 4096 32 5 32
      taintedMemSession).2.2.2.2.2.2.2.2.2.1.2.2.2).trans (by decide),
    by decide,
    (process_not_transactional (Session.externalsRaising zfFailure) addMemImm scenarioCtx
      Session.empty addMemImm.newInst zfFailure 4194304 "add dword ptr [0x1000], 1" EAX 32 EBX 32 4096 32 1 32
      Session.empty).2.2.2.2.2.2.2.2.2.2.1.1,
    (process_not_transactional (Session.externalsRaising zfFailure) addMemImm scenarioCtx
      Session.empty addMemImm.newInst zfFailure 4194304 "add dword ptr [0x1000], 1" EAX 32 EBX 32 4096 32 1 32
      Session.empty).2.2.2.2.2.2.2.2.2.2.1.2.1,
    by decide,
    (process_not_transactional (Session.externalsRaising zfFailure) addMemEax scenarioCtx
      (taintedSession true false) addMemEax.newInst zfFailure 4194304 "add dword ptr [0x1000], eax" EAX 32 EBX 32 4096 32 5 32
      (taintedSession true false)).2.2.2.2.2.2.2.2.2.2.2.1,
    (process_not_transactional (Session.externalsRaising zfFailure) addMemEax scenarioCtx
      (taintedSession true false) addMemEax.newInst zfFailure 4194304 "add dword ptr [0x1000], eax" EAX 32 EBX 32 4096 32 5 32
      (taintedSession true false)).2.2.2.2.2.2.2.2.2.2.2.2.1,
    ((process_not_transactional (Session.externalsRaising zfFailure) addMemEax scenarioCtx
      (taintedSession true false) addMemEax.newInst zfFailure 4194304 "add dword ptr [0x1000], eax" EAX 32 EBX 32 4096 32 5 32
      (taintedSession true false)).2.2.2.2.2.2.2.2.2.2.2.2.2.2 4096 (by decide) (by decide)).trans (by decide),
    by decide,
    (process_not_transactional (Session.externalsRaising ⟨"int", "42"⟩) addEaxImm scenarioCtx
      scenarioB addEaxImm.newInst ⟨"int", "42"⟩ 4194304 "add eax, 5" EAX 32 EBX 32 4096 32 5 32
      scenarioB).2.2.2.2.2.2.2.1.1,
    (process_not_transactional (Session.externalsRaising ⟨"int", "42"⟩) addEaxImm scenarioCtx
      scenarioB addEaxImm.newInst ⟨"int", "42"⟩ 4194304 "add eax, 5" EAX 32 EBX 32 4096 32 5 32
      scenarioB).2.2.2.2.2.2.2.1.2.1⟩

/-- C20: take two context handlers with the same `translateRegID` and the same register
sizes, which give the same concrete value to every operand that has no symbolic id and
any values to the operands that have one.  Then each of the five handlers creates the same
expression for the same destination under both. -/
theorem symbolic_shadows_concrete {σ : Type} (E : Externals σ) (ctx1 ctx2 : ContextHandler)
    (address : Nat) (disas : String) (t0 t1 reg reg2 sr sr2 mem size imm si : Nat)
    (rest : List Operand) (ap : σ) (inst : Inst)
    (hT : ctx1.translateRegID = ctx2.translateRegID)
    (hS : ctx1.getRegisterSize = ctx2.getRegisterSize) :
    let lookReg := E.getRegSymbolicID (ctx1.translateRegID reg) ap
    let lookReg2 := E.getRegSymbolicID (ctx1.translateRegID reg2) lookReg.2
    let lookMem := E.getMemorySymbolicID mem lookReg.2
    let lookMem0 := E.getMemorySymbolicID mem ap
    let bRegImm : AddIRBuilder := ⟨address, disas, (t0, reg, sr) :: (t1, imm, si) :: rest⟩
    let bRegReg : AddIRBuilder := ⟨address, disas, (t0, reg, sr) :: (t1, reg2, sr2) :: rest⟩
    let bRegMem : AddIRBuilder := ⟨address, disas, (t0, reg, sr) :: (t1, mem, size) :: rest⟩
    let bMemImm : AddIRBuilder := ⟨address, disas, (t0, mem, size) :: (t1, imm, si) :: rest⟩
    let bMemReg : AddIRBuilder := ⟨address, disas, (t0, mem, size) :: (t1, reg, sr) :: rest⟩
    (lookReg.1 = E.UNSET → ctx1.getRegisterValue reg = ctx2.getRegisterValue reg) →
    (lookReg2.1 = E.UNSET → ctx1.getRegisterValue reg2 = ctx2.getRegisterValue reg2) →
    (lookMem.1 = E.UNSET → ctx1.getMemoryValue mem size = ctx2.getMemoryValue mem size) →
    (lookMem0.1 = E.UNSET → ctx1.getMemoryValue mem size = ctx2.getMemoryValue mem size) →
    (calls (AddIRBuilder.regImm E.recording bRegImm ctx1 (ap, []) inst)).filterMap Call.created
      = (calls (AddIRBuilder.regImm E.recording bRegImm ctx2 (ap, []) inst)).filterMap
          Call.created
    ∧ (calls (AddIRBuilder.regReg E.recording bRegReg ctx1 (ap, []) inst)).filterMap
          Call.created
      = (calls (AddIRBuilder.regReg E.recording bRegReg ctx2 (ap, []) inst)).filterMap
          Call.created
    ∧ (calls (AddIRBuilder.regMem E.recording bRegMem ctx1 (ap, []) inst)).filterMap
          Call.created
      = (calls (AddIRBuilder.regMem E.recording bRegMem ctx2 (ap, []) inst)).filterMap
          Call.created
    ∧ (calls (AddIRBuilder.memImm E.recording bMemImm ctx1 (ap, []) inst)).filterMap
          Call.created
      = (calls (AddIRBuilder.memImm E.recording bMemImm ctx2 (ap, []) inst)).filterMap
          Call.created
    ∧ (calls (AddIRBuilder.memReg E.recording bMemReg ctx1 (ap, []) inst)).filterMap
          Call.created
      = (calls (AddIRBuilder.memReg E.recording bMemReg ctx2 (ap, []) inst)).filterMap
          Call.created := by
  intro lookReg lookReg2 lookMem lookMem0 bRegImm bRegReg bRegMem bMemImm bMemReg
    hReg hReg2 hMem hMem0
  refine ⟨?_, ?_, ?_, ?_, ?_⟩
  · rw [regImm_calls, regImm_calls]
    simp only [bRegImm, AddIRBuilder.operand, List.getD_cons_zero, List.getD_cons_succ,
      List.filterMap_cons, List.filterMap_nil, Call.created, immediate_text, ← hT, ← hS]
    by_cases h : lookReg.1 = E.UNSET
    · have h1 := hReg h
      simp only [lookReg] at h
      simp [h, h1]
    · simp only [lookReg] at h
      simp [h]
  · rw [regReg_calls, regReg_calls]
    simp only [bRegReg, AddIRBuilder.operand, List.getD_cons_zero, List.getD_cons_succ,
      List.filterMap_cons, List.filterMap_nil, Call.created, operand_text, ← hT, ← hS]
    by_cases h : lookReg.1 = E.UNSET <;> by_cases h2 : lookReg2.1 = E.UNSET
    all_goals
      first
      | (have v := hReg h; have v2 := hReg2 h2
         simp only [lookReg, lookReg2] at h h2; simp [h, h2, v, v2])
      | (have v := hReg h; simp only [lookReg, lookReg2] at h h2; simp [h, h2, v])
      | (have v2 := hReg2 h2; simp only [lookReg, lookReg2] at h h2; simp [h, h2, v2])
      | (simp only [lookReg, lookReg2] at h h2; simp [h, h2])
  · rw [regMem_calls, regMem_calls]
    simp only [bRegMem, AddIRBuilder.operand, List.getD_cons_zero, List.getD_cons_succ,
      List.filterMap_cons, List.filterMap_nil, Call.created, operand_text, ← hT, ← hS]
    by_cases h : lookReg.1 = E.UNSET <;> by_cases h2 : lookMem.1 = E.UNSET
    all_goals
      first
      | (have v := hReg h; have v2 := hMem h2
         simp only [lookReg, lookMem] at h h2; simp [h, h2, v, v2])
      | (have v := hReg h; simp only [lookReg, lookMem] at h h2; simp [h, h2, v])
      | (have v2 := hMem h2; simp only [lookReg, lookMem] at h h2; simp [h, h2, v2])
      | (simp only [lookReg, lookMem] at h h2; simp [h, h2])
  · rw [memImm_calls, memImm_calls]
    simp only [bMemImm, AddIRBuilder.operand, List.getD_cons_zero, List.getD_cons_succ,
      List.filterMap_cons, List.filterMap_nil, Call.created, immediate_text]
    by_cases h : lookMem0.1 = E.UNSET
    · have h1 := hMem0 h
      simp only [lookMem0] at h
      simp [h, h1]
    · simp only [lookMem0] at h
      simp [h]
  · rw [memReg_calls, memReg_calls]
    simp only [bMemReg, AddIRBuilder.operand, List.getD_cons_zero, List.getD_cons_succ,
      List.filterMap_cons, List.filterMap_nil, Call.created, operand_text, ← hT, ← hS]
    by_cases h : lookReg.1 = E.UNSET <;> by_cases h2 : lookMem.1 = E.UNSET
    all_goals
      first
      | (have v := hReg h; have v2 := hMem h2
         simp only [lookReg, lookMem] at h h2; simp [h, h2, v, v2])
      | (have v := hReg h; simp only [lookReg, lookMem] at h h2; simp [h, h2, v])
      | (have v2 := hMem h2; simp only [lookReg, lookMem] at h h2; simp [h, h2, v2])
      | (simp only [lookReg, lookMem] at h h2; simp [h, h2])

/-- C20, instance: `EAX`, `EBX` and the memory at 4096 all have a symbolic id; two contexts
that give them different concrete values lead to the same expressions, `(bvadd #3 #5)`
for `ADD EAX, EBX`. -/
theorem symbolic_shadows_concrete_instance :
    scenarioCtx.getRegisterValue EAX ≠ otherValuesCtx.getRegisterValue EAX
    ∧ scenarioCtx.getMemoryValue 4096 32 ≠ otherValuesCtx.getMemoryValue 4096 32
    ∧ (calls (AddIRBuilder.regReg (Session.externals ZF).recording addEaxEbx scenarioCtx
        (shadowSession, []) addEaxEbx.newInst)).filterMap Call.created
      = (calls (AddIRBuilder.regReg (Session.externals ZF).recording addEaxEbx otherValuesCtx
        (shadowSession, []) addEaxEbx.newInst)).filterMap Call.created
    ∧ (calls (AddIRBuilder.regReg (Session.externals ZF).recording addEaxEbx otherValuesCtx
        (shadowSession, []) addEaxEbx.newInst)).filterMap Call.created
      = [("(bvadd #3 #5)", Destination.reg RAX)] :=
  ⟨by decide, by decide,
    (symbolic_shadows_concrete (Session.externals ZF) scenarioCtx otherValuesCtx 4194304
      "add eax, ebx" 1 1 EAX EBX 32 32 4096 32 5 32 [] shadowSession addEaxEbx.newInst rfl rfl
      (by decide) (by decide) (by decide) (by decide)).2.1,
    by decide⟩

/-! ## The Python binding: lemmas on the two loops -/

/-- A loop over the indices below `k` that fills slot `i` with `g i`, when there is one,
starting from `n` empty slots: the first `k` slots hold `g`, the others are still empty. -/
theorem foldl_range_set {β : Type} (g : Nat → Option β) (n : Nat) :
    ∀ k, k ≤ n →
      (List.range k).foldl (fillSlot g) (List.replicate n Option.none)
        = (List.range k).map g ++ List.replicate (n - k) Option.none := by
  intro k
  induction k with
  | zero => intro _; simp
  | succ k ih =>
    intro hk
    have hk1 : k ≤ n := Nat.le_of_succ_le hk
    rw [List.range_succ, List.foldl_append, ih hk1]
    have hrep : List.replicate (n - k) (Option.none : Option β)
        = Option.none :: List.replicate (n - (k + 1)) Option.none := by
      have : n - k = (n - (k + 1)) + 1 := by omega
      rw [this, List.replicate_succ]
    simp only [List.foldl_cons, List.foldl_nil, List.map_append, List.map_cons, List.map_nil]
    rw [hrep]
    unfold fillSlot
    cases hg : g k with
    | none => simp
    | some b =>
      simp only
      rw [List.set_append_right]
      · simp
      · simp

/-- Reading a list at every index below its length gives the list back. -/
theorem map_range_getD {α β : Type} (l : List α) (d : α) (f : α → β) :
    (List.range l.length).map (fun i => f (l.getD i d)) = l.map f := by
  apply List.ext_getElem?
  intro i
  by_cases h : i < l.length
  · simp [List.getElem?_range h, List.getElem?_eq_getElem h, List.getD_eq_getElem l d h]
  · have h1 : l.length ≤ i := Nat.le_of_not_lt h
    simp [List.getElem?_eq_none, h1]

/-- A turn of the loop of `Instruction_getOperands` fills the slot with the wrapper of the
operand, if it has one. -/
theorem getOperandsStep_slot (inst : Instruction) :
    getOperandsStep inst = fillSlot fun i => (inst.operandAt i).slot := by
  funext acc i
  have hmi : OP_MEM ≠ OP_IMM := by decide
  have hri : OP_REG ≠ OP_IMM := by decide
  have hrm : OP_REG ≠ OP_MEM := by decide
  unfold getOperandsStep fillSlot OperandWrapper.slot PyList_SetItem PyImmediateOperand
    PyMemoryOperand PyRegisterOperand OperandWrapper.getImmediate OperandWrapper.getMemory
    OperandWrapper.getRegister
  by_cases h1 : (inst.operandAt i).getType = OP_IMM
  · simp [h1]
  · by_cases h2 : (inst.operandAt i).getType = OP_MEM
    · simp [h2, hmi]
    · by_cases h3 : (inst.operandAt i).getType = OP_REG
      · simp [h3, hri, hrm]
      · simp [h1, h2, h3]

/-- For an instruction whose operand count fits `triton::uint32`, the list returned by
`Instruction_getOperands` has one slot for each operand, in order: the wrapper of the
operand, or an empty slot for an operand that is no immediate, memory or register. -/
theorem getOperands_slots (inst : Instruction) (h32 : inst.operands.length < 4294967296) :
    (Instruction_getOperands inst).1 = PyReturn.list (inst.operands.map OperandWrapper.slot) := by
  unfold Instruction_getOperands xPyList_New
  simp only [Nat.mod_eq_of_lt h32, getOperandsStep_slot]
  rw [foldl_range_set (fun i => (inst.operandAt i).slot) inst.operands.length
    inst.operands.length (Nat.le_refl _)]
  simp only [Nat.sub_self, List.replicate_zero, List.append_nil]
  unfold Instruction.operandAt
  rw [map_range_getD]

/-- Reading a list at every index below its length, as options, gives the list back. -/
theorem map_range_getElem? {α β : Type} (l : List α) (f : α → β) :
    (List.range l.length).map (fun i => (l[i]?).map f) = l.map fun a => some (f a) := by
  apply List.ext_getElem?
  intro i
  by_cases h : i < l.length
  · simp [List.getElem?_range h, List.getElem?_eq_getElem h]
  · have h1 : l.length ≤ i := Nat.le_of_not_lt h
    simp [List.getElem?_eq_none, h1]

/-- A turn of the loop of `Instruction_getSymbolicExpressions` fills the slot with the
wrapper of the expression at that index. -/
theorem getSymbolicExpressionsStep_slot (inst : Instruction) :
    getSymbolicExpressionsStep inst
      = fillSlot fun i => (inst.symbolicExpressions[i]?).map PySymbolicExpression := by
  funext acc i
  unfold getSymbolicExpressionsStep fillSlot PyList_SetItem
  dsimp only
  cases h : inst.symbolicExpressions[i]? <;> simp

/-- For an instruction whose number of symbolic expressions fits `triton::uint32`, the list
returned by `Instruction_getSymbolicExpressions` holds the wrapper of each expression, in
order. -/
theorem getSymbolicExpressions_slots (inst : Instruction)
    (h32 : inst.symbolicExpressions.length < 4294967296) :
    (Instruction_getSymbolicExpressions inst).1
      = PyReturn.list (inst.symbolicExpressions.map fun e => some (PySymbolicExpression e)) := by
  unfold Instruction_getSymbolicExpressions xPyList_New
  simp only [Nat.mod_eq_of_lt h32, getSymbolicExpressionsStep_slot]
  rw [foldl_range_set _ inst.symbolicExpressions.length
    inst.symbolicExpressions.length (Nat.le_refl _)]
  simp only [Nat.sub_self, List.replicate_zero, List.append_nil]
  rw [map_range_getElem?]

/-! ## The Python binding: theorems -/

/-- C14, as stated, fails: a byte string of exactly 32 bytes is rejected with a
`TypeError`, the instruction being left as it was. -/
theorem setOpcodes_32_counterexample :
    (List.replicate 32 (144 : Fin 256)).length = 32
    ∧ Instruction_setOpcodes (instWith []) (PyObject.bytes (List.replicate 32 144))
      = (PyReturn.error "TypeError" "Instruction::setOpcodes(): Invalid size (too big).",
          instWith []) := by
  decide

/-- C14, amended: `setOpcodes` accepts a byte string exactly when it is shorter than 32
bytes: the opcodes become those bytes, the size their number, and `None` is returned; a
byte string of 32 bytes or more is rejected with a `TypeError` and the instruction is
left as it was. -/
theorem setOpcodes_bound (inst : Instruction) (data : List (Fin 256)) :
    (data.length < 32 →
      Instruction_setOpcodes inst (PyObject.bytes data)
        = (PyReturn.object PyObject.none,
            { inst with opcodes := data, opcodesSize := data.length }))
    ∧ (32 ≤ data.length →
      Instruction_setOpcodes inst (PyObject.bytes data)
        = (PyReturn.error "TypeError" "Instruction::setOpcodes(): Invalid size (too big).",
            inst)) := by
  constructor
  · intro h
    have h1 : ¬ 32 ≤ data.length := Nat.not_le_of_lt h
    simp [Instruction_setOpcodes, PyBytes_Check, PyBytes_Size, PyBytes_AsString,
      Instruction.setOpcodes, h1]
  · intro h
    simp [Instruction_setOpcodes, PyBytes_Check, PyBytes_Size, h]

/-- C14, instances: 31 bytes are accepted and stored, 32 bytes are rejected. -/
theorem setOpcodes_bound_instances :
    ((List.replicate 31 (144 : Fin 256)).length < 32
      ∧ Instruction_setOpcodes (instWith []) (PyObject.bytes (List.replicate 31 144))
        = (PyReturn.object PyObject.none,
            { instWith [] with opcodes := List.replicate 31 144, opcodesSize := 31 }))
    ∧ (32 ≤ (List.replicate 32 (144 : Fin 256)).length
      ∧ Instruction_setOpcodes (instWith []) (PyObject.bytes (List.replicate 32 144))
        = (PyReturn.error "TypeError" "Instruction::setOpcodes(): Invalid size (too big).",
            instWith [])) :=
  ⟨⟨by decide, (setOpcodes_bound (instWith []) (List.replicate 31 144)).1 (by decide)⟩,
    ⟨by decide, (setOpcodes_bound (instWith []) (List.replicate 32 144)).2 (by decide)⟩⟩

/-- C15: `updateContext` fails, with a `TypeError`, exactly when the argument is neither a
memory nor a register wrapper or is the wrapper of a register that is a flag; whenever it
fails the instruction is left as it was; for a memory wrapper, and for the wrapper of a
register that is no flag, the underlying `updateContext` is applied once, to the operand
given, and `None` is returned. -/
theorem updateContext_fails_iff (inst : Instruction) (ctx : PyObject) :
    ((∃ message, (Instruction_updateContext inst ctx).1 = PyReturn.error "TypeError" message)
      ↔ (PyMemoryOperand_Check ctx = false ∧ PyRegisterOperand_Check ctx = false)
        ∨ ∃ reg, ctx = PyObject.registerOperand reg ∧ reg.isFlag = true)
    ∧ ((∃ message, (Instruction_updateContext inst ctx).1 = PyReturn.error "TypeError" message)
      → (Instruction_updateContext inst ctx).2 = inst)
    ∧ (∀ reg, ctx = PyObject.registerOperand reg → reg.isFlag = true →
        (Instruction_updateContext inst ctx).1 = PyReturn.error "TypeError"
          "Instruction::updateContext(): You cannot update the context on an isolated flag.")
    ∧ (∀ mem, ctx = PyObject.memoryOperand mem →
        Instruction_updateContext inst ctx
          = (PyReturn.object PyObject.none, inst.updateContextMem mem))
    ∧ (∀ reg, ctx = PyObject.registerOperand reg → reg.isFlag = false →
        Instruction_updateContext inst ctx
          = (PyReturn.object PyObject.none, inst.updateContextReg reg)) := by
  cases ctx with
  | registerOperand reg =>
    cases hf : reg.isFlag <;>
      simp [Instruction_updateContext, PyMemoryOperand_Check, PyRegisterOperand_Check,
        PyRegisterOperand_AsRegisterOperand, hf]
  | memoryOperand mem =>
    simp [Instruction_updateContext, PyMemoryOperand_Check, PyRegisterOperand_Check,
      PyMemoryOperand_AsMemoryOperand]
  | _ =>
    simp [Instruction_updateContext, PyMemoryOperand_Check, PyRegisterOperand_Check]

/-- C15, instances: a flag register and an integer are refused and nothing changes; a
memory operand and a plain register are added to the context, once. -/
theorem updateContext_instances :
    (flagReg.isFlag = true
      ∧ (Instruction_updateContext (instWith []) (PyObject.registerOperand flagReg)).1
        = PyReturn.error "TypeError"
          "Instruction::updateContext(): You cannot update the context on an isolated flag."
      ∧ (Instruction_updateContext (instWith []) (PyObject.registerOperand flagReg)).2
        = instWith [])
    ∧ (Instruction_updateContext (instWith []) (PyObject.long 5)).2 = instWith []
    ∧ (Instruction_updateContext (instWith []) (PyObject.memoryOperand ⟨4096, 4, 66⟩)
        = (PyReturn.object PyObject.none, ⟨[], [], [], 0, [⟨4096, 4, 66⟩], []⟩))
    ∧ (plainReg.isFlag = false
      ∧ Instruction_updateContext (instWith []) (PyObject.registerOperand plainReg)
        = (PyReturn.object PyObject.none, ⟨[], [], [], 0, [], [plainReg]⟩)) :=
  ⟨⟨rfl,
      (updateContext_fails_iff (instWith []) (PyObject.registerOperand flagReg)).2.2.1 flagReg
        rfl rfl,
      (updateContext_fails_iff (instWith []) (PyObject.registerOperand flagReg)).2.1
        ⟨_, (updateContext_fails_iff (instWith [])
          (PyObject.registerOperand flagReg)).2.2.1 flagReg rfl rfl⟩⟩,
    (updateContext_fails_iff (instWith []) (PyObject.long 5)).2.1
      ((updateContext_fails_iff (instWith []) (PyObject.long 5)).1.2 (Or.inl ⟨rfl, rfl⟩)),
    (updateContext_fails_iff (instWith []) (PyObject.memoryOperand ⟨4096, 4, 66⟩)).2.2.2.1
      ⟨4096, 4, 66⟩ rfl,
    ⟨rfl, (updateContext_fails_iff (instWith [])
      (PyObject.registerOperand plainReg)).2.2.2.2 plainReg rfl rfl⟩⟩

/-- The object returned for the operand at `i` is the wrapper of that operand. -/
theorem operandObject_slot (inst : Instruction) (i : Nat) (op : OperandWrapper)
    (w : PyObject) (hop : inst.operands[i]? = some op) (hw : op.slot = some w) :
    operandObject inst i = PyReturn.object w := by
  have hat : inst.operandAt i = op := by
    unfold Instruction.operandAt
    rw [List.getD_eq_getElem?_getD, hop]
    rfl
  have hmi : OP_MEM ≠ OP_IMM := by decide
  have hri : OP_REG ≠ OP_IMM := by decide
  have hrm : OP_REG ≠ OP_MEM := by decide
  unfold operandObject
  rw [hat]
  unfold OperandWrapper.slot at hw
  unfold PyImmediateOperand PyMemoryOperand PyRegisterOperand OperandWrapper.getImmediate
    OperandWrapper.getMemory OperandWrapper.getRegister
  by_cases h1 : op.getType = OP_IMM
  · simp [h1] at hw ⊢
    exact hw
  · by_cases h2 : op.getType = OP_MEM
    · simp [h2, hmi] at hw ⊢
      exact hw
    · by_cases h3 : op.getType = OP_REG
      · simp [h3, hri, hrm] at hw ⊢
        exact hw
      · simp [h1, h2, h3] at hw

/-- The object returned for an operand is never an error. -/
theorem operandObject_no_error (inst : Instruction) (i : Nat) (excType message : String) :
    operandObject inst i ≠ PyReturn.error excType message := by
  unfold operandObject
  split
  · simp
  · split
    · simp
    · split <;> simp

/-- C16: for an instruction whose operand count fits `triton::uint32`, the accessors of the
first, second and third operand fail with a `TypeError` exactly when the instruction has
fewer than one, two, three operands; otherwise, for an immediate, memory or register
operand, they return the wrapper of that very operand, of its kind; and they leave the
instruction as it was. -/
theorem operand_accessors (inst : Instruction) (h32 : inst.operands.length < 4294967296) :
    OperandAccessor 1 Instruction_getFirstOperand inst
    ∧ OperandAccessor 2 Instruction_getSecondOperand inst
    ∧ OperandAccessor 3 Instruction_getThirdOperand inst := by
  have hmod : inst.operands.length % 4294967296 = inst.operands.length :=
    Nat.mod_eq_of_lt h32
  refine ⟨⟨?_, ?_, ?_⟩, ⟨?_, ?_, ?_⟩, ⟨?_, ?_, ?_⟩⟩
  · unfold Instruction_getFirstOperand
    simp only [hmod]
    by_cases h : inst.operands.length < 1
    · simp [h]
    · simp [h, operandObject_no_error]
  · intro op w hop hw
    have hlt : 0 < inst.operands.length := (List.getElem?_eq_some_iff.mp hop).1
    have h : ¬ inst.operands.length < 1 := by omega
    unfold Instruction_getFirstOperand
    simp only [hmod, h, if_false]
    exact operandObject_slot inst 0 op w hop hw
  · unfold Instruction_getFirstOperand
    dsimp only
    split <;> rfl
  · unfold Instruction_getSecondOperand
    simp only [hmod]
    by_cases h : inst.operands.length < 2
    · simp [h]
    · simp [h, operandObject_no_error]
  · intro op w hop hw
    have hlt : 1 < inst.operands.length := (List.getElem?_eq_some_iff.mp hop).1
    have h : ¬ inst.operands.length < 2 := by omega
    unfold Instruction_getSecondOperand
    simp only [hmod, h, if_false]
    exact operandObject_slot inst 1 op w hop hw
  · unfold Instruction_getSecondOperand
    dsimp only
    split <;> rfl
  · unfold Instruction_getThirdOperand
    simp only [hmod]
    by_cases h : inst.operands.length < 3
    · simp [h]
    · simp [h, operandObject_no_error]
  · intro op w hop hw
    have hlt : 2 < inst.operands.length := (List.getElem?_eq_some_iff.mp hop).1
    have h : ¬ inst.operands.length < 3 := by omega
    unfold Instruction_getThirdOperand
    simp only [hmod, h, if_false]
    exact operandObject_slot inst 2 op w hop hw
  · unfold Instruction_getThirdOperand
    dsimp only
    split <;> rfl

/-- C16, instances: with an immediate and a memory operand, the first accessor returns the
immediate wrapper, the second the memory wrapper, and the third fails with a `TypeError`. -/
theorem operand_accessors_instances :
    (instWith [immOp 5, memOp 4096]).operands.length < 4294967296
    ∧ (Instruction_getFirstOperand (instWith [immOp 5, memOp 4096])).1
      = PyReturn.object (PyObject.immediateOperand ⟨5, 32⟩)
    ∧ (Instruction_getSecondOperand (instWith [immOp 5, memOp 4096])).1
      = PyReturn.object (PyObject.memoryOperand ⟨4096, 4, 0⟩)
    ∧ (∃ message, (Instruction_getThirdOperand (instWith [immOp 5, memOp 4096])).1
      = PyReturn.error "TypeError" message)
    ∧ (Instruction_getThirdOperand (instWith [immOp 5, memOp 4096])).2
      = instWith [immOp 5, memOp 4096] :=
  ⟨by decide,
    (operand_accessors (instWith [immOp 5, memOp 4096]) (by decide)).1.2.1 (immOp 5) _ rfl rfl,
    (operand_accessors (instWith [immOp 5, memOp 4096]) (by decide)).2.1.2.1 (memOp 4096) _
      rfl rfl,
    (operand_accessors (instWith [immOp 5, memOp 4096]) (by decide)).2.2.1.2 (by decide),
    (operand_accessors (instWith [immOp 5, memOp 4096]) (by decide)).2.2.2.2⟩

/-- C17: for an instruction whose operands, fewer than `2 ^ 32`, are each an immediate, a
memory or a register, `getOperands` returns a list with one slot for each operand, none of
them empty, whose slot `i` holds the wrapper of operand `i`, of the kind of its type; the
instruction is left as it was. -/
theorem getOperands_wraps_all (inst : Instruction) (h32 : inst.operands.length < 4294967296)
    (hk : ∀ op ∈ inst.operands,
      op.getType = OP_IMM ∨ op.getType = OP_MEM ∨ op.getType = OP_REG) :
    ∃ items, (Instruction_getOperands inst).1 = PyReturn.list items
      ∧ items.length = inst.operands.length
      ∧ (∀ (i : Nat) (op : OperandWrapper), inst.operands[i]? = some op →
          (op.getType = OP_IMM → items[i]? = some (some (PyObject.immediateOperand op.imm)))
          ∧ (op.getType = OP_MEM → items[i]? = some (some (PyObject.memoryOperand op.mem)))
          ∧ (op.getType = OP_REG → items[i]? = some (some (PyObject.registerOperand op.reg))))
      ∧ (∀ slot ∈ items, slot ≠ Option.none)
      ∧ (Instruction_getOperands inst).2 = inst := by
  have hmi : OP_MEM ≠ OP_IMM := by decide
  have hri : OP_REG ≠ OP_IMM := by decide
  have hrm : OP_REG ≠ OP_MEM := by decide
  refine ⟨inst.operands.map OperandWrapper.slot, getOperands_slots inst h32, by simp, ?_, ?_,
    rfl⟩
  · intro i op hop
    simp only [List.getElem?_map, hop, Option.map_some', OperandWrapper.slot]
    refine ⟨?_, ?_, ?_⟩
    · intro h; simp [h]
    · intro h; simp [h, hmi]
    · intro h; simp [h, hri, hrm]
  · intro slot hs
    rcases List.mem_map.mp hs with ⟨op, hop, rfl⟩
    unfold OperandWrapper.slot
    rcases hk op hop with h | h | h
    · simp [h]
    · simp [h, hmi]
    · simp [h, hri, hrm]

/-- C17, instances: a register, an immediate and a memory operand come back as the three
wrappers in that order, and an instruction without operands gives the empty list. -/
theorem getOperands_instances :
    (Instruction_getOperands (instWith [regOp 1, immOp 5, memOp 4096])).1
      = PyReturn.list [some (PyObject.registerOperand ⟨1, 0, false⟩),
          some (PyObject.immediateOperand ⟨5, 32⟩),
          some (PyObject.memoryOperand ⟨4096, 4, 0⟩)]
    ∧ (Instruction_getOperands (instWith [])).1 = PyReturn.list []
    ∧ ∃ items, (Instruction_getOperands (instWith [regOp 1, immOp 5, memOp 4096])).1
        = PyReturn.list items ∧ items.length = 3 :=
  ⟨by decide, by decide,
    (getOperands_wraps_all (instWith [regOp 1, immOp 5, memOp 4096]) (by decide)
      (by decide)).imp fun _ h => ⟨h.1, h.2.1⟩⟩

/-- C18: for an instruction with fewer than `2 ^ 32` symbolic expressions,
`getSymbolicExpressions` returns a list of as many slots, whose slot `i` holds the wrapper
of expression `i`: the list of the wrappers in the order of production, none dropped, none
repeated; the instruction is left as it was. -/
theorem getSymbolicExpressions_wraps_all (inst : Instruction)
    (h32 : inst.symbolicExpressions.length < 4294967296) :
    (Instruction_getSymbolicExpressions inst).1
      = PyReturn.list (inst.symbolicExpressions.map fun e =>
          some (PyObject.symbolicExpression e))
    ∧ (∃ items, (Instruction_getSymbolicExpressions inst).1 = PyReturn.list items
        ∧ items.length = inst.symbolicExpressions.length
        ∧ ∀ (i : Nat) (e : SymbolicElement), inst.symbolicExpressions[i]? = some e →
            items[i]? = some (some (PyObject.symbolicExpression e)))
    ∧ (Instruction_getSymbolicExpressions inst).2 = inst := by
  refine ⟨getSymbolicExpressions_slots inst h32,
    ⟨_, getSymbolicExpressions_slots inst h32, by simp, ?_⟩, rfl⟩
  intro i e he
  simp [List.getElem?_map, he, PySymbolicExpression]

/-- C18, instance: the sum and its zero flag come back wrapped, the sum first. -/
theorem getSymbolicExpressions_instance :
    instWithExpressions.symbolicExpressions.length < 4294967296
    ∧ (Instruction_getSymbolicExpressions instWithExpressions).1
      = PyReturn.list
          [some (PyObject.symbolicExpression
            ⟨0, "(bvadd 0x0000000A:32 0x00000005:32)", Destination.reg RAX, false⟩),
           some (PyObject.symbolicExpression
            ⟨1, "(bvadd 0x0000000A:32 0x00000005:32) == 0", Destination.reg ZF, false⟩)] :=
  ⟨by decide, (getSymbolicExpressions_wraps_all instWithExpressions (by decide)).1⟩

/-- C22: for an instruction with fewer than `2 ^ 32` operands whose operand `j` is no
immediate, memory or register, `getOperands` still returns a list with one slot for each
operand; the slot of every immediate, memory or register operand holds the wrapper of
that operand, at the index of the operand; and slot `j` is empty, no object having been
put there. -/
theorem getOperands_keeps_positions (inst : Instruction)
    (h32 : inst.operands.length < 4294967296) (j : Nat) (opj : OperandWrapper)
    (hj : inst.operands[j]? = some opj)
    (hother : opj.getType ≠ OP_IMM ∧ opj.getType ≠ OP_MEM ∧ opj.getType ≠ OP_REG) :
    ∃ items, (Instruction_getOperands inst).1 = PyReturn.list items
      ∧ items.length = inst.operands.length
      ∧ (∀ (i : Nat) (op : OperandWrapper), inst.operands[i]? = some op →
          (op.getType = OP_IMM → items[i]? = some (some (PyObject.immediateOperand op.imm)))
          ∧ (op.getType = OP_MEM → items[i]? = some (some (PyObject.memoryOperand op.mem)))
          ∧ (op.getType = OP_REG → items[i]? = some (some (PyObject.registerOperand op.reg))))
      ∧ items[j]? = some Option.none := by
  have hmi : OP_MEM ≠ OP_IMM := by decide
  have hri : OP_REG ≠ OP_IMM := by decide
  have hrm : OP_REG ≠ OP_MEM := by decide
  refine ⟨inst.operands.map OperandWrapper.slot, getOperands_slots inst h32, by simp, ?_, ?_⟩
  · intro i op hop
    simp only [List.getElem?_map, hop, Option.map_some', OperandWrapper.slot]
    refine ⟨?_, ?_, ?_⟩
    · intro h; simp [h]
    · intro h; simp [h, hmi]
    · intro h; simp [h, hri, hrm]
  · simp [List.getElem?_map, hj, OperandWrapper.slot, hother.1, hother.2.1, hother.2.2]

/-- C22, instance: a register, an operand of another type and an immediate come back as the
register wrapper at index 0, an empty slot at index 1 and the immediate wrapper at index 2. -/
theorem getOperands_keeps_positions_instance :
    (instWith [regOp 1, invalidOp, immOp 5]).operands.length < 4294967296
    ∧ (instWith [regOp 1, invalidOp, immOp 5]).operands[1]? = some invalidOp
    ∧ (invalidOp.getType ≠ OP_IMM ∧ invalidOp.getType ≠ OP_MEM ∧ invalidOp.getType ≠ OP_REG)
    ∧ (Instruction_getOperands (instWith [regOp 1, invalidOp, immOp 5])).1
      = PyReturn.list [some (PyObject.registerOperand ⟨1, 0, false⟩), Option.none,
          some (PyObject.immediateOperand ⟨5, 32⟩)]
    ∧ ∃ items, (Instruction_getOperands (instWith [regOp 1, invalidOp, immOp 5])).1
        = PyReturn.list items ∧ items.length = 3 ∧ items[1]? = some Option.none :=
  ⟨by decide, by decide, by decide, by decide,
    (getOperands_keeps_positions (instWith [regOp 1, invalidOp, immOp 5]) (by decide) 1
      invalidOp (by decide) (by decide)).imp fun _ h => ⟨h.1, h.2.1, h.2.2.2⟩⟩

/-! ## References to older elements -/

/-- Registering a register element keeps the ids of the session issued before. -/
theorem issuedBefore_createReg (s : Session) (h : s.IssuedBefore) (expr : String) (c : Nat) :
    (Session.createRegisterElement expr c s).2.IssuedBefore := by
  refine ⟨?_, ?_⟩
  · intro k hk
    simp only [Session.createRegisterElement] at hk ⊢
    by_cases hc : k = c
    · simp [hc]
    · simp only [hc, if_false] at hk ⊢
      exact Nat.lt_succ_of_lt (h.1 k hk)
  · intro a ha
    simp only [Session.createRegisterElement] at ha ⊢
    exact Nat.lt_succ_of_lt (h.2 a ha)

/-- Registering a memory element keeps the ids of the session issued before. -/
theorem issuedBefore_createMem (s : Session) (h : s.IssuedBefore) (expr : String) (c : Nat) :
    (Session.createMemoryElement expr c s).2.IssuedBefore := by
  refine ⟨?_, ?_⟩
  · intro k hk
    simp only [Session.createMemoryElement] at hk ⊢
    exact Nat.lt_succ_of_lt (h.1 k hk)
  · intro a ha
    simp only [Session.createMemoryElement] at ha ⊢
    by_cases hc : a = c
    · simp [hc]
    · simp only [hc, if_false] at ha ⊢
      exact Nat.lt_succ_of_lt (h.2 a ha)

/-- The empty session holds no id. -/
theorem issuedBefore_empty : Session.empty.IssuedBefore := by
  refine ⟨?_, ?_⟩ <;> intro k hk <;> exact absurd rfl hk

/-- A session with the tables and the counter of another one holds ids issued before if
the other one does; the taint rules change neither the tables nor the counter. -/
theorem issuedBefore_of_tables (s s1 : Session) (hr : s1.regTable = s.regTable)
    (hm : s1.memTable = s.memTable) (hn : s1.nextID = s.nextID) (h : s.IssuedBefore) :
    s1.IssuedBefore := by
  unfold Session.IssuedBefore
  rw [hr, hm, hn]
  exact h

/-- A session reached by a handler tail from a session whose ids were issued before. -/
theorem primaryRefersTo_intro (zfReg : Nat) (s s1 : Session) (inst : Inst)
    (se : SymbolicElement) (expr : String) (ids : List Nat) (hid : se.id = s.nextID)
    (hexpr : se.expression = expr) (hids : ∀ id ∈ ids, id ≠ UNSET → id < s.nextID)
    (h1 : s1.IssuedBefore) :
    PrimaryRefersTo s inst expr ids
      (AddIRBuilder.addElements (Session.externals zfReg) se s1 inst) := by
  rw [addElements_session]
  refine ⟨se, _, rfl, hid, hexpr, ?_,
    issuedBefore_createReg s1 h1 (se.expression ++ " == 0") zfReg⟩
  intro id hmem hne
  rw [hid]
  exact hids id hmem hne

/-- C21: in every handler the lookups come first in the calls and the expression handed to
the create call is built from the ids they returned, so every `#id` of the expression was
read before the element was created; on the session of the specification, where the
element takes the next fresh id and the ids held were issued before, each symbolic id the
primary expression refers to is smaller than the id of the primary element, and the ids
held afterwards were again issued before. -/
theorem references_older_ids {σ : Type} (E : Externals σ) (ctxH : ContextHandler)
    (address : Nat) (disas : String) (t0 t1 reg reg2 sr sr2 mem size imm si : Nat)
    (rest : List Operand) (ap : σ) (inst : Inst) (zfReg : Nat) (s : Session)
    (hs : s.IssuedBefore) :
    let X := Session.externals zfReg
    let c := ctxH.translateRegID reg
    let c2 := ctxH.translateRegID reg2
    let w := ctxH.getRegisterSize reg
    let vReg := ctxH.getRegisterValue reg
    let vReg2 := ctxH.getRegisterValue reg2
    let vMem := ctxH.getMemoryValue mem size
    let bRegImm : AddIRBuilder := ⟨address, disas, (t0, reg, sr) :: (t1, imm, si) :: rest⟩
    let bRegReg : AddIRBuilder := ⟨address, disas, (t0, reg, sr) :: (t1, reg2, sr2) :: rest⟩
    let bRegMem : AddIRBuilder := ⟨address, disas, (t0, reg, sr) :: (t1, mem, size) :: rest⟩
    let bMemImm : AddIRBuilder := ⟨address, disas, (t0, mem, size) :: (t1, imm, si) :: rest⟩
    let bMemReg : AddIRBuilder := ⟨address, disas, (t0, mem, size) :: (t1, reg, sr) :: rest⟩
    (∃ id se0 tail, calls (AddIRBuilder.regImm E.recording bRegImm ctxH (ap, []) inst)
      = Call.getRegSymbolicID c id
        :: Call.createRegSE
            ("(bvadd " ++ operandText E id vReg w ++ " " ++ E.bv imm w ++ ")") c se0
        :: tail)
    ∧ (∃ id1 id2 se0 tail, calls (AddIRBuilder.regReg E.recording bRegReg ctxH (ap, []) inst)
      = Call.getRegSymbolicID c id1 :: Call.getRegSymbolicID c2 id2
        :: Call.createRegSE
            ("(bvadd " ++ operandText E id1 vReg w ++ " " ++ operandText E id2 vReg2 w ++ ")")
            c se0
        :: tail)
    ∧ (∃ id1 id2 se0 tail, calls (AddIRBuilder.regMem E.recording bRegMem ctxH (ap, []) inst)
      = Call.getRegSymbolicID c id1 :: Call.getMemorySymbolicID mem id2
        :: Call.createRegSE
            ("(bvadd " ++ operandText E id1 vReg size ++ " " ++ operandText E id2 vMem size
              ++ ")") c se0
        :: tail)
    ∧ (∃ id se0 tail, calls (AddIRBuilder.memImm E.recording bMemImm ctxH (ap, []) inst)
      = Call.getMemorySymbolicID mem id
        :: Call.createMemSE
            ("(bvadd " ++ operandText E id vMem size ++ " " ++ E.bv imm size ++ ")") mem se0
        :: tail)
    ∧ (∃ id1 id2 se0 tail, calls (AddIRBuilder.memReg E.recording bMemReg ctxH (ap, []) inst)
      = Call.getRegSymbolicID c id1 :: Call.getMemorySymbolicID mem id2
        :: Call.createMemSE
            ("(bvadd " ++ operandText E id2 vMem size ++ " " ++ operandText E id1 vReg size
              ++ ")") mem se0
        :: tail)
    ∧ PrimaryRefersTo s inst
        ("(bvadd " ++ operandText X (s.resolveRegister c) vReg w ++ " " ++ smt2lib.bv imm w
          ++ ")")
        [s.resolveRegister c] (AddIRBuilder.regImm X bRegImm ctxH s inst)
    ∧ PrimaryRefersTo s inst
        ("(bvadd " ++ operandText X (s.resolveRegister c) vReg w ++ " "
          ++ operandText X (s.resolveRegister c2) vReg2 w ++ ")")
        [s.resolveRegister c, s.resolveRegister c2]
        (AddIRBuilder.regReg X bRegReg ctxH s inst)
    ∧ PrimaryRefersTo s inst
        ("(bvadd " ++ operandText X (s.resolveRegister c) vReg size ++ " "
          ++ operandText X (s.resolveMemory mem) vMem size ++ ")")
        [s.resolveRegister c, s.resolveMemory mem]
        (AddIRBuilder.regMem X bRegMem ctxH s inst)
    ∧ PrimaryRefersTo s inst
        ("(bvadd " ++ operandText X (s.resolveMemory mem) vMem size ++ " "
          ++ smt2lib.bv imm size ++ ")")
        [s.resolveMemory mem] (AddIRBuilder.memImm X bMemImm ctxH s inst)
    ∧ PrimaryRefersTo s inst
        ("(bvadd " ++ operandText X (s.resolveMemory mem) vMem size ++ " "
          ++ operandText X (s.resolveRegister c) vReg size ++ ")")
        [s.resolveMemory mem, s.resolveRegister c]
        (AddIRBuilder.memReg X bMemReg ctxH s inst) := by
  intro X c c2 w vReg vReg2 vMem bRegImm bRegReg bRegMem bMemImm bMemReg
  have hreg : ∀ k id, id = s.resolveRegister k → id ≠ UNSET → id < s.nextID := by
    intro k id h hne
    rw [h] at hne ⊢
    exact hs.1 k hne
  have hmem : ∀ a id, id = s.resolveMemory a → id ≠ UNSET → id < s.nextID := by
    intro a id h hne
    rw [h] at hne ⊢
    exact hs.2 a hne
  refine ⟨?_, ?_, ?_, ?_, ?_, ?_, ?_, ?_, ?_, ?_⟩
  · rw [regImm_calls]
    simp only [bRegImm, AddIRBuilder.operand, List.getD_cons_zero, List.getD_cons_succ,
      immediate_text]
    exact ⟨_, _, _, rfl⟩
  · rw [regReg_calls]
    simp only [bRegReg, AddIRBuilder.operand, List.getD_cons_zero, List.getD_cons_succ,
      operand_text]
    exact ⟨_, _, _, _, rfl⟩
  · rw [regMem_calls]
    simp only [bRegMem, AddIRBuilder.operand, List.getD_cons_zero, List.getD_cons_succ,
      operand_text]
    exact ⟨_, _, _, _, rfl⟩
  · rw [memImm_calls]
    simp only [bMemImm, AddIRBuilder.operand, List.getD_cons_zero, List.getD_cons_succ,
      immediate_text]
    exact ⟨_, _, _, rfl⟩
  · rw [memReg_calls]
    simp only [bMemReg, AddIRBuilder.operand, List.getD_cons_zero, List.getD_cons_succ,
      operand_text]
    exact ⟨_, _, _, _, rfl⟩
  · simp only [AddIRBuilder.regImm]
    refine primaryRefersTo_intro zfReg s _ inst _ _ _ rfl ?_ ?_ ?_
    · simp only [X, bRegImm, Session.externals, Session.aluSpreadTaintRegImm,
        Session.createRegisterElement, AddIRBuilder.operand, List.getD_cons_zero,
        List.getD_cons_succ, operandText, immediate_text]
    · intro id hm hne
      simp only [List.mem_cons, List.mem_singleton, List.not_mem_nil, or_false] at hm
      exact hreg _ id hm hne
    · exact issuedBefore_of_tables (Session.createRegisterElement "" _ s).2 _ rfl rfl rfl
        (issuedBefore_createReg s hs "" _)
  · simp only [AddIRBuilder.regReg]
    refine primaryRefersTo_intro zfReg s _ inst _ _ _ rfl ?_ ?_ ?_
    · simp only [X, bRegReg, Session.externals, Session.aluSpreadTaintRegReg,
        Session.createRegisterElement, AddIRBuilder.operand, List.getD_cons_zero,
        List.getD_cons_succ, operandText, operand_text]
    · intro id hm hne
      simp only [List.mem_cons, List.mem_singleton, List.not_mem_nil, or_false] at hm
      rcases hm with h | h
      · exact hreg _ id h hne
      · exact hreg _ id h hne
    · exact issuedBefore_of_tables (Session.createRegisterElement "" _ s).2 _ rfl rfl rfl
        (issuedBefore_createReg s hs "" _)
  · simp only [AddIRBuilder.regMem]
    refine primaryRefersTo_intro zfReg s _ inst _ _ _ rfl ?_ ?_ ?_
    · simp only [X, bRegMem, Session.externals, Session.aluSpreadTaintRegMem,
        Session.createRegisterElement, AddIRBuilder.operand, List.getD_cons_zero,
        List.getD_cons_succ, operandText, operand_text]
    · intro id hm hne
      simp only [List.mem_cons, List.mem_singleton, List.not_mem_nil, or_false] at hm
      rcases hm with h | h
      · exact hreg _ id h hne
      · exact hmem _ id h hne
    · exact issuedBefore_of_tables (Session.createRegisterElement "" _ s).2 _ rfl rfl rfl
        (issuedBefore_createReg s hs "" _)
  · simp only [AddIRBuilder.memImm]
    refine primaryRefersTo_intro zfReg s _ inst _ _ _ rfl ?_ ?_ ?_
    · simp only [X, bMemImm, Session.externals, Session.aluSpreadTaintMemImm,
        Session.createMemoryElement, AddIRBuilder.operand, List.getD_cons_zero,
        List.getD_cons_succ, operandText, immediate_text]
    · intro id hm hne
      simp only [List.mem_cons, List.mem_singleton, List.not_mem_nil, or_false] at hm
      exact hmem _ id hm hne
    · exact issuedBefore_of_tables (Session.createMemoryElement "" _ s).2 _ rfl rfl rfl
        (issuedBefore_createMem s hs "" _)
  · simp only [AddIRBuilder.memReg]
    refine primaryRefersTo_intro zfReg s _ inst _ _ _ rfl ?_ ?_ ?_
    · simp only [X, bMemReg, Session.externals, Session.aluSpreadTaintMemReg,
        Session.createMemoryElement, AddIRBuilder.operand, List.getD_cons_zero,
        List.getD_cons_succ, operandText, operand_text]
    · intro id hm hne
      simp only [List.mem_cons, List.mem_singleton, List.not_mem_nil, or_false] at hm
      rcases hm with h | h
      · exact hmem _ id h hne
      · exact hreg _ id h hne
    · exact issuedBefore_of_tables (Session.createMemoryElement "" _ s).2 _ rfl rfl rfl
        (issuedBefore_createMem s hs "" _)

/-- The ids of the session of Scenario B were issued before: it holds the id 3 and the next
id is 4. -/
theorem issuedBefore_scenarioB : scenarioB.IssuedBefore := by
  refine ⟨?_, ?_⟩
  · intro k hk
    by_cases h : k = RAX
    · simp [scenarioB, h]
    · simp [scenarioB, h] at hk
  · intro a ha
    exact absurd rfl ha

/-- C21, the same register as source and destination: with `EAX` last written by element
3, `ADD EAX, EAX` creates the element 4 with the expression `(bvadd #3 #3)`, which refers
to the older element only. -/
theorem references_older_ids_same_register :
    scenarioB.IssuedBefore
    ∧ PrimaryRefersTo scenarioB addEaxEax.newInst "(bvadd #3 #3)" [3, 3]
        (AddIRBuilder.regReg (Session.externals ZF) addEaxEax scenarioCtx scenarioB
          addEaxEax.newInst)
    ∧ (AddIRBuilder.regReg (Session.externals ZF) addEaxEax scenarioCtx scenarioB
          addEaxEax.newInst).inst.elements.map (fun se => (se.id, se.expression))
      = [(4, "(bvadd #3 #3)"), (5, "(bvadd #3 #3) == 0")] :=
  ⟨issuedBefore_scenarioB,
    (references_older_ids (Session.externals ZF) scenarioCtx 4194304 "add eax, eax" 1 1 EAX EAX
      32 32 4096 32 5 32 [] scenarioB addEaxEax.newInst ZF scenarioB
      issuedBefore_scenarioB).2.2.2.2.2.2.1,
    by decide⟩

end Triton
